import Mathlib

/-!
# ELbow sequencer firmware: shallow embedding of `main.c` and `eepromVariables.h`

The firmware keeps all of its state in globals, function-local statics, two
output port registers and the EEPROM.  The embedding gathers them in one
record, `Device`, and every C function becomes a function on that record.

Conventions
* `uint8_t` and `uint16_t` values are natural numbers; every operation that can
  leave the range in C is followed by an explicit `% 256` or `% 65536`.
* `~m` applied to an 8-bit mask is `255 ^^^ m`.
* `millis` is written by the timer interrupt only; a function that reads it
  receives the reading as an argument.  `PINB` is passed the same way.
* a `for` loop with a fixed bound is a recursion on the number of
  iterations that remain, so every function is total.
-/

namespace ELbow

/-! ## Constants (`#define`s of main.c) -/

abbrev RUN : Nat := 0
abbrev PROGRAM : Nat := 1

abbrev BTN_UPDATE_INTERVAL : Nat := 5
abbrev BTN_HOLD_DELAY : Nat := 2000
abbrev EEPROMSAVEINTERVAL : Nat := 1000

/-- Bit number of the status LED in PORTD (`PD6`). -/
abbrev STATUSLED : Nat := 6

abbrev EDGE_RISE : Nat := 0b01111111
abbrev EDGE_FALL : Nat := 0b11111110
abbrev STABLE_POS : Nat := 0b11111111
abbrev STABLE_NEG : Nat := 0b00000000

abbrev STATUS_PRESSED : Nat := 0b00000001
abbrev STATUS_RELEASED : Nat := 0b00000010
abbrev STATUS_ACTIVE : Nat := 0b00000100
abbrev STATUS_INACTIVE : Nat := 0b00001000
abbrev STATUS_HELD : Nat := 0b00010000

abbrev OFF : Nat := 0
abbrev ON : Nat := 1
abbrev SLOWBLINK : Nat := 400
abbrev FASTBLINK : Nat := 50
abbrev STUTTERBLINK : Nat := 300

abbrev PLAY_FORWARD : Nat := 0
abbrev PLAY_REVERSE : Nat := 1
abbrev PLAY_BOUNCE : Nat := 2

abbrev BTN1 : Nat := 0
abbrev BTN2 : Nat := 1
abbrev BTN3 : Nat := 2
abbrev BTN4 : Nat := 3
abbrev BTN5 : Nat := 4
abbrev BTN6 : Nat := 5
abbrev BTNUP : Nat := 6
abbrev BTNDN : Nat := 7

/-! ## Data model -/

/-- The `button` struct: debounce history, press timer, status flags. -/
structure button where
  edgeDetect : Nat
  pressTimer : Nat
  statusFlags : Nat
deriving DecidableEq, Repr

/-- The EEPROM variables of eepromVariables.h.  An array is a function of the
index; only indices below the declared length are ever used for the frame
arrays, because `mapEEPROM` reduces the index first.  `atNull` is the byte at
EEPROM address 0, which the null pointer returned by the `default` case of
`mapEEPROM` designates; which variable the linker puts there is not fixed by
the source, so it is a cell of its own. -/
structure EEPROM where
  patternData1 : Nat → Nat
  patternData2 : Nat → Nat
  patternData3 : Nat → Nat
  patternData4 : Nat → Nat
  patternData5 : Nat → Nat
  patternData6 : Nat → Nat
  patternConfig : Nat → Nat
  lastPlaybackPattern : Nat
  atNull : Nat

/-- A pointer into the EEPROM frame arrays, as returned by `mapEEPROM`. -/
inductive EEPtr where
  | data1 (k : Nat)
  | data2 (k : Nat)
  | data3 (k : Nat)
  | data4 (k : Nat)
  | data5 (k : Nat)
  | data6 (k : Nat)
  | null
deriving DecidableEq, Repr

/-- All mutable state of the firmware.
`debounceEvent`, `statusBlinkCounter`, `playbackCounter` and
`EEPROMSaveCounter` are the function-local statics of `processButtons`,
`processStatusLED`, `processOutputs` and `processEEPROMsave`.
`channelLog` is a ghost field: the arguments of the calls of `writeChannels`
so far, oldest first (the output sink as a trace). -/
structure Device where
  machineState : Nat
  statusBlinkDelay : Nat
  playbackDelay : Nat
  playbackIndex : Nat
  playbackConfig : Nat
  playbackPattern : Nat
  playbackMarkerPos : Nat
  playbackDir : Nat
  outByte : Nat
  Buttons : Nat → button
  debounceEvent : Nat
  statusBlinkCounter : Nat
  playbackCounter : Nat
  EEPROMSaveCounter : Nat
  PORTA : Nat
  PORTD : Nat
  eeprom : EEPROM
  channelLog : List Nat

/-- Unsigned 16-bit subtraction `a - b` of two `uint16_t` readings. -/
def sub16 (a b : Nat) : Nat := (a % 65536 + 65536 - b % 65536) % 65536

/-- Array store `a[i] = v`. -/
def setAt {α : Type} (a : Nat → α) (i : Nat) (v : α) : Nat → α :=
  fun j => if j = i then v else a j

/-! ## Button debouncing (main.c 94-166) -/

/-- Body of the `for` loop of `updateButtons`, applied to `Buttons[i]`;
`active` is the outcome of the test `inputByte & (1 << i)`. -/
def updateButton (b : button) (active : Bool) : button :=
  let e0 := (b.edgeDetect <<< 1) % 256
  let e := if active then e0 ||| 1 else e0
  if e = EDGE_RISE then
    { edgeDetect := e
      statusFlags := (b.statusFlags ||| STATUS_PRESSED) &&& (255 ^^^ (STATUS_RELEASED ||| STATUS_HELD))
      pressTimer := 7 * BTN_UPDATE_INTERVAL }
  else if e = EDGE_FALL then
    { edgeDetect := e
      statusFlags := b.statusFlags ||| STATUS_RELEASED
      pressTimer := 0 }
  else if e = STABLE_POS then
    if b.statusFlags &&& STATUS_PRESSED ≠ 0 then
      let f := (b.statusFlags ||| STATUS_ACTIVE) &&& (255 ^^^ STATUS_INACTIVE)
      let t := (b.pressTimer + BTN_UPDATE_INTERVAL) % 65536
      { edgeDetect := e
        statusFlags := if t > BTN_HOLD_DELAY then f ||| STATUS_HELD else f
        pressTimer := if t > 10000 then 10000 else t }
    else
      { b with edgeDetect := e }
  else if e = STABLE_NEG then
    { edgeDetect := e
      statusFlags := (b.statusFlags ||| STATUS_INACTIVE) &&& (255 ^^^ STATUS_ACTIVE)
      pressTimer := 0 }
  else
    { b with edgeDetect := e }

/-- The `for (i = 0; i < 8; i++)` loop of `updateButtons`: `k` iterations
remain, the next one is for channel `i`. -/
def updateButtonsLoop (inputByte : Nat) : Nat → Nat → (Nat → button) → (Nat → button)
  | 0, _, bs => bs
  | k + 1, i, bs =>
    updateButtonsLoop inputByte k (i + 1)
      (setAt bs i (updateButton (bs i) (decide (inputByte &&& (1 <<< i) ≠ 0))))

/-- Function `updateButtons`; `PINB` is the reading of the input port. -/
def updateButtons (s : Device) (PINB : Nat) : Device :=
  let inputByte := 255 - PINB % 256
  { s with Buttons := updateButtonsLoop inputByte 8 0 s.Buttons }

/-- Replace the status flags of `Buttons[buttonID]`. -/
def setFlags (s : Device) (buttonID f : Nat) : Device :=
  { s with Buttons := setAt s.Buttons buttonID { s.Buttons buttonID with statusFlags := f } }

/-- Function `checkHeld`: the returned byte (1 as `true`) and the new state. -/
def checkHeld (s : Device) (buttonID : Nat) : Bool × Device :=
  if (s.Buttons buttonID).statusFlags &&& STATUS_HELD ≠ 0 then
    (true, setFlags s buttonID
      ((s.Buttons buttonID).statusFlags &&& (255 ^^^ (STATUS_HELD ||| STATUS_PRESSED))))
  else
    (false, s)

/-- Function `checkClicked`. -/
def checkClicked (s : Device) (buttonID : Nat) : Bool × Device :=
  if (s.Buttons buttonID).statusFlags &&& (STATUS_RELEASED ||| STATUS_PRESSED)
      = (STATUS_RELEASED ||| STATUS_PRESSED) then
    (true, setFlags s buttonID
      ((s.Buttons buttonID).statusFlags
        &&& (255 ^^^ (STATUS_RELEASED ||| STATUS_PRESSED ||| STATUS_HELD))))
  else
    (false, s)

/-- Function `checkActive`. -/
def checkActive (s : Device) (buttonID : Nat) : Bool :=
  if (s.Buttons buttonID).statusFlags &&& STATUS_ACTIVE ≠ 0 then true else false

/-- The loop of `clearButtonFlags`. -/
def clearButtonFlagsLoop (flags : Nat) : Nat → Nat → (Nat → button) → (Nat → button)
  | 0, _, bs => bs
  | k + 1, i, bs =>
    clearButtonFlagsLoop flags k (i + 1)
      (setAt bs i { bs i with statusFlags := (bs i).statusFlags &&& (255 ^^^ flags) })

/-- Function `clearButtonFlags`. -/
def clearButtonFlags (s : Device) (flags : Nat) : Device :=
  { s with Buttons := clearButtonFlagsLoop flags 8 0 s.Buttons }

/-! ## Outputs (main.c 168-197) -/

/-- Function `writeChannels`: drives PORTD bits 2..5 and PORTA bits 0..1, and
records the call in the ghost trace. -/
def writeChannels (s : Device) (inByte : Nat) : Device :=
  let b := (inByte % 256) ||| 0b11000000
  { s with
    PORTD := (s.PORTD &&& 0b11000011) ||| (b &&& 0b00111100)
    PORTA := (s.PORTA &&& 0b11111100) ||| ((b &&& 0b0000001) <<< 1) ||| ((b &&& 0b00000010) >>> 1)
    channelLog := s.channelLog ++ [inByte % 256] }

/-- Function `setStatusLED`. -/
def setStatusLED (s : Device) (status : Nat) : Device :=
  if status = ON then
    { s with PORTD := s.PORTD ||| (1 <<< STATUSLED), statusBlinkDelay := 0 }
  else if status = OFF then
    { s with PORTD := s.PORTD &&& (255 ^^^ (1 <<< STATUSLED)), statusBlinkDelay := 0 }
  else
    { s with statusBlinkDelay := status }

/-! ## Pattern store (main.c 210-292) -/

/-- Function `mapEEPROM`. -/
def mapEEPROM (pattern index : Nat) : EEPtr :=
  match pattern with
  | 0 => EEPtr.data1 (index % 8)
  | 1 => EEPtr.data2 (index % 8)
  | 2 => EEPtr.data3 (index % 16)
  | 3 => EEPtr.data4 (index % 16)
  | 4 => EEPtr.data5 (index % 32)
  | 5 => EEPtr.data6 (index % 32)
  | _ => EEPtr.null

/-- Library call `eeprom_read_byte`. -/
def eeprom_read_byte (ee : EEPROM) : EEPtr → Nat
  | EEPtr.data1 k => ee.patternData1 k % 256
  | EEPtr.data2 k => ee.patternData2 k % 256
  | EEPtr.data3 k => ee.patternData3 k % 256
  | EEPtr.data4 k => ee.patternData4 k % 256
  | EEPtr.data5 k => ee.patternData5 k % 256
  | EEPtr.data6 k => ee.patternData6 k % 256
  | EEPtr.null => ee.atNull % 256

/-- Library call `eeprom_update_byte`: the cell holds `data` afterwards (the
physical write is skipped when it already does). -/
def eeprom_update_byte (ee : EEPROM) (p : EEPtr) (data : Nat) : EEPROM :=
  match p with
  | EEPtr.data1 k => { ee with patternData1 := setAt ee.patternData1 k (data % 256) }
  | EEPtr.data2 k => { ee with patternData2 := setAt ee.patternData2 k (data % 256) }
  | EEPtr.data3 k => { ee with patternData3 := setAt ee.patternData3 k (data % 256) }
  | EEPtr.data4 k => { ee with patternData4 := setAt ee.patternData4 k (data % 256) }
  | EEPtr.data5 k => { ee with patternData5 := setAt ee.patternData5 k (data % 256) }
  | EEPtr.data6 k => { ee with patternData6 := setAt ee.patternData6 k (data % 256) }
  | EEPtr.null => { ee with atNull := data % 256 }

/-- Library call `eeprom_read_word` on `&patternConfig[k]`. -/
def eeprom_read_word (ee : EEPROM) (k : Nat) : Nat := ee.patternConfig k % 65536

/-- Library call `eeprom_update_word` on `&patternConfig[k]`. -/
def eeprom_update_word (ee : EEPROM) (k data : Nat) : EEPROM :=
  { ee with patternConfig := setAt ee.patternConfig k (data % 65536) }

/-- Function `getFrame`, on the EEPROM contents. -/
def getFrame (ee : EEPROM) (pattern index : Nat) : Nat :=
  eeprom_read_byte ee (mapEEPROM pattern (index % 256))

/-- Function `writeFrame`, on the EEPROM contents (interrupt masking and the
busy wait have no effect on the stored data). -/
def writeFrame (ee : EEPROM) (pattern index data : Nat) : EEPROM :=
  eeprom_update_byte ee (mapEEPROM pattern (index % 256)) data

/-- Function `getPatternMax`, of the global `playbackPattern`. -/
def getPatternMax (playbackPattern : Nat) : Nat :=
  match playbackPattern with
  | 0 => 7
  | 1 => 7
  | 2 => 15
  | 3 => 15
  | 4 => 31
  | 5 => 31
  | _ => 0

/-- The marker scan of `loadPatternConfigs`:
`for (i = ..; i < playbackMarkerPos; i++) if (getFrame(playbackPattern, i) & 0x80) { playbackMarkerPos = i; break; }`
with `k` iterations left before `i` reaches `playbackMarkerPos`; the result is
the final `playbackMarkerPos`. -/
def markerScan (ee : EEPROM) (playbackPattern playbackMarkerPos : Nat) : Nat → Nat → Nat
  | 0, _ => playbackMarkerPos
  | k + 1, i =>
    if getFrame ee playbackPattern i &&& 0b10000000 ≠ 0 then i
    else markerScan ee playbackPattern playbackMarkerPos k (i + 1)

/-- Function `loadPatternConfigs`.  The settings word is read at index
`pattern`; the marker scan uses the global `playbackPattern`. -/
def loadPatternConfigs (s : Device) (pattern : Nat) : Device :=
  let max := getPatternMax s.playbackPattern
  { s with
    playbackDelay := eeprom_read_word s.eeprom pattern &&& 0x0FFF
    playbackConfig := (eeprom_read_word s.eeprom pattern >>> 12) % 256
    playbackMarkerPos := markerScan s.eeprom s.playbackPattern max max 0 }

/-! ## Cursor movement and frame output (main.c 295-336) -/

/-- Function `fwdPattern`. -/
def fwdPattern (s : Device) : Device :=
  if s.playbackIndex < getPatternMax s.playbackPattern then
    { s with playbackIndex := (s.playbackIndex + 1) % 256 }
  else s

/-- Function `revPattern`. -/
def revPattern (s : Device) : Device :=
  if s.playbackIndex > 0 then
    { s with playbackIndex := (s.playbackIndex + 255) % 256 }
  else s

/-- Function `nextFrame`. -/
def nextFrame (s : Device) : Device :=
  let s1 := { s with outByte := getFrame s.eeprom s.playbackPattern s.playbackIndex }
  let s2 := writeChannels s1 s1.outByte
  if s2.outByte &&& 0b10000000 ≠ 0 then
    setStatusLED s2 FASTBLINK
  else if s2.playbackIndex = getPatternMax s2.playbackPattern ∨ s2.playbackIndex = 0 then
    setStatusLED (setStatusLED s2 ON) STUTTERBLINK
  else
    setStatusLED s2 SLOWBLINK

/-- Function `clearMarker`. -/
def clearMarker (s : Device) : Device :=
  let tempByte := getFrame s.eeprom s.playbackPattern s.playbackMarkerPos
  { s with eeprom := writeFrame s.eeprom s.playbackPattern s.playbackMarkerPos
                        (tempByte &&& 0b01111111) }

/-- Function `cyclePlaybackMode`. -/
def cyclePlaybackMode (s : Device) : Device :=
  let c := (s.playbackConfig + 1) % 256
  { s with playbackConfig := if c > 2 then 0 else c }

/-! ## Button handling (main.c 348-439) -/

/-- Flags cleared on a mode change: `STATUS_HELD | STATUS_PRESSED | STATUS_RELEASED`. -/
abbrev GESTURE_FLAGS : Nat := STATUS_HELD ||| STATUS_PRESSED ||| STATUS_RELEASED

/-- Body of `if (checkHeld(5-i))` in the RUN loop (main.c 363-369), up to the
`break`. -/
def enterProgram (s : Device) (i : Nat) : Device :=
  let s1 := setStatusLED s SLOWBLINK
  let s2 := { s1 with machineState := PROGRAM, playbackIndex := 0, playbackPattern := i }
  let s3 := clearButtonFlags s2 GESTURE_FLAGS
  let s4 := nextFrame s3
  loadPatternConfigs s4 i

/-- Body of `if (checkClicked(5-i))` in the RUN loop (main.c 374-380). -/
def selectOrCycle (s : Device) (i : Nat) : Device :=
  if s.playbackPattern = i then cyclePlaybackMode s
  else loadPatternConfigs { s with playbackPattern := i, playbackIndex := 0 } i

/-- The `for (i = 0; i < 6; i++)` loop of the RUN branch (main.c 360-383):
`k` iterations remain, the next one has loop variable `i`.  The `break`
ends the recursion. -/
def runButtonsLoop : Nat → Nat → Device → Device
  | 0, _, s => s
  | k + 1, i, s =>
    let h := checkHeld s (5 - i)
    if h.1 then enterProgram h.2 i
    else
      let c := checkClicked h.2 (5 - i)
      runButtonsLoop k (i + 1) (if c.1 then selectOrCycle c.2 i else c.2)

/-- Block `if (checkClicked(BTNUP))` of the RUN branch (main.c 386-389). -/
def runAdjustUp (s : Device) : Device :=
  let c := checkClicked s BTNUP
  if c.1 then
    let d := (c.2.playbackDelay + (c.2.playbackDelay >>> 3)) % 65536
    { c.2 with playbackDelay := if d > 2000 then 2000 else d }
  else c.2

/-- Block `if (checkClicked(BTNDN))` of the RUN branch (main.c 391-394). -/
def runAdjustDown (s : Device) : Device :=
  let c := checkClicked s BTNDN
  if c.1 then
    let d := sub16 c.2.playbackDelay (c.2.playbackDelay >>> 3)
    { c.2 with playbackDelay := if d < 8 then 8 else d }
  else c.2

/-- The RUN branch of `processButtons` (main.c 360-394). -/
def runButtons (s : Device) : Device :=
  runAdjustDown (runAdjustUp (runButtonsLoop 6 0 s))

/-- The `for (i = 0; i < 6; i++)` loop of the PROGRAM branch (main.c 402-412). -/
def programButtonsLoop : Nat → Nat → Device → Device
  | 0, _, s => s
  | k + 1, i, s =>
    let c := checkClicked s (5 - i)
    if c.1 then
      let s1 := { c.2 with outByte := (c.2.outByte ^^^ (1 <<< i)) % 256 }
      programButtonsLoop k (i + 1) (writeChannels s1 s1.outByte)
    else
      let h := checkHeld c.2 i
      if h.1 then
        { clearButtonFlags (setStatusLED h.2 ON) GESTURE_FLAGS with machineState := RUN }
      else programButtonsLoop k (i + 1) h.2

/-- Block `if (checkClicked(BTNUP))` of the PROGRAM branch (main.c 414-418). -/
def programStepBack (s : Device) : Device :=
  let c := checkClicked s BTNUP
  if c.1 then
    let s1 := { c.2 with eeprom := writeFrame c.2.eeprom c.2.playbackPattern c.2.playbackIndex c.2.outByte }
    nextFrame (revPattern s1)
  else c.2

/-- Block `if (checkClicked(BTNDN))` of the PROGRAM branch (main.c 420-424). -/
def programStepForward (s : Device) : Device :=
  let c := checkClicked s BTNDN
  if c.1 then
    let s1 := { c.2 with eeprom := writeFrame c.2.eeprom c.2.playbackPattern c.2.playbackIndex c.2.outByte }
    nextFrame (fwdPattern s1)
  else c.2

/-- Body of `if (checkHeld(BTNUP) || checkHeld(BTNDN))` (main.c 427-431):
clear the old marker, set bit 7 of the output byte, store it at the cursor,
reload the pattern configuration, show the frame. -/
def placeMarker (s : Device) : Device :=
  let s1 := clearMarker s
  let s2 := { s1 with outByte := s1.outByte ||| 0b10000000 }
  let s3 := { s2 with eeprom := writeFrame s2.eeprom s2.playbackPattern s2.playbackIndex s2.outByte }
  let s4 := loadPatternConfigs s3 s3.playbackPattern
  nextFrame s4

/-- Block `if (checkHeld(BTNUP) || checkHeld(BTNDN)) ...` (main.c 426-432);
`||` does not evaluate `checkHeld(BTNDN)` when `checkHeld(BTNUP)` is true. -/
def programMarker (s : Device) : Device :=
  let u := checkHeld s BTNUP
  if u.1 then placeMarker u.2
  else
    let d := checkHeld u.2 BTNDN
    if d.1 then placeMarker d.2 else d.2

/-- The PROGRAM branch of `processButtons` (main.c 402-432). -/
def programButtons (s : Device) : Device :=
  programMarker (programStepForward (programStepBack (programButtonsLoop 6 0 s)))

/-- Function `processButtons`, with the readings of `millis` and `PINB`. -/
def processButtons (s : Device) (millis PINB : Nat) : Device :=
  if sub16 millis s.debounceEvent > BTN_UPDATE_INTERVAL - 1 then
    let s1 := updateButtons { s with debounceEvent := millis % 65536 } PINB
    if s1.machineState = RUN then runButtons s1
    else if s1.machineState = PROGRAM then programButtons s1
    else s1
  else s

/-! ## Status LED, playback and autosave (main.c 442-516) -/

/-- Function `processStatusLED`. -/
def processStatusLED (s : Device) (millis : Nat) : Device :=
  if s.statusBlinkDelay ≠ 0 then
    if sub16 millis s.statusBlinkCounter > s.statusBlinkDelay then
      { s with
        statusBlinkCounter := millis % 65536
        statusBlinkDelay :=
          if s.statusBlinkDelay = 100 then 300
          else if s.statusBlinkDelay = 300 then 100
          else s.statusBlinkDelay
        PORTD := s.PORTD ^^^ (1 <<< STATUSLED) }
    else s
  else s

/-- Lines 466-467 of `processOutputs`: the style fixes the direction for
Forward and Reverse. -/
def setPlaybackDir (s : Device) : Device :=
  if s.playbackConfig = PLAY_FORWARD then { s with playbackDir := 0 }
  else if s.playbackConfig = PLAY_REVERSE then { s with playbackDir := 1 }
  else s

/-- Lines 471-493 of `processOutputs`: one move of the cursor.
`playbackIndex--` and `playbackIndex++` are 8-bit. -/
def advanceCursor (s : Device) : Device :=
  if s.playbackDir = 0 then
    if s.playbackIndex < s.playbackMarkerPos then
      { s with playbackIndex := (s.playbackIndex + 1) % 256 }
    else if s.playbackConfig = PLAY_FORWARD then
      { s with playbackIndex := 0 }
    else if s.playbackConfig = PLAY_BOUNCE then
      { s with playbackDir := 1, playbackIndex := (s.playbackIndex + 255) % 256 }
    else s
  else if s.playbackDir = 1 then
    if s.playbackIndex > 0 then
      { s with playbackIndex := (s.playbackIndex + 255) % 256 }
    else if s.playbackConfig = PLAY_REVERSE then
      { s with playbackIndex := s.playbackMarkerPos }
    else if s.playbackConfig = PLAY_BOUNCE then
      { s with playbackDir := 0, playbackIndex := (s.playbackIndex + 1) % 256 }
    else s
  else s

/-- Lines 470-496 of `processOutputs`: the branch taken when the playback
delay has elapsed. -/
def firePlayback (s : Device) (millis : Nat) : Device :=
  let s1 := advanceCursor { s with playbackCounter := millis % 65536 }
  let s2 := { s1 with outByte := getFrame s1.eeprom s1.playbackPattern s1.playbackIndex }
  writeChannels s2 s2.outByte

/-- Function `processOutputs`. -/
def processOutputs (s : Device) (millis : Nat) : Device :=
  if s.machineState = RUN then
    let s1 := setPlaybackDir s
    if sub16 millis s1.playbackCounter > s1.playbackDelay then firePlayback s1 millis
    else s1
  else s

/-- Function `processEEPROMsave`. -/
def processEEPROMsave (s : Device) (millis : Nat) : Device :=
  if s.machineState = RUN then
    if sub16 millis s.EEPROMSaveCounter > EEPROMSAVEINTERVAL then
      let ee1 := eeprom_update_word s.eeprom s.playbackPattern
        ((s.playbackDelay &&& 0x0FFF) ||| (s.playbackConfig <<< 12))
      let ee2 := { ee1 with lastPlaybackPattern := s.playbackPattern % 256 }
      { s with EEPROMSaveCounter := millis % 65536, eeprom := ee2 }
    else s
  else s

/-! ## Startup and main loop (main.c 520-541), factory data (eepromVariables.h) -/

/-- An initialised array: the listed values, 0 past the end. -/
def ofList (l : List Nat) : Nat → Nat := fun i => l.getD i 0

/-- The EEPROM image of eepromVariables.h. -/
def factoryEEPROM : EEPROM where
  patternData1 := ofList [0b00000001, 0b00000010, 0b00000100, 0b00001000, 0b00010000, 0b10100000, 0, 0]
  patternData2 := ofList [0b00000000, 0b00000001, 0b00000011, 0b00000111, 0b00001111, 0b00011111, 0b10111111, 0]
  patternData3 := ofList [0b00000001, 0b00000010, 0b00000100, 0b00001000, 0b00010000, 0b00100000,
    0b00010000, 0b00001000, 0b00000100, 0b10000010, 0, 0, 0, 0, 0, 0]
  patternData4 := ofList [0b00111111, 0b10000000]
  patternData5 := ofList [0b00010101, 0b10101010]
  patternData6 := ofList [0b00000111, 0b00111000, 0b00000111, 0b00111000, 0b00000001, 0b00100000,
    0b00000001, 0b10100000]
  patternConfig := ofList [128, 128, 128, 128, 128, 128]
  lastPlaybackPattern := 0
  atNull := 0

/-- The globals as initialised at reset, with EEPROM contents `ee`; the port
registers and the zero-initialised statics are 0. -/
def resetState (ee : EEPROM) : Device where
  machineState := RUN
  statusBlinkDelay := 0
  playbackDelay := 128
  playbackIndex := 0
  playbackConfig := 0
  playbackPattern := 0
  playbackMarkerPos := 0
  playbackDir := 0
  outByte := 0
  Buttons := fun _ => { edgeDetect := 0, pressTimer := 0, statusFlags := 0 }
  debounceEvent := 0
  statusBlinkCounter := 0
  playbackCounter := 0
  EEPROMSaveCounter := 0
  PORTA := 0
  PORTD := 0
  eeprom := ee
  channelLog := []

/-- The startup tasks of `main` (main.c 526-531). -/
def startup (ee : EEPROM) : Device :=
  let s0 := resetState ee
  let s1 := { s0 with playbackPattern := s0.eeprom.lastPlaybackPattern % 256 }
  let s2 := loadPatternConfigs s1 s1.playbackPattern
  let s3 := { s2 with machineState := RUN }
  writeChannels (setStatusLED s3 ON) 0

/-- One iteration of the `for (;;)` loop of `main` (main.c 536-539). -/
def mainLoopBody (s : Device) (millis PINB : Nat) : Device :=
  processEEPROMsave (processOutputs (processStatusLED (processButtons s millis PINB) millis) millis) millis

/-! ## States and input traces used in the statements below -/

/-- The level that `updateButtons` sees for channel `i` when the port reads
`PINB`: the test `inputByte & (1 << i)` with `inputByte = ~PINB`. -/
def isPressed (PINB i : Nat) : Bool := decide ((255 - PINB % 256) &&& (1 <<< i) ≠ 0)

/-- One debounce tick seen from channel `i`: `updateButtons`, then the polls
`checkHeld(i)` and `checkClicked(i)` in the order of the RUN loop of
`processButtons`.  Returns the two answers and the new state. -/
def sampleAndPoll (s : Device) (PINB i : Nat) : (Bool × Bool) × Device :=
  let s1 := updateButtons s PINB
  let h := checkHeld s1 i
  let c := checkClicked h.2 i
  ((h.1, c.1), c.2)

/-- Run `sampleAndPoll` over a list of port readings, oldest first; returns the
answers of all polls and the final state. -/
def feed (i : Nat) : Device → List Nat → List (Bool × Bool) × Device
  | s, [] => ([], s)
  | s, x :: xs =>
    let r := sampleAndPoll s x i
    let rest := feed i r.2 xs
    (r.1 :: rest.1, rest.2)

/-- The polls `checkHeld` then `checkClicked` as they act on the one `button`
they address: the two answers and the new value of the struct. -/
def pollButton (b : button) : (Bool × Bool) × button :=
  let h : Bool := decide (b.statusFlags &&& STATUS_HELD ≠ 0)
  let f1 := if h then b.statusFlags &&& (255 ^^^ (STATUS_HELD ||| STATUS_PRESSED)) else b.statusFlags
  let c : Bool := decide (f1 &&& (STATUS_RELEASED ||| STATUS_PRESSED) = (STATUS_RELEASED ||| STATUS_PRESSED))
  let f2 := if c then f1 &&& (255 ^^^ (STATUS_RELEASED ||| STATUS_PRESSED ||| STATUS_HELD)) else f1
  ((h, c), { b with statusFlags := f2 })

/-- Closed form of a channel after `k` consecutive pressed ticks from the
zeroed state, each followed by the polls of `pollButton`: the history fills
up, tick 7 is the rising edge, the timer then counts in steps of 5 ms, and the
poll of tick 401 consumes the hold. -/
def pressedState (k : Nat) : button :=
  if k < 7 then { edgeDetect := 2 ^ k - 1, pressTimer := 0, statusFlags := 0 }
  else if k = 7 then
    { edgeDetect := EDGE_RISE, pressTimer := 35, statusFlags := STATUS_PRESSED }
  else if k ≤ 400 then
    { edgeDetect := STABLE_POS, pressTimer := 5 * k, statusFlags := STATUS_PRESSED ||| STATUS_ACTIVE }
  else
    { edgeDetect := STABLE_POS, pressTimer := 2005, statusFlags := STATUS_ACTIVE }

/-- Closed form of a channel `j` released ticks after a consumed hold. -/
def releasedAfterHold (j : Nat) : button :=
  if j = 0 then pressedState 401
  else if j < 8 then
    { edgeDetect := (STABLE_POS <<< j) % 256, pressTimer := 0,
      statusFlags := STATUS_ACTIVE ||| STATUS_RELEASED }
  else
    { edgeDetect := STABLE_NEG, pressTimer := 0, statusFlags := STATUS_INACTIVE ||| STATUS_RELEASED }

/-- The zeroed `button` of startup. -/
def zeroButton : button := { edgeDetect := 0, pressTimer := 0, statusFlags := 0 }

/-- The factory image after the user has moved the end marker of pattern 0
to frame 0 in Edit mode (`clearMarker` on frame 5, then frame 0 written with
bit 7 set) and the autosave has stored the Bounce style for pattern 0. -/
def bounceAtZeroEEPROM : EEPROM :=
  eeprom_update_word (writeFrame (writeFrame factoryEEPROM 0 5 0b00100000) 0 0 0b10000001) 0
    ((128 &&& 0x0FFF) ||| (PLAY_BOUNCE <<< 12))

/-- The device after startup on the factory image with a completed click
(Released and Pressed set) pending on the adjust-up input. -/
def upClicked : Device :=
  setFlags (startup factoryEEPROM) BTNUP (STATUS_RELEASED ||| STATUS_PRESSED)

/-- The device after startup on the factory image with the delay at 144 ms and
a completed click pending on the adjust-down input. -/
def downClicked : Device :=
  setFlags { startup factoryEEPROM with playbackDelay := 144 } BTNDN
    (STATUS_RELEASED ||| STATUS_PRESSED)

/-- The device after startup on the factory image with input 3 (the select
input of pattern 2) pressed for 400 ticks, one tick short of the hold. -/
def holdPending : Device :=
  { startup factoryEEPROM with
    Buttons := setAt (startup factoryEEPROM).Buttons 3 (pressedState 400) }

/-- The device after startup on the factory image, put in Edit mode on
pattern 0 with the cursor moved to frame 2. -/
def programCursor2 : Device :=
  { startup factoryEEPROM with machineState := PROGRAM, playbackIndex := 2 }

/-- The device after startup on the factory image with the delay raised to
2000 ms and the style set to Bounce, not yet saved. -/
def savePending : Device :=
  { startup factoryEEPROM with playbackDelay := 2000, playbackConfig := PLAY_BOUNCE }

/-- The device after startup on the factory image whose last debounce tick
ran at 65534 ms, two ticks of the counter before it rolls over. -/
def nearRollover : Device :=
  { startup factoryEEPROM with debounceEvent := 65534 }

/-- The device after startup on the factory image (pattern 0, marker position
5) in Bounce style with the cursor on the marker position. -/
def bounceAtMarker : Device :=
  { startup factoryEEPROM with playbackConfig := PLAY_BOUNCE, playbackIndex := 5 }

/-- The loop iteration in the order of the specification: inputs, then the
playback advance, then the status-LED update, then the autosave check, all
with the same reading of `millis`.  It is compared with `mainLoopBody`, which
has the order of main.c. -/
def specLoopBody (s : Device) (millis PINB : Nat) : Device :=
  processEEPROMsave (processStatusLED (processOutputs (processButtons s millis PINB) millis) millis) millis

/-- Lines 447-454 of `processStatusLED`: the branch taken when the blink
period has elapsed. -/
def toggleLED (s : Device) (millis : Nat) : Device :=
  { s with
    statusBlinkCounter := millis % 65536
    statusBlinkDelay :=
      if s.statusBlinkDelay = 100 then 300
      else if s.statusBlinkDelay = 300 then 100
      else s.statusBlinkDelay
    PORTD := s.PORTD ^^^ (1 <<< STATUSLED) }

/-- The device in Edit mode on pattern 0 of the factory image, cursor on
frame 2, output byte 0b00000101, with a completed click pending on the
adjust-up input. -/
def editUpClicked : Device :=
  setFlags { programCursor2 with outByte := 0b00000101 } BTNUP (STATUS_RELEASED ||| STATUS_PRESSED)

/-- The device in Edit mode on pattern 0 of the factory image, cursor on
frame 2, output byte 0b00000101, with a completed click pending on the
adjust-down input. -/
def editDownClicked : Device :=
  setFlags { programCursor2 with outByte := 0b00000101 } BTNDN (STATUS_RELEASED ||| STATUS_PRESSED)

/-- The device after startup on the factory image (pattern 0 selected) with a
completed click pending on input 5, the select input of pattern 0. -/
def sameSelectClicked : Device :=
  setFlags (startup factoryEEPROM) 5 (STATUS_RELEASED ||| STATUS_PRESSED)

/-- The device after reset whose channel 0 has seen a press consumed as a
hold, the release and 8 released samples (Released and Inactive set), and then
6 pressed samples of a new press. -/
def newPressAfterHold : Device :=
  { resetState factoryEEPROM with
    Buttons := setAt (resetState factoryEEPROM).Buttons 0
      { edgeDetect := 0b00111111, pressTimer := 0,
        statusFlags := STATUS_INACTIVE ||| STATUS_RELEASED } }

/-- The device after reset whose channel 0 has been pressed for 8 ticks:
history at stable-pressed, Pressed and Active set, press timer at 40 ms. -/
def steadyPress : Device :=
  { resetState factoryEEPROM with
    Buttons := setAt (resetState factoryEEPROM).Buttons 0 (pressedState 8) }

/-- The calls that act on the `Buttons` array. -/
inductive ButtonOp where
  | sample (PINB : Nat)
  | held (buttonID : Nat)
  | clicked (buttonID : Nat)
  | clear (flags : Nat)
deriving Repr

/-- The state after one call: `updateButtons` on a reading of the port,
`checkHeld`, `checkClicked` or `clearButtonFlags`. -/
def applyOp (s : Device) : ButtonOp → Device
  | ButtonOp.sample PINB => updateButtons s PINB
  | ButtonOp.held buttonID => (checkHeld s buttonID).2
  | ButtonOp.clicked buttonID => (checkClicked s buttonID).2
  | ButtonOp.clear flags => clearButtonFlags s flags

/-- The state after a sequence of calls, first call first. -/
def runOps : Device → List ButtonOp → Device
  | s, [] => s
  | s, op :: ops => runOps (applyOp s op) ops

/-- The device after startup on the factory image with input 2 (the select
input of pattern 3) pressed for 400 ticks, one tick short of the hold. -/
def tour0 : Device :=
  { startup factoryEEPROM with
    Buttons := setAt (startup factoryEEPROM).Buttons 2 (pressedState 400) }

/-- The tick at 2005 ms with input 2 still low: the hold enters Edit mode on
pattern 3, whose factory marker is on frame 1. -/
def tour1 : Device := processButtons tour0 2005 0b11111011

/-- The `button` struct of an input that was idle in Edit mode and has then
been pressed for 7 ticks: the rising edge has set Pressed and the timer. -/
def pressedSevenTicks : button :=
  { edgeDetect := EDGE_RISE, pressTimer := 7 * BTN_UPDATE_INTERVAL,
    statusFlags := STATUS_PRESSED ||| STATUS_INACTIVE }

/-- Adjust-down has been pressed for 7 ticks; the tick at 2045 ms reads every
input released, which completes the click and steps the cursor to frame 1. -/
def tour2 : Device :=
  processButtons { tour1 with Buttons := setAt tour1.Buttons BTNDN pressedSevenTicks }
    2045 0b11111111

/-- A second click on adjust-down, completed by the tick at 2090 ms, steps the
cursor to frame 2, past the marker. -/
def tour3 : Device :=
  processButtons { tour2 with Buttons := setAt tour2.Buttons BTNDN pressedSevenTicks }
    2090 0b11111111

/-- Input 0 has been pressed for 400 ticks; the tick at 4100 ms with input 0
still low reports the hold and leaves Edit mode. -/
def tour4 : Device :=
  processButtons { tour3 with Buttons := setAt tour3.Buttons 0 (pressedState 400) }
    4100 0b11111110

/-- The device in Edit mode on pattern 0 of the factory image (marker on
frame 5) with the cursor stepped to frame 7, the last frame of the pattern. -/
def editAtLast : Device :=
  { startup factoryEEPROM with machineState := PROGRAM, playbackIndex := 7 }

/-! ## Bit-level facts -/

theorem and_two_pow_ne_zero (y i : Nat) : y &&& 2 ^ i ≠ 0 ↔ y.testBit i = true := by
  rw [Nat.and_two_pow]
  cases h : y.testBit i <;> simp

theorem and_two_pow_eq_zero (y i : Nat) : y &&& 2 ^ i = 0 ↔ y.testBit i = false := by
  rw [Nat.and_two_pow]
  cases h : y.testBit i <;> simp

theorem marker_iff (y : Nat) : y &&& 0b10000000 ≠ 0 ↔ y.testBit 7 = true :=
  and_two_pow_ne_zero y 7

theorem marker_or (x : Nat) : ((x ||| 0b10000000) % 256) &&& 0b10000000 ≠ 0 := by
  rw [marker_iff]
  have h := Nat.testBit_mod_two_pow (x ||| 0b10000000) 8 7
  simp only [Nat.reducePow] at h
  rw [h, Nat.testBit_or]
  have : Nat.testBit 0b10000000 7 = true := by decide
  simp [this]

theorem marker_and (x : Nat) : ((x &&& 0b01111111) % 256) &&& 0b10000000 = 0 := by
  have h0 := and_two_pow_eq_zero ((x &&& 0b01111111) % 256) 7
  simp only [Nat.reducePow] at h0
  rw [h0]
  have h := Nat.testBit_mod_two_pow (x &&& 0b01111111) 8 7
  simp only [Nat.reducePow] at h
  rw [h, Nat.testBit_and]
  have : Nat.testBit 0b01111111 7 = false := by decide
  simp [this]

/-! ## The frame store -/

theorem mod256_mod8 (j : Nat) : j % 256 % 8 = j % 8 := by omega

theorem mod256_mod16 (j : Nat) : j % 256 % 16 = j % 16 := by omega

theorem mod256_mod32 (j : Nat) : j % 256 % 32 = j % 32 := by omega

theorem getPatternMax_cases (p : Nat) (hp : p < 6) :
    getPatternMax p + 1 = [8, 8, 16, 16, 32, 32].getD p 0 := by
  interval_cases p <;> rfl

theorem getPatternMax_le (p : Nat) : getPatternMax p ≤ 31 := by
  unfold getPatternMax
  split <;> omega

theorem getFrame_lt (ee : EEPROM) (p i : Nat) : getFrame ee p i < 256 := by
  unfold getFrame eeprom_read_byte
  split <;> omega

theorem getFrame_writeFrame (ee : EEPROM) (p i j v : Nat) (hp : p < 6) :
    getFrame (writeFrame ee p i v) p j
      = if j % (getPatternMax p + 1) = i % (getPatternMax p + 1) then v % 256
        else getFrame ee p j := by
  interval_cases p <;>
    simp only [getFrame, writeFrame, mapEEPROM, eeprom_read_byte, eeprom_update_byte, setAt,
      getPatternMax, Nat.reduceAdd, mod256_mod8, mod256_mod16, mod256_mod32] <;>
    split_ifs <;> simp

theorem getFrame_writeFrame_other (ee : EEPROM) (p q i j v : Nat) (hp : p < 6) (hq : q ≠ p) :
    getFrame (writeFrame ee p i v) q j = getFrame ee q j := by
  interval_cases p <;>
    simp only [getFrame, writeFrame, mapEEPROM, eeprom_update_byte] <;>
    split <;> first | rfl | omega

theorem writeFrame_patternConfig (ee : EEPROM) (p i v : Nat) :
    (writeFrame ee p i v).patternConfig = ee.patternConfig := by
  unfold writeFrame eeprom_update_byte
  split <;> rfl

theorem writeFrame_lastPlaybackPattern (ee : EEPROM) (p i v : Nat) :
    (writeFrame ee p i v).lastPlaybackPattern = ee.lastPlaybackPattern := by
  unfold writeFrame eeprom_update_byte
  split <;> rfl

/-- C4: for a pattern `p` in 0..5 and a byte `v`, after `writeFrame(p, i, v)`
every index `j` with the same residue as `i` modulo the capacity of `p`
(8, 8, 16, 16, 32, 32, which is `getPatternMax + 1`) reads back `v`; every
frame of `p` at another normalised index, every frame of every other pattern,
the settings words and the last-used-pattern byte are unchanged. -/
theorem writeFrame_getFrame_frame (ee : EEPROM) (p i v : Nat) (hp : p < 6) (hv : v < 256) :
    getPatternMax p + 1 = [8, 8, 16, 16, 32, 32].getD p 0 ∧
    (∀ j, j % (getPatternMax p + 1) = i % (getPatternMax p + 1) →
      getFrame (writeFrame ee p i v) p j = v) ∧
    (∀ j, j % (getPatternMax p + 1) ≠ i % (getPatternMax p + 1) →
      getFrame (writeFrame ee p i v) p j = getFrame ee p j) ∧
    (∀ q j, q ≠ p → getFrame (writeFrame ee p i v) q j = getFrame ee q j) ∧
    (writeFrame ee p i v).patternConfig = ee.patternConfig ∧
    (writeFrame ee p i v).lastPlaybackPattern = ee.lastPlaybackPattern := by
  refine ⟨getPatternMax_cases p hp, ?_, ?_, ?_, writeFrame_patternConfig ee p i v,
    writeFrame_lastPlaybackPattern ee p i v⟩
  · intro j hj
    rw [getFrame_writeFrame ee p i j v hp, if_pos hj]
    exact Nat.mod_eq_of_lt hv
  · intro j hj
    rw [getFrame_writeFrame ee p i j v hp, if_neg hj]
  · intro q j hq
    exact getFrame_writeFrame_other ee p q i j v hp hq

/-- Witness of C4: pattern 2 (capacity 16), index 19, byte 0x84 on the factory
image; index 3 and index 19 read back 0x84, index 4 keeps its factory value. -/
theorem writeFrame_getFrame_frame_witness :
    (2 < 6 ∧ 0x84 < 256) ∧
    (getPatternMax 2 + 1 = [8, 8, 16, 16, 32, 32].getD 2 0 ∧
    (∀ j, j % (getPatternMax 2 + 1) = 19 % (getPatternMax 2 + 1) →
      getFrame (writeFrame factoryEEPROM 2 19 0x84) 2 j = 0x84) ∧
    (∀ j, j % (getPatternMax 2 + 1) ≠ 19 % (getPatternMax 2 + 1) →
      getFrame (writeFrame factoryEEPROM 2 19 0x84) 2 j = getFrame factoryEEPROM 2 j) ∧
    (∀ q j, q ≠ 2 → getFrame (writeFrame factoryEEPROM 2 19 0x84) q j = getFrame factoryEEPROM q j) ∧
    (writeFrame factoryEEPROM 2 19 0x84).patternConfig = factoryEEPROM.patternConfig ∧
    (writeFrame factoryEEPROM 2 19 0x84).lastPlaybackPattern = factoryEEPROM.lastPlaybackPattern) :=
  ⟨⟨by decide, by decide⟩, writeFrame_getFrame_frame factoryEEPROM 2 19 0x84 (by decide) (by decide)⟩

/-! ## The marker scan -/

theorem markerScan_spec (ee : EEPROM) (p mp : Nat) (k i : Nat) :
    (markerScan ee p mp k i = mp ∧ ∀ j, i ≤ j → j < i + k → getFrame ee p j &&& 0b10000000 = 0) ∨
    (i ≤ markerScan ee p mp k i ∧ markerScan ee p mp k i < i + k ∧
      getFrame ee p (markerScan ee p mp k i) &&& 0b10000000 ≠ 0 ∧
      ∀ j, i ≤ j → j < markerScan ee p mp k i → getFrame ee p j &&& 0b10000000 = 0) := by
  induction k generalizing i with
  | zero =>
    left
    refine ⟨rfl, ?_⟩
    intro j h1 h2
    omega
  | succ k ih =>
    unfold markerScan
    by_cases hm : getFrame ee p i &&& 0b10000000 ≠ 0
    · right
      rw [if_pos hm]
      refine ⟨le_refl i, by omega, hm, ?_⟩
      intro j h1 h2
      omega
    · rw [if_neg hm]
      have hz : getFrame ee p i &&& 0b10000000 = 0 := by
        by_contra hc
        exact hm hc
      rcases ih (i + 1) with ⟨h1, h2⟩ | ⟨h1, h2, h3, h4⟩
      · left
        refine ⟨h1, ?_⟩
        intro j hj1 hj2
        by_cases hji : j = i
        · rw [hji]; exact hz
        · exact h2 j (by omega) (by omega)
      · right
        refine ⟨by omega, by omega, h3, ?_⟩
        intro j hj1 hj2
        by_cases hji : j = i
        · rw [hji]; exact hz
        · exact h4 j (by omega) hj2

/-- The marker position after `loadPatternConfigs` is the least index of the
selected pattern whose frame has bit 7 set, or the last index when there is none. -/
theorem scan_least_marker (s : Device) (pattern : Nat) :
    (loadPatternConfigs s pattern).playbackMarkerPos ≤ getPatternMax s.playbackPattern ∧
    (∀ j, j < (loadPatternConfigs s pattern).playbackMarkerPos →
      getFrame s.eeprom s.playbackPattern j &&& 0b10000000 = 0) ∧
    ((∃ j, j ≤ getPatternMax s.playbackPattern ∧
        getFrame s.eeprom s.playbackPattern j &&& 0b10000000 ≠ 0) →
      getFrame s.eeprom s.playbackPattern (loadPatternConfigs s pattern).playbackMarkerPos
        &&& 0b10000000 ≠ 0) ∧
    ((∀ j, j ≤ getPatternMax s.playbackPattern →
        getFrame s.eeprom s.playbackPattern j &&& 0b10000000 = 0) →
      (loadPatternConfigs s pattern).playbackMarkerPos = getPatternMax s.playbackPattern) := by
  have hscan := markerScan_spec s.eeprom s.playbackPattern (getPatternMax s.playbackPattern)
    (getPatternMax s.playbackPattern) 0
  have hm : (loadPatternConfigs s pattern).playbackMarkerPos
      = markerScan s.eeprom s.playbackPattern (getPatternMax s.playbackPattern)
          (getPatternMax s.playbackPattern) 0 := rfl
  rw [hm]
  rcases hscan with ⟨h1, h2⟩ | ⟨_, h2, h3, h4⟩
  · rw [h1]
    refine ⟨le_refl _, ?_, ?_, ?_⟩
    · intro j hj
      exact h2 j (Nat.zero_le j) (by omega)
    · rintro ⟨j, hj1, hj2⟩
      by_cases hjm : j = getPatternMax s.playbackPattern
      · rw [← hjm]; exact hj2
      · exact absurd (h2 j (Nat.zero_le j) (by omega)) hj2
    · intro _
      rfl
  · refine ⟨by omega, ?_, ?_, ?_⟩
    · intro j hj
      exact h4 j (Nat.zero_le j) hj
    · intro _
      exact h3
    · intro hall
      exact absurd (hall _ (by omega)) h3

/-- C3: with pattern `p` in 0..5 selected, the marker position that
`loadPatternConfigs` computes is the least index in `0..capacity(p)-1` whose
frame has bit 7 set, and `capacity(p)-1` when no frame has it (capacities 8, 8,
16, 16, 32, 32).  Pattern 0 without a marker gives 7; pattern 0 with 0x84 at
index 3 and no marker at indices 0..2 gives 3, and `getFrame(0,3)` is 0x84. -/
theorem loadPatternConfigs_markerPos (s : Device) (p pattern : Nat) (hp : p < 6)
    (hsel : s.playbackPattern = p) :
    getPatternMax p + 1 = [8, 8, 16, 16, 32, 32].getD p 0 ∧
    (loadPatternConfigs s pattern).playbackMarkerPos ≤ getPatternMax p ∧
    (∀ j, j < (loadPatternConfigs s pattern).playbackMarkerPos →
      getFrame s.eeprom p j &&& 0b10000000 = 0) ∧
    ((∃ j, j ≤ getPatternMax p ∧ getFrame s.eeprom p j &&& 0b10000000 ≠ 0) →
      getFrame s.eeprom p (loadPatternConfigs s pattern).playbackMarkerPos &&& 0b10000000 ≠ 0) ∧
    ((∀ j, j ≤ getPatternMax p → getFrame s.eeprom p j &&& 0b10000000 = 0) →
      (loadPatternConfigs s pattern).playbackMarkerPos = getPatternMax p) ∧
    (∀ ee : EEPROM, (∀ j, j < 8 → getFrame ee 0 j &&& 0b10000000 = 0) →
      (loadPatternConfigs (resetState ee) 0).playbackMarkerPos = 7) ∧
    (∀ ee : EEPROM, (∀ j, j < 3 → getFrame ee 0 j &&& 0b10000000 = 0) →
      getFrame (writeFrame ee 0 3 0x84) 0 3 = 0x84 ∧
      (loadPatternConfigs (resetState (writeFrame ee 0 3 0x84)) 0).playbackMarkerPos = 3) := by
  have hgen := scan_least_marker s pattern
  rw [hsel] at hgen
  refine ⟨getPatternMax_cases p hp, hgen.1, hgen.2.1, hgen.2.2.1, hgen.2.2.2, ?_, ?_⟩
  · intro ee hno
    have h := (scan_least_marker (resetState ee) 0).2.2.2
    exact h (fun j hj => hno j (Nat.lt_succ_of_le hj))
  · intro ee hno
    have hrd : ∀ j, getFrame (writeFrame ee 0 3 0x84) 0 j
        = if j % 8 = 3 then 0x84 else getFrame ee 0 j := by
      intro j
      exact getFrame_writeFrame ee 0 3 j 0x84 (by decide)
    have h3 : getFrame (writeFrame ee 0 3 0x84) 0 3 = 0x84 := by
      rw [hrd 3]; rfl
    refine ⟨h3, ?_⟩
    obtain ⟨hle, hbelow, hex, _⟩ := scan_least_marker (resetState (writeFrame ee 0 3 0x84)) 0
    have hmax : getPatternMax (resetState (writeFrame ee 0 3 0x84)).playbackPattern = 7 := rfl
    have hmk := hex ⟨3, by rw [hmax]; omega, by
      show getFrame (writeFrame ee 0 3 0x84) 0 3 &&& 0b10000000 ≠ 0
      rw [h3]; decide⟩
    have hle3 : (loadPatternConfigs (resetState (writeFrame ee 0 3 0x84)) 0).playbackMarkerPos ≤ 3 := by
      by_contra hc
      have := hbelow 3 (by omega)
      have h3b : getFrame (writeFrame ee 0 3 0x84) 0 3 &&& 0b10000000 = 0 := this
      rw [h3] at h3b
      exact absurd h3b (by decide)
    have hge3 : 3 ≤ (loadPatternConfigs (resetState (writeFrame ee 0 3 0x84)) 0).playbackMarkerPos := by
      by_contra hc
      have hlt : (loadPatternConfigs (resetState (writeFrame ee 0 3 0x84)) 0).playbackMarkerPos < 3 :=
        by omega
      have hmk2 : getFrame (writeFrame ee 0 3 0x84) 0
          (loadPatternConfigs (resetState (writeFrame ee 0 3 0x84)) 0).playbackMarkerPos
            &&& 0b10000000 ≠ 0 := hmk
      rw [hrd, if_neg (by omega)] at hmk2
      exact hmk2 (hno _ hlt)
    omega

/-- Witness of C3: the factory image at startup, pattern 0 selected. -/
theorem loadPatternConfigs_markerPos_witness :
    (0 < 6 ∧ (startup factoryEEPROM).playbackPattern = 0) ∧
    (loadPatternConfigs (startup factoryEEPROM) 0).playbackMarkerPos ≤ getPatternMax 0 ∧
    (∀ j, j < (loadPatternConfigs (startup factoryEEPROM) 0).playbackMarkerPos →
      getFrame (startup factoryEEPROM).eeprom 0 j &&& 0b10000000 = 0) :=
  ⟨⟨by decide, by decide⟩,
    (loadPatternConfigs_markerPos (startup factoryEEPROM) 0 0 (by decide) (by decide)).2.1,
    (loadPatternConfigs_markerPos (startup factoryEEPROM) 0 0 (by decide) (by decide)).2.2.1⟩

/-! ## Setting the end marker -/

theorem setStatusLED_eeprom (s : Device) (st : Nat) : (setStatusLED s st).eeprom = s.eeprom := by
  unfold setStatusLED
  split_ifs <;> rfl

theorem setStatusLED_playbackPattern (s : Device) (st : Nat) :
    (setStatusLED s st).playbackPattern = s.playbackPattern := by
  unfold setStatusLED
  split_ifs <;> rfl

theorem setStatusLED_playbackIndex (s : Device) (st : Nat) :
    (setStatusLED s st).playbackIndex = s.playbackIndex := by
  unfold setStatusLED
  split_ifs <;> rfl

theorem setStatusLED_playbackMarkerPos (s : Device) (st : Nat) :
    (setStatusLED s st).playbackMarkerPos = s.playbackMarkerPos := by
  unfold setStatusLED
  split_ifs <;> rfl

theorem nextFrame_eeprom (s : Device) : (nextFrame s).eeprom = s.eeprom := by
  unfold nextFrame
  simp only
  split_ifs <;> simp [setStatusLED_eeprom, writeChannels]

theorem nextFrame_playbackPattern (s : Device) :
    (nextFrame s).playbackPattern = s.playbackPattern := by
  unfold nextFrame
  simp only
  split_ifs <;> simp [setStatusLED_playbackPattern, writeChannels]

theorem nextFrame_playbackIndex (s : Device) :
    (nextFrame s).playbackIndex = s.playbackIndex := by
  unfold nextFrame
  simp only
  split_ifs <;> simp [setStatusLED_playbackIndex, writeChannels]

theorem nextFrame_playbackMarkerPos (s : Device) :
    (nextFrame s).playbackMarkerPos = s.playbackMarkerPos := by
  unfold nextFrame
  simp only
  split_ifs <;> simp [setStatusLED_playbackMarkerPos, writeChannels]

theorem placeMarker_eeprom (s : Device) :
    (placeMarker s).eeprom
      = writeFrame
          (writeFrame s.eeprom s.playbackPattern s.playbackMarkerPos
            (getFrame s.eeprom s.playbackPattern s.playbackMarkerPos &&& 0b01111111))
          s.playbackPattern s.playbackIndex (s.outByte ||| 0b10000000) := by
  unfold placeMarker
  simp only [nextFrame_eeprom]
  rfl

theorem placeMarker_playbackMarkerPos (s : Device) :
    (placeMarker s).playbackMarkerPos
      = (loadPatternConfigs { s with eeprom := (placeMarker s).eeprom } s.playbackPattern).playbackMarkerPos := by
  rw [placeMarker_eeprom]
  unfold placeMarker
  simp only [nextFrame_playbackMarkerPos]
  rfl

theorem placeMarker_playbackPattern (s : Device) :
    (placeMarker s).playbackPattern = s.playbackPattern := by
  unfold placeMarker
  simp only [nextFrame_playbackPattern]
  rfl

theorem placeMarker_playbackIndex (s : Device) :
    (placeMarker s).playbackIndex = s.playbackIndex := by
  unfold placeMarker
  simp only [nextFrame_playbackIndex]
  rfl

theorem placeMarker_frames (s : Device) (hp : s.playbackPattern < 6)
    (hc : s.playbackIndex ≤ getPatternMax s.playbackPattern)
    (hone : ∀ i, i ≤ getPatternMax s.playbackPattern →
      ∀ j, j ≤ getPatternMax s.playbackPattern →
      getFrame s.eeprom s.playbackPattern i &&& 0b10000000 ≠ 0 →
      getFrame s.eeprom s.playbackPattern j &&& 0b10000000 ≠ 0 → i = j)
    (hsync : s.playbackMarkerPos = (loadPatternConfigs s s.playbackPattern).playbackMarkerPos)
    (j : Nat) (hj : j ≤ getPatternMax s.playbackPattern) :
    getFrame (placeMarker s).eeprom s.playbackPattern j &&& 0b10000000 ≠ 0
      ↔ j = s.playbackIndex := by
  obtain ⟨hmle, _, hex, _⟩ := scan_least_marker s s.playbackPattern
  rw [← hsync] at hmle hex
  have hold : ∀ i, i ≤ getPatternMax s.playbackPattern →
      getFrame s.eeprom s.playbackPattern i &&& 0b10000000 ≠ 0 → i = s.playbackMarkerPos := by
    intro i hi hmk
    exact hone i hi s.playbackMarkerPos hmle hmk (hex ⟨i, hi, hmk⟩)
  have hjm : j % (getPatternMax s.playbackPattern + 1) = j := Nat.mod_eq_of_lt (by omega)
  have hcm : s.playbackIndex % (getPatternMax s.playbackPattern + 1) = s.playbackIndex :=
    Nat.mod_eq_of_lt (by omega)
  have hmm : s.playbackMarkerPos % (getPatternMax s.playbackPattern + 1) = s.playbackMarkerPos :=
    Nat.mod_eq_of_lt (by omega)
  rw [placeMarker_eeprom, getFrame_writeFrame _ _ _ _ _ hp, hjm, hcm]
  by_cases hjc : j = s.playbackIndex
  · rw [if_pos hjc]
    exact ⟨fun _ => hjc, fun _ => marker_or s.outByte⟩
  · rw [if_neg hjc, getFrame_writeFrame _ _ _ _ _ hp, hjm, hmm]
    by_cases hjp : j = s.playbackMarkerPos
    · rw [if_pos hjp]
      constructor
      · intro h
        exact absurd (marker_and _) h
      · intro h
        exact absurd h hjc
    · rw [if_neg hjp]
      constructor
      · intro h
        exact absurd (hold j hj h) hjp
      · intro h
        exact absurd h hjc

/-- C2: setting the end marker in Edit mode (the block run when adjust-up or
adjust-down is held: `clearMarker`, set bit 7 of the output byte, `writeFrame`
at the cursor, `loadPatternConfigs`, `nextFrame`) leaves exactly one frame of
the current pattern with bit 7 set, the frame at the cursor.  This holds for
every pattern 0..5, every cursor up to the physical maximum, and every prior
contents in which the pattern holds at most one marker and
`playbackMarkerPos` is the value `loadPatternConfigs` computes from it.  The
pattern and the cursor are unchanged and the marker position becomes the
cursor. -/
theorem placeMarker_exactly_one (s : Device) (hp : s.playbackPattern < 6)
    (hc : s.playbackIndex ≤ getPatternMax s.playbackPattern)
    (hone : ∀ i, i ≤ getPatternMax s.playbackPattern →
      ∀ j, j ≤ getPatternMax s.playbackPattern →
      getFrame s.eeprom s.playbackPattern i &&& 0b10000000 ≠ 0 →
      getFrame s.eeprom s.playbackPattern j &&& 0b10000000 ≠ 0 → i = j)
    (hsync : s.playbackMarkerPos = (loadPatternConfigs s s.playbackPattern).playbackMarkerPos) :
    (placeMarker s).playbackPattern = s.playbackPattern ∧
    (placeMarker s).playbackIndex = s.playbackIndex ∧
    (∀ j, j ≤ getPatternMax s.playbackPattern →
      (getFrame (placeMarker s).eeprom s.playbackPattern j &&& 0b10000000 ≠ 0
        ↔ j = s.playbackIndex)) ∧
    (placeMarker s).playbackMarkerPos = s.playbackIndex := by
  have hfr := placeMarker_frames s hp hc hone hsync
  refine ⟨placeMarker_playbackPattern s, placeMarker_playbackIndex s, hfr, ?_⟩
  rw [placeMarker_playbackMarkerPos]
  obtain ⟨hle, hbelow, hex, _⟩ :=
    scan_least_marker { s with eeprom := (placeMarker s).eeprom } s.playbackPattern
  have hmk := hex ⟨s.playbackIndex, hc, (hfr s.playbackIndex hc).2 rfl⟩
  exact (hfr _ hle).1 hmk

/-- Witness of C2: the factory image in Edit mode on pattern 0, whose only
marker is at index 5, with the cursor at index 2. -/
theorem placeMarker_exactly_one_witness :
    ((programCursor2).playbackPattern < 6 ∧
      (programCursor2).playbackIndex ≤ getPatternMax (programCursor2).playbackPattern ∧
      (∀ i, i ≤ getPatternMax (programCursor2).playbackPattern →
        ∀ j, j ≤ getPatternMax (programCursor2).playbackPattern →
        getFrame (programCursor2).eeprom (programCursor2).playbackPattern i &&& 0b10000000 ≠ 0 →
        getFrame (programCursor2).eeprom (programCursor2).playbackPattern j &&& 0b10000000 ≠ 0 →
        i = j) ∧
      (programCursor2).playbackMarkerPos
        = (loadPatternConfigs programCursor2 (programCursor2).playbackPattern).playbackMarkerPos) ∧
    ((placeMarker programCursor2).playbackPattern = (programCursor2).playbackPattern ∧
      (placeMarker programCursor2).playbackIndex = (programCursor2).playbackIndex ∧
      (∀ j, j ≤ getPatternMax (programCursor2).playbackPattern →
        (getFrame (placeMarker programCursor2).eeprom (programCursor2).playbackPattern j
            &&& 0b10000000 ≠ 0
          ↔ j = (programCursor2).playbackIndex)) ∧
      (placeMarker programCursor2).playbackMarkerPos = (programCursor2).playbackIndex) :=
  ⟨⟨by decide, by decide, by decide, by decide⟩,
    placeMarker_exactly_one programCursor2 (by decide) (by decide) (by decide) (by decide)⟩

/-! ## Debounce traces -/

theorem updateButtonsLoop_get (inp : Nat) (k : Nat) :
    ∀ (i0 : Nat) (bs : Nat → button) (j : Nat),
    updateButtonsLoop inp k i0 bs j
      = if i0 ≤ j ∧ j < i0 + k then updateButton (bs j) (decide (inp &&& (1 <<< j) ≠ 0))
        else bs j := by
  induction k with
  | zero =>
    intro i0 bs j
    have : ¬ (i0 ≤ j ∧ j < i0 + 0) := by omega
    rw [if_neg this]
    rfl
  | succ k ih =>
    intro i0 bs j
    unfold updateButtonsLoop
    rw [ih]
    by_cases hj : j = i0
    · subst hj
      have h1 : ¬ (j + 1 ≤ j ∧ j < j + 1 + k) := by omega
      have h2 : j ≤ j ∧ j < j + (k + 1) := by omega
      rw [if_neg h1, if_pos h2]
      simp [setAt]
    · by_cases hr : i0 + 1 ≤ j ∧ j < i0 + 1 + k
      · have h2 : i0 ≤ j ∧ j < i0 + (k + 1) := by omega
        rw [if_pos hr, if_pos h2]
        simp [setAt, hj]
      · have h2 : ¬ (i0 ≤ j ∧ j < i0 + (k + 1)) := by omega
        rw [if_neg hr, if_neg h2]
        simp [setAt, hj]

theorem updateButtons_channel (s : Device) (PINB i : Nat) (hi : i < 8) :
    (updateButtons s PINB).Buttons i = updateButton (s.Buttons i) (isPressed PINB i) := by
  unfold updateButtons isPressed
  simp only
  rw [updateButtonsLoop_get]
  have : 0 ≤ i ∧ i < 0 + 8 := by omega
  rw [if_pos this]

theorem sampleAndPoll_channel (s : Device) (PINB i : Nat) (hi : i < 8) :
    (sampleAndPoll s PINB i).1 = (pollButton (updateButton (s.Buttons i) (isPressed PINB i))).1 ∧
    (sampleAndPoll s PINB i).2.Buttons i
      = (pollButton (updateButton (s.Buttons i) (isPressed PINB i))).2 := by
  have hu := updateButtons_channel s PINB i hi
  unfold sampleAndPoll pollButton checkClicked checkHeld setFlags
  simp only [← hu]
  generalize (updateButtons s PINB) = t
  constructor
  · split_ifs <;> simp_all [setAt]
  · split_ifs <;> simp_all [setAt]

theorem feed_append (i : Nat) (a b : List Nat) :
    ∀ s : Device, feed i s (a ++ b)
      = ((feed i s a).1 ++ (feed i (feed i s a).2 b).1, (feed i (feed i s a).2 b).2) := by
  induction a with
  | nil =>
    intro s
    simp [feed]
  | cons x xs ih =>
    intro s
    show ((sampleAndPoll s x i).1 :: (feed i (sampleAndPoll s x i).2 (xs ++ b)).1,
        (feed i (sampleAndPoll s x i).2 (xs ++ b)).2) = _
    rw [ih (sampleAndPoll s x i).2]
    rfl

theorem pressedState_step (k : Nat) :
    pollButton (updateButton (pressedState k) true)
      = ((decide (k + 1 = 401), false), pressedState (k + 1)) := by
  by_cases h7 : k < 8
  · interval_cases k <;> decide
  · by_cases h400 : k < 400
    · have e1 : (5 : Nat) &&& 1 = 1 := by decide
      have e2 : (5 : Nat) &&& 247 = 5 := by decide
      have e3 : (5 : Nat) &&& 16 = 0 := by decide
      have e4 : (5 : Nat) &&& 3 = 1 := by decide
      have a1 : ¬ k < 7 := by omega
      have a2 : ¬ k = 7 := by omega
      have a3 : ¬ k + 1 < 7 := by omega
      have a4 : ¬ k + 1 = 7 := by omega
      have a5 : (5 * k + 5) % 65536 = 5 * (k + 1) := by omega
      have a6 : ¬ 2000 < 5 * (k + 1) := by omega
      have a7 : ¬ 10000 < 5 * (k + 1) := by omega
      have a8 : k ≤ 400 := by omega
      have a9 : k + 1 ≤ 400 := by omega
      have a10 : ¬ k = 400 := by omega
      simp [pressedState, updateButton, pollButton, a1, a2, a3, a4, a5, a6, a7, a8, a9, a10,
        e1, e2, e3, e4,
        STABLE_POS, EDGE_RISE, EDGE_FALL, STABLE_NEG, STATUS_PRESSED, STATUS_RELEASED,
        STATUS_ACTIVE, STATUS_INACTIVE, STATUS_HELD, BTN_UPDATE_INTERVAL, BTN_HOLD_DELAY]
    · by_cases h4 : k = 400
      · subst h4
        decide
      · have e1 : (4 : Nat) &&& 1 = 0 := by decide
        have e3 : (4 : Nat) &&& 16 = 0 := by decide
        have e4 : (4 : Nat) &&& 3 = 0 := by decide
        have a1 : ¬ k < 7 := by omega
        have a2 : ¬ k = 7 := by omega
        have a3 : ¬ k + 1 < 7 := by omega
        have a4 : ¬ k + 1 = 7 := by omega
        have a8 : ¬ k ≤ 400 := by omega
        have a9 : ¬ k + 1 ≤ 400 := by omega
        simp [pressedState, updateButton, pollButton, a1, a2, a3, a4, a8, a9, h4,
          e1, e3, e4,
          STABLE_POS, EDGE_RISE, EDGE_FALL, STABLE_NEG, STATUS_PRESSED, STATUS_RELEASED,
          STATUS_ACTIVE, STATUS_INACTIVE, STATUS_HELD, BTN_UPDATE_INTERVAL, BTN_HOLD_DELAY]

theorem pressedState_release (n : Nat) (h7 : 7 ≤ n) (hn : n ≤ 400) :
    (pollButton (updateButton (pressedState n) false)).1 = (false, true) := by
  by_cases h : n = 7
  · subst h
    decide
  · have e1 : (7 : Nat) &&& 16 = 0 := by decide
    have e2 : (7 : Nat) &&& 3 = 3 := by decide
    have a1 : ¬ n < 7 := by omega
    simp [pressedState, updateButton, pollButton, a1, h, hn, e1, e2,
      STABLE_POS, EDGE_RISE, EDGE_FALL, STABLE_NEG, STATUS_PRESSED, STATUS_RELEASED,
      STATUS_ACTIVE, STATUS_INACTIVE, STATUS_HELD, BTN_UPDATE_INTERVAL, BTN_HOLD_DELAY]

theorem releasedAfterHold_step (j : Nat) :
    pollButton (updateButton (releasedAfterHold j) false)
      = ((false, false), releasedAfterHold (j + 1)) := by
  by_cases h : j < 9
  · interval_cases j <;> decide
  · have e1 : (10 : Nat) &&& 251 = 10 := by decide
    have e2 : (10 : Nat) &&& 16 = 0 := by decide
    have e3 : (10 : Nat) &&& 3 = 2 := by decide
    have a1 : ¬ j = 0 := by omega
    have a2 : ¬ j < 8 := by omega
    have a3 : ¬ j + 1 < 8 := by omega
    simp [releasedAfterHold, updateButton, pollButton, a1, a2, a3, e1, e2, e3,
      STABLE_POS, EDGE_RISE, EDGE_FALL, STABLE_NEG, STATUS_PRESSED, STATUS_RELEASED,
      STATUS_ACTIVE, STATUS_INACTIVE, STATUS_HELD]


theorem feed_pressed (i : Nat) (hi : i < 8) (pins : List Nat) :
    ∀ (s : Device) (k : Nat), s.Buttons i = pressedState k →
      (∀ x ∈ pins, isPressed x i = true) →
      (feed i s pins).2.Buttons i = pressedState (k + pins.length) ∧
      (∀ r ∈ (feed i s pins).1, r.2 = false) ∧
      ((k + pins.length ≤ 400 ∨ 401 ≤ k) →
        (feed i s pins).1 = List.replicate pins.length (false, false)) := by
  induction pins with
  | nil =>
    intro s k hs _
    refine ⟨hs, ?_, ?_⟩
    · intro r hr
      simp [feed] at hr
    · intro _
      rfl
  | cons x xs ih =>
    intro s k hs hp
    have hx : isPressed x i = true := hp x (List.mem_cons_self x xs)
    obtain ⟨h1, h2⟩ := sampleAndPoll_channel s x i hi
    rw [hs, hx, pressedState_step] at h1 h2
    have hrest := ih (sampleAndPoll s x i).2 (k + 1) h2
      (fun y hy => hp y (List.mem_cons_of_mem x hy))
    have hlen : k + (x :: xs).length = k + 1 + xs.length := by
      simp only [List.length_cons]; omega
    refine ⟨?_, ?_, ?_⟩
    · rw [hlen]
      exact hrest.1
    · intro r hr
      have hr2 : r = (sampleAndPoll s x i).1 ∨ r ∈ (feed i (sampleAndPoll s x i).2 xs).1 := by
        simpa [feed] using hr
      rcases hr2 with hr2 | hr2
      · rw [hr2, h1]
      · exact hrest.2.1 r hr2
    · intro hk
      have hk1 : k + 1 + xs.length ≤ 400 ∨ 401 ≤ k + 1 := by
        simp only [List.length_cons] at hk; omega
      have hne : ¬ (k + 1 = 401) := by
        simp only [List.length_cons] at hk; omega
      show (sampleAndPoll s x i).1 :: (feed i (sampleAndPoll s x i).2 xs).1 = _
      rw [hrest.2.2 hk1, h1]
      simp [hne, List.replicate_succ]

theorem feed_releasedAfterHold (i : Nat) (hi : i < 8) (rels : List Nat) :
    ∀ (s : Device) (j : Nat), s.Buttons i = releasedAfterHold j →
      (∀ x ∈ rels, isPressed x i = false) →
      (feed i s rels).2.Buttons i = releasedAfterHold (j + rels.length) ∧
      (feed i s rels).1 = List.replicate rels.length (false, false) := by
  induction rels with
  | nil =>
    intro s j hs _
    exact ⟨hs, rfl⟩
  | cons x xs ih =>
    intro s j hs hp
    have hx : isPressed x i = false := hp x (List.mem_cons_self x xs)
    obtain ⟨h1, h2⟩ := sampleAndPoll_channel s x i hi
    rw [hs, hx, releasedAfterHold_step] at h1 h2
    have hrest := ih (sampleAndPoll s x i).2 (j + 1) h2
      (fun y hy => hp y (List.mem_cons_of_mem x hy))
    have hlen : j + (x :: xs).length = j + 1 + xs.length := by
      simp only [List.length_cons]; omega
    refine ⟨?_, ?_⟩
    · rw [hlen]
      exact hrest.1
    · show (sampleAndPoll s x i).1 :: (feed i (sampleAndPoll s x i).2 xs).1 = _
      rw [hrest.2, h1]
      simp [List.replicate_succ]


/-! ## The consuming queries -/

theorem and_and_lit (f a b : Nat) (h : a &&& b = 0) : (f &&& a) &&& b = 0 := by
  rw [Nat.and_assoc, h, Nat.and_zero]

theorem and_three_iff (f : Nat) :
    f &&& (STATUS_RELEASED ||| STATUS_PRESSED) = (STATUS_RELEASED ||| STATUS_PRESSED)
      ↔ (f &&& STATUS_RELEASED ≠ 0 ∧ f &&& STATUS_PRESSED ≠ 0) := by
  have h3 : f &&& (STATUS_RELEASED ||| STATUS_PRESSED) = f % 4 :=
    Nat.and_pow_two_sub_one_eq_mod f 2
  have h1 : f &&& STATUS_PRESSED = f % 2 := Nat.and_one_is_mod f
  have h2 : f &&& STATUS_RELEASED = (f.testBit 1).toNat * 2 := Nat.and_two_pow f 1
  have hb : f.testBit 1 = decide (f / 2 % 2 = 1) := by
    have := @Nat.testBit_to_div_mod 1 f
    simpa using this
  rw [h3, h1, h2, hb]
  have e : (STATUS_RELEASED ||| STATUS_PRESSED) = 3 := by decide
  rw [e]
  by_cases hc : f / 2 % 2 = 1
  · simp [hc]; omega
  · simp [hc]; omega

theorem checkClicked_spec (t : Device) (id : Nat) :
    ((checkClicked t id).1 = true ↔
      ((t.Buttons id).statusFlags &&& STATUS_RELEASED ≠ 0 ∧
        (t.Buttons id).statusFlags &&& STATUS_PRESSED ≠ 0)) ∧
    ((checkClicked t id).1 = true →
      (((checkClicked t id).2.Buttons id).statusFlags &&& STATUS_RELEASED = 0 ∧
        ((checkClicked t id).2.Buttons id).statusFlags &&& STATUS_PRESSED = 0 ∧
        ((checkClicked t id).2.Buttons id).statusFlags &&& STATUS_HELD = 0)) ∧
    ((checkClicked t id).1 = false → (checkClicked t id).2 = t) := by
  unfold checkClicked
  by_cases h : (t.Buttons id).statusFlags &&& (STATUS_RELEASED ||| STATUS_PRESSED)
      = (STATUS_RELEASED ||| STATUS_PRESSED)
  · rw [if_pos h]
    refine ⟨⟨fun _ => (and_three_iff _).1 h, fun _ => rfl⟩, ?_, ?_⟩
    · intro _
      simp only [setFlags, setAt, if_true]
      exact ⟨and_and_lit _ _ _ (by decide), and_and_lit _ _ _ (by decide),
        and_and_lit _ _ _ (by decide)⟩
    · intro hf
      exact Bool.noConfusion hf
  · rw [if_neg h]
    refine ⟨⟨fun hf => Bool.noConfusion hf, fun hf => absurd ((and_three_iff _).2 hf) h⟩, ?_, ?_⟩
    · intro hf
      exact Bool.noConfusion hf
    · intro _
      rfl

theorem checkHeld_spec (t : Device) (id : Nat) :
    ((checkHeld t id).1 = true ↔ (t.Buttons id).statusFlags &&& STATUS_HELD ≠ 0) ∧
    ((checkHeld t id).1 = true →
      (((checkHeld t id).2.Buttons id).statusFlags &&& STATUS_HELD = 0 ∧
        ((checkHeld t id).2.Buttons id).statusFlags &&& STATUS_PRESSED = 0)) ∧
    ((checkHeld t id).1 = false → (checkHeld t id).2 = t) := by
  unfold checkHeld
  by_cases h : (t.Buttons id).statusFlags &&& STATUS_HELD ≠ 0
  · rw [if_pos h]
    refine ⟨⟨fun _ => h, fun _ => rfl⟩, ?_, ?_⟩
    · intro _
      simp only [setFlags, setAt, if_true]
      exact ⟨and_and_lit _ _ _ (by decide), and_and_lit _ _ _ (by decide)⟩
    · intro hf
      exact Bool.noConfusion hf
  · rw [if_neg h]
    refine ⟨⟨fun hf => Bool.noConfusion hf, fun hf => absurd hf h⟩, ?_, ?_⟩
    · intro hf
      exact Bool.noConfusion hf
    · intro _
      rfl

/-- C5: for every channel, from the zeroed channel state, `n` consecutive
pressed samples with `7 ≤ n` and `n * 5 ms < 2000 ms` followed by one released
sample, with `checkHeld` and `checkClicked` polled after each sample, give
`checkHeld` false at every poll, `checkClicked` false during the press and
true after the released sample.  `checkClicked` returns true iff Released and
Pressed are both set, and then clears Released, Pressed and Held; when it
returns false it changes nothing. -/
theorem click_before_hold_threshold (s : Device) (i : Nat) (pins : List Nat) (rel : Nat)
    (hi : i < 8) (hz : s.Buttons i = zeroButton)
    (h7 : 7 ≤ pins.length) (hn : pins.length * BTN_UPDATE_INTERVAL < BTN_HOLD_DELAY)
    (hp : ∀ x ∈ pins, isPressed x i = true) (hr : isPressed rel i = false) :
    (feed i s (pins ++ [rel])).1 = List.replicate pins.length (false, false) ++ [(false, true)] ∧
    (∀ (t : Device) (id : Nat),
      ((checkClicked t id).1 = true ↔
        ((t.Buttons id).statusFlags &&& STATUS_RELEASED ≠ 0 ∧
          (t.Buttons id).statusFlags &&& STATUS_PRESSED ≠ 0)) ∧
      ((checkClicked t id).1 = true →
        (((checkClicked t id).2.Buttons id).statusFlags &&& STATUS_RELEASED = 0 ∧
          ((checkClicked t id).2.Buttons id).statusFlags &&& STATUS_PRESSED = 0 ∧
          ((checkClicked t id).2.Buttons id).statusFlags &&& STATUS_HELD = 0)) ∧
      ((checkClicked t id).1 = false → (checkClicked t id).2 = t)) := by
  refine ⟨?_, checkClicked_spec⟩
  have hlen : pins.length ≤ 399 := by
    simp only [BTN_UPDATE_INTERVAL, BTN_HOLD_DELAY] at hn; omega
  obtain ⟨hst, _, hpolls⟩ := feed_pressed i hi pins s 0 hz hp
  rw [feed_append, hpolls (by omega)]
  simp only [Nat.zero_add] at hst
  obtain ⟨h1, _⟩ := sampleAndPoll_channel (feed i s pins).2 rel i hi
  rw [hst, hr, pressedState_release pins.length h7 (by omega)] at h1
  show _ ++ [(sampleAndPoll (feed i s pins).2 rel i).1] = _
  rw [h1]

/-- Witness of C5: channel 0 after reset, seven readings with every input
low (pressed) and one with every input high (released). -/
theorem click_before_hold_threshold_witness :
    (0 < 8 ∧ (resetState factoryEEPROM).Buttons 0 = zeroButton ∧
      7 ≤ (List.replicate 7 0).length ∧
      (List.replicate 7 0).length * BTN_UPDATE_INTERVAL < BTN_HOLD_DELAY ∧
      (∀ x ∈ List.replicate 7 0, isPressed x 0 = true) ∧ isPressed 255 0 = false) ∧
    (feed 0 (resetState factoryEEPROM) (List.replicate 7 0 ++ [255])).1
      = List.replicate (List.replicate 7 0).length (false, false) ++ [(false, true)] :=
  ⟨⟨by decide, by decide, by decide, by decide, by decide, by decide⟩,
    (click_before_hold_threshold (resetState factoryEEPROM) 0 (List.replicate 7 0) 255
      (by decide) (by decide) (by decide) (by decide) (by decide) (by decide)).1⟩

/-- C6: for every channel, from the zeroed channel state, a press held past
the hold threshold is reported by `checkHeld` exactly once.  After 400 pressed
samples the press timer is 2000 ms and nothing has been reported; the 401st
pressed sample takes it to 2005 ms and `checkHeld` returns true.  That call
clears Held and Pressed, so the next `checkHeld` returns false, no poll
reports anything while the press goes on, and neither the release nor any
later released sample makes `checkClicked` return true.  `checkHeld` returns
true iff Held is set. -/
theorem hold_reported_once (s : Device) (i : Nat) (pins : List Nat) (x : Nat)
    (more rels : List Nat) (hi : i < 8) (hz : s.Buttons i = zeroButton)
    (hlen : pins.length = 400)
    (hp : ∀ y ∈ pins, isPressed y i = true) (hx : isPressed x i = true)
    (hm : ∀ y ∈ more, isPressed y i = true) (hr : ∀ y ∈ rels, isPressed y i = false) :
    ((feed i s pins).2.Buttons i).pressTimer = BTN_HOLD_DELAY ∧
    ((updateButtons (feed i s pins).2 x).Buttons i).pressTimer = BTN_HOLD_DELAY + BTN_UPDATE_INTERVAL ∧
    (feed i s (pins ++ [x])).1 = List.replicate 400 (false, false) ++ [(true, false)] ∧
    ((feed i s (pins ++ [x])).2.Buttons i).statusFlags &&& STATUS_HELD = 0 ∧
    ((feed i s (pins ++ [x])).2.Buttons i).statusFlags &&& STATUS_PRESSED = 0 ∧
    (checkHeld (feed i s (pins ++ [x])).2 i).1 = false ∧
    (feed i (feed i s (pins ++ [x])).2 (more ++ rels)).1
      = List.replicate (more.length + rels.length) (false, false) ∧
    (∀ (t : Device) (id : Nat),
      ((checkHeld t id).1 = true ↔ (t.Buttons id).statusFlags &&& STATUS_HELD ≠ 0) ∧
      ((checkHeld t id).1 = true →
        (((checkHeld t id).2.Buttons id).statusFlags &&& STATUS_HELD = 0 ∧
          ((checkHeld t id).2.Buttons id).statusFlags &&& STATUS_PRESSED = 0)) ∧
      ((checkHeld t id).1 = false → (checkHeld t id).2 = t)) := by
  obtain ⟨hst, _, hpolls⟩ := feed_pressed i hi pins s 0 hz hp
  rw [hlen] at hst hpolls
  simp only [Nat.zero_add] at hst
  have hpolls0 := hpolls (by omega)
  obtain ⟨h1, h2⟩ := sampleAndPoll_channel (feed i s pins).2 x i hi
  rw [hst, hx, pressedState_step] at h1 h2
  have hfin : (feed i s (pins ++ [x])).2 = (sampleAndPoll (feed i s pins).2 x i).2 := by
    rw [feed_append]; rfl
  have hfinB : (feed i s (pins ++ [x])).2.Buttons i = pressedState 401 := by
    rw [hfin]; exact h2
  refine ⟨?_, ?_, ?_, ?_, ?_, ?_, ?_, checkHeld_spec⟩
  · rw [hst]; decide
  · rw [updateButtons_channel _ _ _ hi, hst, hx]; decide
  · rw [feed_append, hpolls0]
    show _ ++ [(sampleAndPoll (feed i s pins).2 x i).1] = _
    rw [h1]
    rfl
  · rw [hfinB]; decide
  · rw [hfinB]; decide
  · have hc : ¬ ((feed i s (pins ++ [x])).2.Buttons i).statusFlags &&& STATUS_HELD ≠ 0 := by
      rw [hfinB]; decide
    unfold checkHeld
    rw [if_neg hc]
  · obtain ⟨hst2, _, hpolls2⟩ := feed_pressed i hi more (feed i s (pins ++ [x])).2 401 hfinB hm
    have hrel0 : (feed i (feed i s (pins ++ [x])).2 more).2.Buttons i = releasedAfterHold 0 := by
      rw [hst2]
      have a1 : ¬ (401 + more.length < 7) := by omega
      have a2 : ¬ (401 + more.length = 7) := by omega
      have a3 : ¬ (401 + more.length ≤ 400) := by omega
      simp [releasedAfterHold, pressedState, a1, a2, a3]
    obtain ⟨_, hpolls3⟩ := feed_releasedAfterHold i hi rels _ 0 hrel0 hr
    rw [feed_append, hpolls2 (by omega), hpolls3, List.replicate_add]

theorem all_low_pressed (n : Nat) : ∀ y ∈ List.replicate n 0, isPressed y 0 = true := by
  intro y hy
  rw [List.eq_of_mem_replicate hy]
  decide

/-- Witness of C6: channel 0 after reset, 401 readings with every input low,
three more of them, then two readings with every input high. -/
theorem hold_reported_once_witness :
    (0 < 8 ∧ (resetState factoryEEPROM).Buttons 0 = zeroButton ∧
      (List.replicate 400 0).length = 400 ∧
      (∀ y ∈ List.replicate 400 0, isPressed y 0 = true) ∧ isPressed 0 0 = true ∧
      (∀ y ∈ List.replicate 3 0, isPressed y 0 = true) ∧
      (∀ y ∈ [255, 255], isPressed y 0 = false)) ∧
    (feed 0 (resetState factoryEEPROM) (List.replicate 400 0 ++ [0])).1
      = List.replicate 400 (false, false) ++ [(true, false)] ∧
    (feed 0 (feed 0 (resetState factoryEEPROM) (List.replicate 400 0 ++ [0])).2
        (List.replicate 3 0 ++ [255, 255])).1
      = List.replicate ((List.replicate 3 0).length + [255, 255].length) (false, false) :=
  ⟨⟨by decide, by decide, List.length_replicate 400 0, all_low_pressed 400, by decide,
      by decide, by decide⟩,
    (hold_reported_once (resetState factoryEEPROM) 0 (List.replicate 400 0) 0
      (List.replicate 3 0) [255, 255] (by decide) (by decide) (List.length_replicate 400 0)
      (all_low_pressed 400) (by decide) (by decide) (by decide)).2.2.1,
    (hold_reported_once (resetState factoryEEPROM) 0 (List.replicate 400 0) 0
      (List.replicate 3 0) [255, 255] (by decide) (by decide) (List.length_replicate 400 0)
      (all_low_pressed 400) (by decide) (by decide) (by decide)).2.2.2.2.2.2.1⟩


theorem pressedState_edge (k : Nat) : (pressedState k).edgeDetect = EDGE_RISE ↔ k = 7 := by
  by_cases h : k < 8
  · interval_cases k <;> decide
  · have a1 : ¬ k < 7 := by omega
    have a2 : ¬ k = 7 := by omega
    by_cases h4 : k ≤ 400 <;> simp [pressedState, a1, a2, h4, STABLE_POS, EDGE_RISE]

theorem feed_take_pressed (s : Device) (i : Nat) (pins : List Nat) (hi : i < 8)
    (hz : s.Buttons i = zeroButton) (hp : ∀ x ∈ pins, isPressed x i = true)
    (k : Nat) (hk : k ≤ pins.length) :
    (feed i s (pins.take k)).2.Buttons i = pressedState k := by
  obtain ⟨hst, _, _⟩ := feed_pressed i hi (pins.take k) s 0 hz
    (fun x hx => hp x (List.mem_of_mem_take hx))
  rw [hst, List.length_take, Nat.zero_add, Nat.min_eq_left hk]

/-- C7, as the code has it: for every channel, from the zeroed channel state
and under consecutive pressed samples (each followed by the polls), the
history equals the rising-edge pattern after exactly 7 samples and at no
other length of the run: Pressed is clear before the 7th sample, the 7th
sample sets it and seeds the press timer to 35 ms, and the 8th sample finds
the history at stable-pressed.  `checkClicked` reports no click at any poll of
the run. -/
theorem rising_edge_at_seventh_sample (s : Device) (i : Nat) (pins : List Nat) (hi : i < 8)
    (hz : s.Buttons i = zeroButton) (hp : ∀ x ∈ pins, isPressed x i = true) :
    (∀ k, k ≤ pins.length →
      (((feed i s (pins.take k)).2.Buttons i).edgeDetect = EDGE_RISE ↔ k = 7)) ∧
    (∀ k, k ≤ pins.length → k < 7 →
      ((feed i s (pins.take k)).2.Buttons i).statusFlags &&& STATUS_PRESSED = 0) ∧
    (7 ≤ pins.length →
      ((feed i s (pins.take 7)).2.Buttons i).statusFlags &&& STATUS_PRESSED ≠ 0 ∧
      ((feed i s (pins.take 7)).2.Buttons i).pressTimer = 7 * BTN_UPDATE_INTERVAL) ∧
    (8 ≤ pins.length → ((feed i s (pins.take 8)).2.Buttons i).edgeDetect = STABLE_POS) ∧
    (∀ r ∈ (feed i s pins).1, r.2 = false) := by
  refine ⟨?_, ?_, ?_, ?_, ?_⟩
  · intro k hk
    rw [feed_take_pressed s i pins hi hz hp k hk]
    exact pressedState_edge k
  · intro k hk h7
    rw [feed_take_pressed s i pins hi hz hp k hk]
    interval_cases k <;> decide
  · intro h7
    rw [feed_take_pressed s i pins hi hz hp 7 h7]
    decide
  · intro h8
    rw [feed_take_pressed s i pins hi hz hp 8 h8]
    decide
  · exact (feed_pressed i hi pins s 0 hz hp).2.1

/-- Witness of C7 as amended: channel 0 after reset, ten readings with every
input low. -/
theorem rising_edge_at_seventh_sample_witness :
    (0 < 8 ∧ (resetState factoryEEPROM).Buttons 0 = zeroButton ∧
      (∀ x ∈ List.replicate 10 0, isPressed x 0 = true)) ∧
    (∀ k, k ≤ (List.replicate 10 0).length →
      (((feed 0 (resetState factoryEEPROM) ((List.replicate 10 0).take k)).2.Buttons 0).edgeDetect
        = EDGE_RISE ↔ k = 7)) ∧
    (∀ r ∈ (feed 0 (resetState factoryEEPROM) (List.replicate 10 0)).1, r.2 = false) :=
  ⟨⟨by decide, by decide, by decide⟩,
    (rising_edge_at_seventh_sample (resetState factoryEEPROM) 0 (List.replicate 10 0)
      (by decide) (by decide) (by decide)).1,
    (rising_edge_at_seventh_sample (resetState factoryEEPROM) 0 (List.replicate 10 0)
      (by decide) (by decide) (by decide)).2.2.2.2⟩

/-- Counterexample to C7 as stated (transition at the 8th sample): on channel
0 after reset, with every input low, the history equals the rising-edge
pattern after the 7th sample, which sets Pressed (clear after the 6th) and
seeds the timer to 35 ms; after the 8th sample the history is not the
rising-edge pattern, so no edge-to-pressed transition happens there. -/
theorem rising_edge_not_at_eighth_sample :
    ((feed 0 (resetState factoryEEPROM) (List.replicate 6 0)).2.Buttons 0).statusFlags
        &&& STATUS_PRESSED = 0 ∧
    ((feed 0 (resetState factoryEEPROM) (List.replicate 7 0)).2.Buttons 0).edgeDetect = EDGE_RISE ∧
    ((feed 0 (resetState factoryEEPROM) (List.replicate 7 0)).2.Buttons 0).statusFlags
        &&& STATUS_PRESSED ≠ 0 ∧
    ((feed 0 (resetState factoryEEPROM) (List.replicate 7 0)).2.Buttons 0).pressTimer = 35 ∧
    ¬ (((feed 0 (resetState factoryEEPROM) (List.replicate 8 0)).2.Buttons 0).edgeDetect
        = EDGE_RISE) := by
  have h6 := (feed_pressed 0 (by decide) (List.replicate 6 0) (resetState factoryEEPROM) 0 rfl
    (all_low_pressed 6)).1
  have h7 := (feed_pressed 0 (by decide) (List.replicate 7 0) (resetState factoryEEPROM) 0 rfl
    (all_low_pressed 7)).1
  have h8 := (feed_pressed 0 (by decide) (List.replicate 8 0) (resetState factoryEEPROM) 0 rfl
    (all_low_pressed 8)).1
  rw [h6, h7, h8]
  decide

/-! ## Playback delay adjustment -/

theorem checkClicked_playbackDelay (s : Device) (id : Nat) :
    (checkClicked s id).2.playbackDelay = s.playbackDelay := by
  unfold checkClicked
  split_ifs <;> rfl

theorem runAdjustUp_clicked (s : Device) (hc : (checkClicked s BTNUP).1 = true)
    (h : s.playbackDelay ≤ 2000) :
    (runAdjustUp s).playbackDelay = min (s.playbackDelay + s.playbackDelay / 8) 2000 := by
  unfold runAdjustUp
  simp only [hc, if_true, checkClicked_playbackDelay, Nat.shiftRight_eq_div_pow, Nat.reducePow]
  have hm : (s.playbackDelay + s.playbackDelay / 8) % 65536 = s.playbackDelay + s.playbackDelay / 8 := by
    omega
  rw [hm]
  split_ifs <;> omega

theorem runAdjustDown_clicked (s : Device) (hc : (checkClicked s BTNDN).1 = true)
    (h : s.playbackDelay ≤ 2000) :
    (runAdjustDown s).playbackDelay = max (s.playbackDelay - s.playbackDelay / 8) 8 := by
  unfold runAdjustDown sub16
  simp only [hc, if_true, checkClicked_playbackDelay, Nat.shiftRight_eq_div_pow, Nat.reducePow]
  have hm : (s.playbackDelay % 65536 + 65536 - s.playbackDelay / 8 % 65536) % 65536
      = s.playbackDelay - s.playbackDelay / 8 := by
    omega
  rw [hm]
  split_ifs <;> omega

theorem runAdjustUp_idle (s : Device) (hc : (checkClicked s BTNUP).1 = false) :
    runAdjustUp s = s := by
  unfold runAdjustUp
  simp only [hc]
  exact (checkClicked_spec s BTNUP).2.2 hc

theorem runAdjustDown_idle (s : Device) (hc : (checkClicked s BTNDN).1 = false) :
    runAdjustDown s = s := by
  unfold runAdjustDown
  simp only [hc]
  exact (checkClicked_spec s BTNDN).2.2 hc

theorem runButtonsLoop_idle (k : Nat) :
    ∀ (i : Nat) (s : Device),
      (∀ j, i ≤ j → j < i + k →
        (checkHeld s (5 - j)).1 = false ∧ (checkClicked s (5 - j)).1 = false) →
      runButtonsLoop k i s = s := by
  induction k with
  | zero =>
    intro i s _
    rfl
  | succ k ih =>
    intro i s h
    obtain ⟨hh, hc⟩ := h i (le_refl i) (by omega)
    have e1 : (checkHeld s (5 - i)).2 = s := (checkHeld_spec s (5 - i)).2.2 hh
    have e2 : (checkClicked s (5 - i)).2 = s := (checkClicked_spec s (5 - i)).2.2 hc
    unfold runButtonsLoop
    simp only [hh, e1, hc, e2]
    exact ih (i + 1) s (fun j hj1 hj2 => h j (by omega) (by omega))

theorem checkClicked_other (s : Device) (a b : Nat) (hb : b ≠ a) :
    (checkClicked s a).2.Buttons b = s.Buttons b := by
  unfold checkClicked
  split_ifs
  · simp [setFlags, setAt, hb]
  · rfl

theorem runAdjustUp_other (s : Device) (b : Nat) (hb : b ≠ BTNUP) :
    (runAdjustUp s).Buttons b = s.Buttons b := by
  unfold runAdjustUp
  simp only
  split_ifs <;> exact checkClicked_other s BTNUP b hb

theorem checkClicked_fst_eq (s t : Device) (a : Nat) (h : t.Buttons a = s.Buttons a) :
    (checkClicked t a).1 = (checkClicked s a).1 := by
  unfold checkClicked
  rw [h]
  split_ifs <;> rfl

/-- One pass of `processButtons` in RUN mode when the debounce tick runs and
no select input reports a hold or a click: only the adjust blocks act. -/
theorem processButtons_adjust_only (s : Device) (millis PINB : Nat)
    (hrun : s.machineState = RUN)
    (hgate : sub16 millis s.debounceEvent > BTN_UPDATE_INTERVAL - 1)
    (hidle : ∀ j, j < 6 → (checkHeld (updateButtons s PINB) (5 - j)).1 = false ∧
      (checkClicked (updateButtons s PINB) (5 - j)).1 = false) :
    processButtons s millis PINB
      = runAdjustDown (runAdjustUp (updateButtons { s with debounceEvent := millis % 65536 } PINB)) := by
  have hB : (updateButtons { s with debounceEvent := millis % 65536 } PINB).Buttons
      = (updateButtons s PINB).Buttons := rfl
  have hrun1 : (updateButtons { s with debounceEvent := millis % 65536 } PINB).machineState = RUN :=
    hrun
  have hloop := runButtonsLoop_idle 6 0
    (updateButtons { s with debounceEvent := millis % 65536 } PINB)
    (fun j _ hj => by
      have hh : (checkHeld (updateButtons { s with debounceEvent := millis % 65536 } PINB) (5 - j)).1
          = (checkHeld (updateButtons s PINB) (5 - j)).1 := by
        unfold checkHeld
        rw [hB]
        split_ifs <;> rfl
      rw [hh, checkClicked_fst_eq (updateButtons s PINB) _ (5 - j) (by rw [hB])]
      exact hidle j (by omega))
  unfold processButtons
  rw [if_pos hgate]
  simp only [hrun1, if_true]
  unfold runButtons
  rw [hloop]

/-- C8: in Playback mode, for a playback delay `d` in [8, 2000], a click on
adjust-up sets the delay to `min (d + d / 8) 2000` and a click on adjust-down
sets it to `max (d - d / 8) 8`; with or without a click both blocks leave the
delay in [8, 2000].  From 128 a click on adjust-up gives 144, and from there a
click on adjust-down gives 126.  The same values result from a whole pass of
`processButtons` in RUN mode in which the debounce tick runs, no select input
reports a hold or a click, and exactly one of the two adjust inputs reports a
click. -/
theorem playbackDelay_adjust (s : Device) (h8 : 8 ≤ s.playbackDelay)
    (h2000 : s.playbackDelay ≤ 2000) :
    ((checkClicked s BTNUP).1 = true →
      (runAdjustUp s).playbackDelay = min (s.playbackDelay + s.playbackDelay / 8) 2000) ∧
    ((checkClicked s BTNDN).1 = true →
      (runAdjustDown s).playbackDelay = max (s.playbackDelay - s.playbackDelay / 8) 8) ∧
    (8 ≤ (runAdjustUp s).playbackDelay ∧ (runAdjustUp s).playbackDelay ≤ 2000) ∧
    (8 ≤ (runAdjustDown s).playbackDelay ∧ (runAdjustDown s).playbackDelay ≤ 2000) ∧
    (8 ≤ (runAdjustDown (runAdjustUp s)).playbackDelay ∧
      (runAdjustDown (runAdjustUp s)).playbackDelay ≤ 2000) ∧
    (s.playbackDelay = 128 → (checkClicked s BTNUP).1 = true →
      (runAdjustUp s).playbackDelay = 144 ∧
      ∀ t : Device, t.playbackDelay = (runAdjustUp s).playbackDelay →
        (checkClicked t BTNDN).1 = true → (runAdjustDown t).playbackDelay = 126) ∧
    (∀ millis PINB : Nat, s.machineState = RUN →
      sub16 millis s.debounceEvent > BTN_UPDATE_INTERVAL - 1 →
      (∀ j, j < 6 → (checkHeld (updateButtons s PINB) (5 - j)).1 = false ∧
        (checkClicked (updateButtons s PINB) (5 - j)).1 = false) →
      ((checkClicked (updateButtons s PINB) BTNUP).1 = true →
        (checkClicked (updateButtons s PINB) BTNDN).1 = false →
        (processButtons s millis PINB).playbackDelay
          = min (s.playbackDelay + s.playbackDelay / 8) 2000) ∧
      ((checkClicked (updateButtons s PINB) BTNUP).1 = false →
        (checkClicked (updateButtons s PINB) BTNDN).1 = true →
        (processButtons s millis PINB).playbackDelay
          = max (s.playbackDelay - s.playbackDelay / 8) 8)) := by
  have hup : ∀ t : Device, 8 ≤ t.playbackDelay → t.playbackDelay ≤ 2000 →
      8 ≤ (runAdjustUp t).playbackDelay ∧ (runAdjustUp t).playbackDelay ≤ 2000 := by
    intro t a b
    cases hc : (checkClicked t BTNUP).1
    · rw [runAdjustUp_idle t hc]
      exact ⟨a, b⟩
    · rw [runAdjustUp_clicked t hc b]
      omega
  have hdn : ∀ t : Device, 8 ≤ t.playbackDelay → t.playbackDelay ≤ 2000 →
      8 ≤ (runAdjustDown t).playbackDelay ∧ (runAdjustDown t).playbackDelay ≤ 2000 := by
    intro t a b
    cases hc : (checkClicked t BTNDN).1
    · rw [runAdjustDown_idle t hc]
      exact ⟨a, b⟩
    · rw [runAdjustDown_clicked t hc b]
      omega
  refine ⟨fun hc => runAdjustUp_clicked s hc h2000, fun hc => runAdjustDown_clicked s hc h2000,
    hup s h8 h2000, hdn s h8 h2000, ?_, ?_, ?_⟩
  rotate_left 2
  · intro millis PINB hrun hgate hidle
    have hB : (updateButtons { s with debounceEvent := millis % 65536 } PINB).Buttons
        = (updateButtons s PINB).Buttons := rfl
    have hD : (updateButtons { s with debounceEvent := millis % 65536 } PINB).playbackDelay
        = s.playbackDelay := rfl
    rw [processButtons_adjust_only s millis PINB hrun hgate hidle]
    constructor
    · intro hcu hcd
      have hcu1 := hcu
      rw [← checkClicked_fst_eq (updateButtons s PINB) _ BTNUP (by rw [hB])] at hcu1
      have hcd1 : (checkClicked (runAdjustUp (updateButtons
          { s with debounceEvent := millis % 65536 } PINB)) BTNDN).1 = false := by
        rw [checkClicked_fst_eq (updateButtons s PINB) _ BTNDN
          (by rw [runAdjustUp_other _ BTNDN (by decide), hB])]
        exact hcd
      rw [runAdjustDown_idle _ hcd1, runAdjustUp_clicked _ hcu1 (by rw [hD]; exact h2000), hD]
    · intro hcu hcd
      have hcu1 := hcu
      rw [← checkClicked_fst_eq (updateButtons s PINB) _ BTNUP (by rw [hB])] at hcu1
      have hcd1 := hcd
      rw [← checkClicked_fst_eq (updateButtons s PINB) _ BTNDN (by rw [hB])] at hcd1
      rw [runAdjustUp_idle _ hcu1, runAdjustDown_clicked _ hcd1 (by rw [hD]; exact h2000), hD]
  · exact hdn _ (hup s h8 h2000).1 (hup s h8 h2000).2
  · intro h128 hc
    have hu : (runAdjustUp s).playbackDelay = 144 := by
      rw [runAdjustUp_clicked s hc h2000, h128]
      decide
    refine ⟨hu, ?_⟩
    intro t ht hct
    rw [hu] at ht
    rw [runAdjustDown_clicked t hct (by omega), ht]
    decide

/-- Witness of C8: the factory delay of 128 ms with a click pending on
adjust-up, then 144 ms with a click pending on adjust-down. -/
theorem playbackDelay_adjust_witness :
    (8 ≤ (upClicked).playbackDelay ∧ (upClicked).playbackDelay ≤ 2000) ∧
    (runAdjustUp upClicked).playbackDelay = 144 ∧
    (runAdjustDown downClicked).playbackDelay = 126 :=
  ⟨⟨by decide, by decide⟩,
    ((playbackDelay_adjust upClicked (by decide) (by decide)).2.2.2.2.2.1
      (by decide) (by decide)).1,
    ((playbackDelay_adjust upClicked (by decide) (by decide)).2.2.2.2.2.1
      (by decide) (by decide)).2 downClicked (by decide) (by decide)⟩

/-! ## Playback advance -/

theorem advanceCursor_playbackMarkerPos (s : Device) :
    (advanceCursor s).playbackMarkerPos = s.playbackMarkerPos := by
  unfold advanceCursor
  split_ifs <;> rfl

/-- One move of the cursor stays within the marker position when the marker
position is at least 1 or the style is not Bounce. -/
theorem advanceCursor_le (s : Device) (hc : s.playbackIndex ≤ s.playbackMarkerPos)
    (hm : s.playbackMarkerPos < 256)
    (hpos : 1 ≤ s.playbackMarkerPos ∨ s.playbackConfig ≠ PLAY_BOUNCE) :
    (advanceCursor s).playbackIndex ≤ s.playbackMarkerPos := by
  unfold advanceCursor
  split_ifs <;> (try simp only) <;> omega

theorem setPlaybackDir_fields (s : Device) :
    (setPlaybackDir s).playbackIndex = s.playbackIndex ∧
    (setPlaybackDir s).playbackMarkerPos = s.playbackMarkerPos ∧
    (setPlaybackDir s).playbackConfig = s.playbackConfig ∧
    (s.playbackConfig = PLAY_BOUNCE → (setPlaybackDir s).playbackDir = s.playbackDir) := by
  unfold setPlaybackDir
  split_ifs with h1 h2
  · exact ⟨rfl, rfl, rfl, fun h => by rw [h1] at h; exact absurd h (by decide)⟩
  · exact ⟨rfl, rfl, rfl, fun h => by rw [h2] at h; exact absurd h (by decide)⟩
  · exact ⟨rfl, rfl, rfl, fun _ => rfl⟩

theorem advanceCursor_playbackConfig (s : Device) :
    (advanceCursor s).playbackConfig = s.playbackConfig := by
  unfold advanceCursor
  split_ifs <;> rfl

theorem firePlayback_fields (s : Device) (millis : Nat) :
    (firePlayback s millis).playbackIndex = (advanceCursor s).playbackIndex ∧
    (firePlayback s millis).playbackDir = (advanceCursor s).playbackDir ∧
    (firePlayback s millis).playbackMarkerPos = s.playbackMarkerPos ∧
    (firePlayback s millis).playbackConfig = s.playbackConfig := by
  unfold firePlayback writeChannels advanceCursor
  simp only
  split_ifs <;> exact ⟨rfl, rfl, rfl, rfl⟩

/-- A fired playback advance keeps the cursor within the marker position
when the marker position is at least 1 or the style is not Bounce. -/
theorem fired_advance_le (s : Device) (millis : Nat)
    (hc : s.playbackIndex ≤ s.playbackMarkerPos) (hm : s.playbackMarkerPos < 256)
    (hpos : 1 ≤ s.playbackMarkerPos ∨ s.playbackConfig ≠ PLAY_BOUNCE) :
    (firePlayback (setPlaybackDir s) millis).playbackIndex ≤ s.playbackMarkerPos ∧
    (firePlayback (setPlaybackDir s) millis).playbackMarkerPos = s.playbackMarkerPos ∧
    (firePlayback (setPlaybackDir s) millis).playbackConfig = s.playbackConfig := by
  obtain ⟨d1, d2, d3, _⟩ := setPlaybackDir_fields s
  obtain ⟨f1, _, f3, f4⟩ := firePlayback_fields (setPlaybackDir s) millis
  refine ⟨?_, by rw [f3, d2], by rw [f4, d3]⟩
  rw [f1]
  have := advanceCursor_le (setPlaybackDir s) (by rw [d1, d2]; exact hc) (by rw [d2]; exact hm)
    (by rw [d2, d3]; exact hpos)
  rw [d2] at this
  exact this

/-- Any number of fired playback advances keeps the cursor within the marker
position when the marker position is at least 1 or the style is not Bounce. -/
theorem fired_advances_le (millis n : Nat) :
    ∀ s : Device, s.playbackIndex ≤ s.playbackMarkerPos → s.playbackMarkerPos < 256 →
      (1 ≤ s.playbackMarkerPos ∨ s.playbackConfig ≠ PLAY_BOUNCE) →
      ((fun t => firePlayback (setPlaybackDir t) millis)^[n] s).playbackIndex
        ≤ s.playbackMarkerPos := by
  induction n with
  | zero =>
    intro s hc _ _
    exact hc
  | succ n ih =>
    intro s hc hm hpos
    obtain ⟨a1, a2, a3⟩ := fired_advance_le s millis hc hm hpos
    rw [Function.iterate_succ_apply]
    have := ih (firePlayback (setPlaybackDir s) millis) (by rw [a2]; exact a1) (by rw [a2]; exact hm)
      (by rw [a2, a3]; exact hpos)
    rw [a2] at this
    exact this

/-- Bounce with marker position at least 1: from cursor 0 and direction
Forward, `n` fired advances with `n` up to the marker position put the cursor
at `n` with the direction still Forward. -/
theorem bounce_run_up (millis n : Nat) :
    ∀ s : Device, s.playbackConfig = PLAY_BOUNCE → s.playbackDir = 0 →
      s.playbackIndex + n ≤ s.playbackMarkerPos → s.playbackMarkerPos < 256 →
      ((fun t => firePlayback (setPlaybackDir t) millis)^[n] s).playbackIndex
          = s.playbackIndex + n ∧
      ((fun t => firePlayback (setPlaybackDir t) millis)^[n] s).playbackDir = 0 ∧
      ((fun t => firePlayback (setPlaybackDir t) millis)^[n] s).playbackMarkerPos
          = s.playbackMarkerPos ∧
      ((fun t => firePlayback (setPlaybackDir t) millis)^[n] s).playbackConfig = PLAY_BOUNCE := by
  induction n with
  | zero =>
    intro s hb hd _ _
    exact ⟨rfl, hd, rfl, hb⟩
  | succ n ih =>
    intro s hb hd hc hm
    obtain ⟨d1, d2, d3, d4⟩ := setPlaybackDir_fields s
    obtain ⟨f1, f2, f3, f4⟩ := firePlayback_fields (setPlaybackDir s) millis
    have hdir : (setPlaybackDir s).playbackDir = 0 := by rw [d4 hb]; exact hd
    have hlt : (setPlaybackDir s).playbackIndex < (setPlaybackDir s).playbackMarkerPos := by
      rw [d1, d2]; omega
    have hadv : (advanceCursor (setPlaybackDir s)).playbackIndex = s.playbackIndex + 1 ∧
        (advanceCursor (setPlaybackDir s)).playbackDir = 0 := by
      unfold advanceCursor
      rw [if_pos hdir, if_pos hlt]
      refine ⟨?_, hdir⟩
      show ((setPlaybackDir s).playbackIndex + 1) % 256 = s.playbackIndex + 1
      rw [d1]
      omega
    rw [Function.iterate_succ_apply]
    obtain ⟨i1, i2, i3, i4⟩ := ih (firePlayback (setPlaybackDir s) millis) (by rw [f4, d3]; exact hb)
      (by rw [f2]; exact hadv.2) (by rw [f1, hadv.1, f3, d2]; omega) (by rw [f3, d2]; exact hm)
    refine ⟨?_, i2, ?_, i4⟩
    · rw [i1, f1, hadv.1]
      omega
    · rw [i3, f3, d2]

/-- Bounce with marker position at least 1: at the marker position with
direction Forward, the next fired advance flips the direction to Reverse and
puts the cursor one below the marker position. -/
theorem bounce_flip (s : Device) (millis : Nat) (hb : s.playbackConfig = PLAY_BOUNCE)
    (hd : s.playbackDir = 0) (hc : s.playbackIndex = s.playbackMarkerPos)
    (h1 : 1 ≤ s.playbackMarkerPos) (hm : s.playbackMarkerPos < 256) :
    (firePlayback (setPlaybackDir s) millis).playbackDir = 1 ∧
    (firePlayback (setPlaybackDir s) millis).playbackIndex = s.playbackMarkerPos - 1 := by
  obtain ⟨d1, d2, d3, d4⟩ := setPlaybackDir_fields s
  obtain ⟨f1, f2, _, _⟩ := firePlayback_fields (setPlaybackDir s) millis
  have hdir : (setPlaybackDir s).playbackDir = 0 := by rw [d4 hb]; exact hd
  have hnlt : ¬ (setPlaybackDir s).playbackIndex < (setPlaybackDir s).playbackMarkerPos := by
    rw [d1, d2]; omega
  have hnf : ¬ (setPlaybackDir s).playbackConfig = PLAY_FORWARD := by
    rw [d3, hb]; decide
  have hbb : (setPlaybackDir s).playbackConfig = PLAY_BOUNCE := by rw [d3]; exact hb
  rw [f1, f2]
  unfold advanceCursor
  rw [if_pos hdir, if_neg hnlt, if_neg hnf, if_pos hbb]
  refine ⟨rfl, ?_⟩
  show ((setPlaybackDir s).playbackIndex + 255) % 256 = s.playbackMarkerPos - 1
  rw [d1, hc]
  omega

/-- C1 fails on the code in Bounce style with the marker at frame 0.  After
startup on an image whose pattern 0 has its end marker on frame 0 and whose
stored style is Bounce, the device is in RUN mode with cursor 0, direction
Forward and marker position 0; the first playback advance (`processOutputs`
with the delay of 128 ms elapsed) leaves the cursor at 255, above the marker
position 0, and the second leaves it at 254. -/
theorem bounce_marker_zero_cursor_leaves_range :
    (startup bounceAtZeroEEPROM).machineState = RUN ∧
    (startup bounceAtZeroEEPROM).playbackConfig = PLAY_BOUNCE ∧
    (startup bounceAtZeroEEPROM).playbackMarkerPos = 0 ∧
    (startup bounceAtZeroEEPROM).playbackIndex = 0 ∧
    (startup bounceAtZeroEEPROM).playbackDir = 0 ∧
    (processOutputs (startup bounceAtZeroEEPROM) 200).playbackMarkerPos = 0 ∧
    (processOutputs (startup bounceAtZeroEEPROM) 200).playbackIndex = 255 ∧
    (processOutputs (processOutputs (startup bounceAtZeroEEPROM) 200) 400).playbackIndex = 254 := by
  refine ⟨?_, ?_, ?_, ?_, ?_, ?_, ?_, ?_⟩ <;> decide

/-- C9 fails on the code when the marker position is 0.  In Bounce style
with cursor 0 and direction Forward the cursor already equals the marker
position after 0 advances; the next advance flips the direction to Reverse
and decrements the 8-bit cursor below 0, so that it reads 255 and overshoots
the marker position 0; the frame put out is the one at index 255 mod 8 = 7. -/
theorem bounce_flip_at_marker_zero_overshoots :
    (setPlaybackDir (startup bounceAtZeroEEPROM)).playbackDir = 0 ∧
    (setPlaybackDir (startup bounceAtZeroEEPROM)).playbackIndex
      = (setPlaybackDir (startup bounceAtZeroEEPROM)).playbackMarkerPos ∧
    (advanceCursor (setPlaybackDir (startup bounceAtZeroEEPROM))).playbackDir = 1 ∧
    (advanceCursor (setPlaybackDir (startup bounceAtZeroEEPROM))).playbackIndex = 255 ∧
    (advanceCursor (setPlaybackDir (startup bounceAtZeroEEPROM))).playbackMarkerPos = 0 ∧
    (firePlayback (setPlaybackDir (startup bounceAtZeroEEPROM)) 200).outByte
      = getFrame bounceAtZeroEEPROM 0 7 := by
  refine ⟨?_, ?_, ?_, ?_, ?_, ?_⟩ <;> decide

/-! ## Entering Edit mode -/

theorem clearButtonFlagsLoop_get (flags : Nat) (k : Nat) :
    ∀ (i0 : Nat) (bs : Nat → button) (j : Nat),
    clearButtonFlagsLoop flags k i0 bs j
      = if i0 ≤ j ∧ j < i0 + k then
          { bs j with statusFlags := (bs j).statusFlags &&& (255 ^^^ flags) }
        else bs j := by
  induction k with
  | zero =>
    intro i0 bs j
    have : ¬ (i0 ≤ j ∧ j < i0 + 0) := by omega
    rw [if_neg this]
    rfl
  | succ k ih =>
    intro i0 bs j
    unfold clearButtonFlagsLoop
    rw [ih]
    by_cases hj : j = i0
    · subst hj
      have h1 : ¬ (j + 1 ≤ j ∧ j < j + 1 + k) := by omega
      have h2 : j ≤ j ∧ j < j + (k + 1) := by omega
      rw [if_neg h1, if_pos h2]
      simp [setAt]
    · by_cases hr : i0 + 1 ≤ j ∧ j < i0 + 1 + k
      · have h2 : i0 ≤ j ∧ j < i0 + (k + 1) := by omega
        rw [if_pos hr, if_pos h2]
        simp [setAt, hj]
      · have h2 : ¬ (i0 ≤ j ∧ j < i0 + (k + 1)) := by omega
        rw [if_neg hr, if_neg h2]
        simp [setAt, hj]

theorem clearButtonFlags_flags (s : Device) (flags b : Nat) (hb : b < 8) :
    ((clearButtonFlags s flags).Buttons b).statusFlags
      = (s.Buttons b).statusFlags &&& (255 ^^^ flags) := by
  unfold clearButtonFlags
  simp only
  rw [clearButtonFlagsLoop_get]
  have : 0 ≤ b ∧ b < 0 + 8 := by omega
  rw [if_pos this]

theorem setStatusLED_Buttons (s : Device) (st : Nat) : (setStatusLED s st).Buttons = s.Buttons := by
  unfold setStatusLED
  split_ifs <;> rfl

theorem setStatusLED_machineState (s : Device) (st : Nat) :
    (setStatusLED s st).machineState = s.machineState := by
  unfold setStatusLED
  split_ifs <;> rfl

theorem setStatusLED_channelLog (s : Device) (st : Nat) :
    (setStatusLED s st).channelLog = s.channelLog := by
  unfold setStatusLED
  split_ifs <;> rfl

theorem setStatusLED_outByte (s : Device) (st : Nat) :
    (setStatusLED s st).outByte = s.outByte := by
  unfold setStatusLED
  split_ifs <;> rfl

theorem nextFrame_Buttons (s : Device) : (nextFrame s).Buttons = s.Buttons := by
  unfold nextFrame
  simp only
  split_ifs <;> simp [setStatusLED_Buttons, writeChannels]

theorem nextFrame_machineState (s : Device) : (nextFrame s).machineState = s.machineState := by
  unfold nextFrame
  simp only
  split_ifs <;> simp [setStatusLED_machineState, writeChannels]

theorem nextFrame_outByte (s : Device) :
    (nextFrame s).outByte = getFrame s.eeprom s.playbackPattern s.playbackIndex := by
  unfold nextFrame
  simp only
  split_ifs <;> simp [setStatusLED_outByte, writeChannels]

theorem nextFrame_channelLog (s : Device) :
    (nextFrame s).channelLog
      = s.channelLog ++ [getFrame s.eeprom s.playbackPattern s.playbackIndex] := by
  have hlt := getFrame_lt s.eeprom s.playbackPattern s.playbackIndex
  unfold nextFrame
  simp only
  split_ifs <;> simp [setStatusLED_channelLog, writeChannels, Nat.mod_eq_of_lt hlt]

/-- The state that the `if (checkHeld(5-i))` body of the RUN loop produces. -/
theorem enterProgram_spec (t : Device) (p : Nat) :
    (enterProgram t p).machineState = PROGRAM ∧
    (enterProgram t p).playbackPattern = p ∧
    (enterProgram t p).playbackIndex = 0 ∧
    (∀ b, b < 8 → ((enterProgram t p).Buttons b).statusFlags
      = (t.Buttons b).statusFlags &&& (255 ^^^ GESTURE_FLAGS)) ∧
    (enterProgram t p).playbackDelay = eeprom_read_word t.eeprom p &&& 0x0FFF ∧
    (enterProgram t p).playbackConfig = (eeprom_read_word t.eeprom p >>> 12) % 256 ∧
    (enterProgram t p).playbackMarkerPos
      = markerScan t.eeprom p (getPatternMax p) (getPatternMax p) 0 ∧
    (enterProgram t p).channelLog = t.channelLog ++ [getFrame t.eeprom p 0] ∧
    (enterProgram t p).outByte = getFrame t.eeprom p 0 ∧
    (enterProgram t p).eeprom = t.eeprom := by
  have hs : setStatusLED t SLOWBLINK = { t with statusBlinkDelay := SLOWBLINK } := by
    unfold setStatusLED
    rw [if_neg (by decide), if_neg (by decide)]
  unfold enterProgram
  simp only [hs, loadPatternConfigs, nextFrame_eeprom, nextFrame_playbackPattern,
    nextFrame_machineState, nextFrame_playbackIndex, nextFrame_Buttons, nextFrame_channelLog,
    nextFrame_outByte]
  refine ⟨rfl, rfl, rfl, ?_, rfl, rfl, rfl, rfl, rfl, rfl⟩
  intro b hb
  exact clearButtonFlags_flags _ _ b hb

theorem checkHeld_frame (s : Device) (a : Nat) :
    (checkHeld s a).2.eeprom = s.eeprom ∧ (checkHeld s a).2.channelLog = s.channelLog ∧
    (checkHeld s a).2.machineState = s.machineState ∧
    (∀ b, b ≠ a → (checkHeld s a).2.Buttons b = s.Buttons b) := by
  unfold checkHeld
  split_ifs
  · refine ⟨rfl, rfl, rfl, ?_⟩
    intro b hb
    simp [setFlags, setAt, hb]
  · exact ⟨rfl, rfl, rfl, fun _ _ => rfl⟩

theorem checkClicked_frame (s : Device) (a : Nat) :
    (checkClicked s a).2.eeprom = s.eeprom ∧ (checkClicked s a).2.channelLog = s.channelLog ∧
    (checkClicked s a).2.machineState = s.machineState ∧
    (∀ b, b ≠ a → (checkClicked s a).2.Buttons b = s.Buttons b) := by
  unfold checkClicked
  split_ifs
  · refine ⟨rfl, rfl, rfl, ?_⟩
    intro b hb
    simp [setFlags, setAt, hb]
  · exact ⟨rfl, rfl, rfl, fun _ _ => rfl⟩

theorem checkHeld_fst_congr (s t : Device) (a : Nat) (h : t.Buttons a = s.Buttons a) :
    (checkHeld t a).1 = (checkHeld s a).1 := by
  unfold checkHeld
  rw [h]
  split_ifs <;> rfl

theorem selectOrCycle_frame (s : Device) (i : Nat) :
    (selectOrCycle s i).eeprom = s.eeprom ∧ (selectOrCycle s i).channelLog = s.channelLog ∧
    (selectOrCycle s i).Buttons = s.Buttons := by
  unfold selectOrCycle
  split_ifs
  · exact ⟨rfl, rfl, rfl⟩
  · exact ⟨rfl, rfl, rfl⟩

/-- When the first held select input met by the RUN loop is that of pattern
`p`, the loop ends in the body of its `if (checkHeld(5-i))` with `i = p`, on
a state with the EEPROM and the output trace of the loop entry. -/
theorem runButtonsLoop_enter (k : Nat) :
    ∀ (i : Nat) (s : Device) (p : Nat), i ≤ p → p < i + k → p ≤ 5 →
      (∀ j, i ≤ j → j < p → (checkHeld s (5 - j)).1 = false) →
      (checkHeld s (5 - p)).1 = true →
      ∃ t, runButtonsLoop k i s = enterProgram t p ∧ t.eeprom = s.eeprom ∧
        t.channelLog = s.channelLog := by
  induction k with
  | zero =>
    intro i s p h1 h2
    omega
  | succ k ih =>
    intro i s p h1 h2 h5 hfirst hheld
    unfold runButtonsLoop
    by_cases hip : i = p
    · subst hip
      simp only [hheld, if_true]
      exact ⟨(checkHeld s (5 - i)).2, rfl, (checkHeld_frame s (5 - i)).1,
        (checkHeld_frame s (5 - i)).2.1⟩
    · have hlt : i < p := by omega
      have hf := hfirst i (le_refl i) hlt
      have hsame : (checkHeld s (5 - i)).2 = s := (checkHeld_spec s (5 - i)).2.2 hf
      simp only [hf, hsame]
      obtain ⟨ce, cl, _, cb⟩ := checkClicked_frame s (5 - i)
      have hB : ∀ b, b ≠ 5 - i →
          (if (checkClicked s (5 - i)).1 = true then selectOrCycle (checkClicked s (5 - i)).2 i
            else (checkClicked s (5 - i)).2).Buttons b = s.Buttons b := by
        intro b hb
        split_ifs
        · rw [(selectOrCycle_frame _ i).2.2]
          exact cb b hb
        · exact cb b hb
      have hE : (if (checkClicked s (5 - i)).1 = true then selectOrCycle (checkClicked s (5 - i)).2 i
            else (checkClicked s (5 - i)).2).eeprom = s.eeprom := by
        split_ifs
        · rw [(selectOrCycle_frame _ i).1]
          exact ce
        · exact ce
      have hL : (if (checkClicked s (5 - i)).1 = true then selectOrCycle (checkClicked s (5 - i)).2 i
            else (checkClicked s (5 - i)).2).channelLog = s.channelLog := by
        split_ifs
        · rw [(selectOrCycle_frame _ i).2.1]
          exact cl
        · exact cl
      obtain ⟨t, ht, hte, htl⟩ := ih (i + 1) _ p (by omega) (by omega) h5
        (fun j hj1 hj2 => by
          rw [checkHeld_fst_congr s _ (5 - j) (hB (5 - j) (by omega))]
          exact hfirst j (by omega) hj2)
        (by
          rw [checkHeld_fst_congr s _ (5 - p) (hB (5 - p) (by omega))]
          exact hheld)
      exact ⟨t, ht, hte.trans hE, htl.trans hL⟩

theorem cleared_not_clicked (u : Device) (f id : Nat)
    (h : (u.Buttons id).statusFlags = f &&& (255 ^^^ GESTURE_FLAGS)) :
    (checkClicked u id).1 = false := by
  cases hc : (checkClicked u id).1
  · rfl
  · have := ((checkClicked_spec u id).1.1 hc).2
    rw [h] at this
    exact absurd (and_and_lit f _ _ (by decide)) this

/-- C10: in Playback mode, when the debounce tick runs and the select input
of pattern `p` (input `5 - p`) is the one whose hold `checkHeld` reports in
the RUN loop, one pass of `processButtons` sets the mode to Edit, selects `p`,
resets the cursor to 0, clears Held, Pressed and Released on all 8 inputs,
loads the delay and style of `p` from its settings word and the marker
position of `p`, leaves the EEPROM as it was, and calls `writeChannels` exactly
once, with `getFrame(p, 0)`, which is also the new output byte. -/
theorem hold_enters_edit_mode (s : Device) (millis PINB p : Nat) (hp : p < 6)
    (hrun : s.machineState = RUN)
    (hgate : sub16 millis s.debounceEvent > BTN_UPDATE_INTERVAL - 1)
    (hheld : (checkHeld (updateButtons s PINB) (5 - p)).1 = true)
    (hfirst : ∀ j, j < p → (checkHeld (updateButtons s PINB) (5 - j)).1 = false) :
    (processButtons s millis PINB).machineState = PROGRAM ∧
    (processButtons s millis PINB).playbackPattern = p ∧
    (processButtons s millis PINB).playbackIndex = 0 ∧
    (∀ b, b < 8 →
      ((processButtons s millis PINB).Buttons b).statusFlags &&& STATUS_HELD = 0 ∧
      ((processButtons s millis PINB).Buttons b).statusFlags &&& STATUS_PRESSED = 0 ∧
      ((processButtons s millis PINB).Buttons b).statusFlags &&& STATUS_RELEASED = 0) ∧
    (processButtons s millis PINB).playbackDelay = eeprom_read_word s.eeprom p &&& 0x0FFF ∧
    (processButtons s millis PINB).playbackConfig = (eeprom_read_word s.eeprom p >>> 12) % 256 ∧
    (processButtons s millis PINB).playbackMarkerPos
      = (loadPatternConfigs { s with playbackPattern := p } p).playbackMarkerPos ∧
    (processButtons s millis PINB).channelLog = s.channelLog ++ [getFrame s.eeprom p 0] ∧
    (processButtons s millis PINB).outByte = getFrame s.eeprom p 0 ∧
    (processButtons s millis PINB).eeprom = s.eeprom := by
  have hB : (updateButtons { s with debounceEvent := millis % 65536 } PINB).Buttons
      = (updateButtons s PINB).Buttons := rfl
  obtain ⟨t, ht, hte, htl⟩ := runButtonsLoop_enter 6 0
    (updateButtons { s with debounceEvent := millis % 65536 } PINB) p (Nat.zero_le p)
    (by omega) (by omega)
    (fun j _ hj => by
      rw [checkHeld_fst_congr (updateButtons s PINB) _ (5 - j) (by rw [hB])]
      exact hfirst j hj)
    (by
      rw [checkHeld_fst_congr (updateButtons s PINB) _ (5 - p) (by rw [hB])]
      exact hheld)
  obtain ⟨e1, e2, e3, e4, e5, e6, e7, e8, e9, e10⟩ := enterProgram_spec t p
  have hup : runAdjustUp (enterProgram t p) = enterProgram t p :=
    runAdjustUp_idle _ (cleared_not_clicked _ _ BTNUP (e4 BTNUP (by decide)))
  have hdn : runAdjustDown (enterProgram t p) = enterProgram t p :=
    runAdjustDown_idle _ (cleared_not_clicked _ _ BTNDN (e4 BTNDN (by decide)))
  have hrun1 : (updateButtons { s with debounceEvent := millis % 65536 } PINB).machineState = RUN :=
    hrun
  have hpb : processButtons s millis PINB = enterProgram t p := by
    unfold processButtons
    rw [if_pos hgate]
    simp only [hrun1, if_true]
    unfold runButtons
    rw [ht, hup, hdn]
  have hee : t.eeprom = s.eeprom := hte
  have hlog : t.channelLog = s.channelLog := htl
  rw [hpb]
  refine ⟨e1, e2, e3, ?_, ?_, ?_, ?_, ?_, ?_, ?_⟩
  · intro b hb
    rw [e4 b hb]
    exact ⟨and_and_lit _ _ _ (by decide), and_and_lit _ _ _ (by decide),
      and_and_lit _ _ _ (by decide)⟩
  · rw [e5, hee]
  · rw [e6, hee]
  · rw [e7, hee]
    rfl
  · rw [e8, hee, hlog]
  · rw [e9, hee]
  · rw [e10, hee]

/-- Witness of C10 with `p = 2`: after startup on the factory image, input 3
has been pressed for 400 ticks; the tick at 5 ms reads input 3 still low. -/
theorem hold_enters_edit_mode_witness :
    (2 < 6 ∧ (holdPending).machineState = RUN ∧
      sub16 5 (holdPending).debounceEvent > BTN_UPDATE_INTERVAL - 1 ∧
      (checkHeld (updateButtons holdPending 0b11110111) (5 - 2)).1 = true ∧
      (∀ j, j < 2 → (checkHeld (updateButtons holdPending 0b11110111) (5 - j)).1 = false)) ∧
    ((processButtons holdPending 5 0b11110111).machineState = PROGRAM ∧
      (processButtons holdPending 5 0b11110111).playbackPattern = 2 ∧
      (processButtons holdPending 5 0b11110111).playbackIndex = 0 ∧
      (∀ b, b < 8 →
        ((processButtons holdPending 5 0b11110111).Buttons b).statusFlags &&& STATUS_HELD = 0 ∧
        ((processButtons holdPending 5 0b11110111).Buttons b).statusFlags &&& STATUS_PRESSED = 0 ∧
        ((processButtons holdPending 5 0b11110111).Buttons b).statusFlags &&& STATUS_RELEASED = 0) ∧
      (processButtons holdPending 5 0b11110111).playbackDelay
        = eeprom_read_word (holdPending).eeprom 2 &&& 0x0FFF ∧
      (processButtons holdPending 5 0b11110111).playbackConfig
        = (eeprom_read_word (holdPending).eeprom 2 >>> 12) % 256 ∧
      (processButtons holdPending 5 0b11110111).playbackMarkerPos
        = (loadPatternConfigs { holdPending with playbackPattern := 2 } 2).playbackMarkerPos ∧
      (processButtons holdPending 5 0b11110111).channelLog
        = (holdPending).channelLog ++ [getFrame (holdPending).eeprom 2 0] ∧
      (processButtons holdPending 5 0b11110111).outByte = getFrame (holdPending).eeprom 2 0 ∧
      (processButtons holdPending 5 0b11110111).eeprom = (holdPending).eeprom) :=
  ⟨⟨by decide, by decide, by decide, by decide, by decide⟩,
    hold_enters_edit_mode holdPending 5 0b11110111 2 (by decide) (by decide) (by decide)
      (by decide) (by decide)⟩

/-! ## The settings word -/

theorem settings_word_value (d c : Nat) (hd : d ≤ 4095) :
    ((d &&& 0x0FFF) ||| (c <<< 12)) = 4096 * c + d := by
  have h1 : d &&& 0x0FFF = d % 4096 := Nat.and_pow_two_sub_one_eq_mod d 12
  have h2 : c <<< 12 = c * 4096 := by
    rw [Nat.shiftLeft_eq]
  have h3 : 4096 * c + d = 4096 * c ||| d := @Nat.mul_add_lt_is_or 12 d (by omega) c
  rw [h1, h2, Nat.mod_eq_of_lt (by omega), Nat.or_comm, Nat.mul_comm c 4096, ← h3]

theorem settings_word_decode (d c : Nat) (hd : d ≤ 4095) (hc : c ≤ 15) :
    ((4096 * c + d) % 65536) &&& 0x0FFF = d ∧ (((4096 * c + d) % 65536) >>> 12) % 256 = c := by
  have h1 : ((4096 * c + d) % 65536) &&& 0x0FFF = ((4096 * c + d) % 65536) % 4096 :=
    Nat.and_pow_two_sub_one_eq_mod _ 12
  rw [h1, Nat.shiftRight_eq_div_pow]
  constructor <;> omega

/-- C13: the settings word round-trips.  When the autosave of
`processEEPROMsave` runs with a delay in [0, 4095] and a style value in
[0, 15], the word it stores for the current pattern is
`(delay & 0x0FFF) | (style << 12)`, and `loadPatternConfigs` decodes that word
back to the same delay (lower 12 bits) and the same style (upper 4 bits).
The factory word 128 of every pattern decodes to delay 128 and style
Forward. -/
theorem settings_word_roundtrip (s : Device) (millis : Nat) (hrun : s.machineState = RUN)
    (hdue : sub16 millis s.EEPROMSaveCounter > EEPROMSAVEINTERVAL)
    (hd : s.playbackDelay ≤ 4095) (hc : s.playbackConfig ≤ 15) :
    eeprom_read_word (processEEPROMsave s millis).eeprom s.playbackPattern
      = ((s.playbackDelay &&& 0x0FFF) ||| (s.playbackConfig <<< 12)) ∧
    (loadPatternConfigs (processEEPROMsave s millis) s.playbackPattern).playbackDelay
      = s.playbackDelay ∧
    (loadPatternConfigs (processEEPROMsave s millis) s.playbackPattern).playbackConfig
      = s.playbackConfig ∧
    (∀ p, p < 6 → ∀ t : Device, t.eeprom = factoryEEPROM →
      eeprom_read_word t.eeprom p = 128 ∧
      (loadPatternConfigs t p).playbackDelay = 128 ∧
      (loadPatternConfigs t p).playbackConfig = PLAY_FORWARD) := by
  have hw := settings_word_value s.playbackDelay s.playbackConfig hd
  obtain ⟨hdec1, hdec2⟩ := settings_word_decode s.playbackDelay s.playbackConfig hd hc
  have hrd : eeprom_read_word (processEEPROMsave s millis).eeprom s.playbackPattern
      = (4096 * s.playbackConfig + s.playbackDelay) % 65536 := by
    unfold processEEPROMsave
    rw [if_pos hrun, if_pos hdue]
    simp only [eeprom_read_word, eeprom_update_word, setAt, if_true, hw, Nat.mod_mod]
  refine ⟨?_, ?_, ?_, ?_⟩
  · rw [hrd, hw]
    omega
  · show eeprom_read_word (processEEPROMsave s millis).eeprom s.playbackPattern &&& 0x0FFF = _
    rw [hrd]
    exact hdec1
  · show (eeprom_read_word (processEEPROMsave s millis).eeprom s.playbackPattern >>> 12) % 256 = _
    rw [hrd]
    exact hdec2
  · intro p hp t ht
    have h128 : eeprom_read_word t.eeprom p = 128 := by
      rw [ht]
      interval_cases p <;> decide
    refine ⟨h128, ?_, ?_⟩
    · show eeprom_read_word t.eeprom p &&& 0x0FFF = 128
      rw [h128]
      decide
    · show (eeprom_read_word t.eeprom p >>> 12) % 256 = PLAY_FORWARD
      rw [h128]
      decide

/-- Witness of C13: after startup on the factory image, with the delay raised
to 2000 and the style set to Bounce, the autosave due at 1001 ms. -/
theorem settings_word_roundtrip_witness :
    ((savePending).machineState = RUN ∧
      sub16 1001 (savePending).EEPROMSaveCounter > EEPROMSAVEINTERVAL ∧
      (savePending).playbackDelay ≤ 4095 ∧ (savePending).playbackConfig ≤ 15) ∧
    eeprom_read_word (processEEPROMsave savePending 1001).eeprom (savePending).playbackPattern
      = (((savePending).playbackDelay &&& 0x0FFF) ||| ((savePending).playbackConfig <<< 12)) ∧
    (loadPatternConfigs (processEEPROMsave savePending 1001)
        (savePending).playbackPattern).playbackDelay = (savePending).playbackDelay ∧
    (loadPatternConfigs (processEEPROMsave savePending 1001)
        (savePending).playbackPattern).playbackConfig = (savePending).playbackConfig :=
  ⟨⟨by decide, by decide, by decide, by decide⟩,
    (settings_word_roundtrip savePending 1001 (by decide) (by decide) (by decide) (by decide)).1,
    (settings_word_roundtrip savePending 1001 (by decide) (by decide) (by decide) (by decide)).2.1,
    (settings_word_roundtrip savePending 1001 (by decide) (by decide) (by decide) (by decide)).2.2.1⟩

/-! ## The debounce gate -/

theorem sub16_elapsed (t d : Nat) (ht : t < 65536) (hd : d < 65536) :
    sub16 ((t + d) % 65536) t = d := by
  unfold sub16
  omega

/-- C19: the debounce gate is wraparound-safe.  For a 16-bit last-run
timestamp `t = debounceEvent`, a true elapsed time `d` in [0, 65535] and the
counter reading `now = (t + d) mod 2^16`, the 16-bit difference that
`processButtons` computes is `d`, the gate is open iff `d ≥ 5`, an invocation
with `d ≥ 5` records `now` and samples the inputs with `updateButtons` before
running the branch of the current mode, and an invocation with `d < 5`
returns the state unchanged. -/
theorem debounce_gate_wraparound (s : Device) (d now PINB : Nat)
    (ht : s.debounceEvent < 65536) (hd : d < 65536)
    (hnow : now = (s.debounceEvent + d) % 65536) :
    sub16 now s.debounceEvent = d ∧
    (sub16 now s.debounceEvent > BTN_UPDATE_INTERVAL - 1 ↔ 5 ≤ d) ∧
    (5 ≤ d → processButtons s now PINB
      = if (updateButtons { s with debounceEvent := now } PINB).machineState = RUN then
          runButtons (updateButtons { s with debounceEvent := now } PINB)
        else if (updateButtons { s with debounceEvent := now } PINB).machineState = PROGRAM then
          programButtons (updateButtons { s with debounceEvent := now } PINB)
        else updateButtons { s with debounceEvent := now } PINB) ∧
    (d < 5 → processButtons s now PINB = s) := by
  have hsub : sub16 now s.debounceEvent = d := by
    rw [hnow]
    exact sub16_elapsed s.debounceEvent d ht hd
  have hmod : now % 65536 = now := by
    rw [hnow]
    omega
  refine ⟨hsub, ?_, ?_, ?_⟩
  · rw [hsub]
    show d > 4 ↔ 5 ≤ d
    omega
  · intro h5
    have hg : sub16 now s.debounceEvent > BTN_UPDATE_INTERVAL - 1 := by
      rw [hsub]
      show d > 4
      omega
    unfold processButtons
    rw [if_pos hg, hmod]
  · intro h5
    have hg : ¬ sub16 now s.debounceEvent > BTN_UPDATE_INTERVAL - 1 := by
      rw [hsub]
      show ¬ d > 4
      omega
    unfold processButtons
    rw [if_neg hg]

/-- Witness of C19: the last tick ran at 65534 ms and 5 ms have elapsed, so
the counter has rolled over and reads 3. -/
theorem debounce_gate_wraparound_witness :
    ((nearRollover).debounceEvent < 65536 ∧ 5 < 65536 ∧
      3 = ((nearRollover).debounceEvent + 5) % 65536) ∧
    sub16 3 (nearRollover).debounceEvent = 5 ∧
    (sub16 3 (nearRollover).debounceEvent > BTN_UPDATE_INTERVAL - 1 ↔ 5 ≤ 5) :=
  ⟨⟨by decide, by decide, by decide⟩,
    (debounce_gate_wraparound nearRollover 5 3 255 (by decide) (by decide) (by decide)).1,
    (debounce_gate_wraparound nearRollover 5 3 255 (by decide) (by decide) (by decide)).2.1⟩

/-! ## One playback advance with a marker position of at least 1 -/

theorem advanceCursor_no_wrap (s : Device) (hc : s.playbackIndex ≤ s.playbackMarkerPos)
    (hm : s.playbackMarkerPos < 256) (h1 : 1 ≤ s.playbackMarkerPos) :
    (advanceCursor s).playbackIndex = s.playbackIndex + 1 ∨
    (advanceCursor s).playbackIndex + 1 = s.playbackIndex ∨
    (advanceCursor s).playbackIndex = 0 ∨
    (advanceCursor s).playbackIndex = s.playbackMarkerPos ∨
    (advanceCursor s).playbackIndex = s.playbackIndex := by
  unfold advanceCursor
  split_ifs <;> (try simp only) <;> (try omega) <;> simp

theorem processOutputs_fired (s : Device) (millis : Nat) (hrun : s.machineState = RUN)
    (hfire : sub16 millis s.playbackCounter > s.playbackDelay) :
    processOutputs s millis = firePlayback (setPlaybackDir s) millis := by
  have hcnt : (setPlaybackDir s).playbackCounter = s.playbackCounter := by
    unfold setPlaybackDir
    split_ifs <;> rfl
  have hdel : (setPlaybackDir s).playbackDelay = s.playbackDelay := by
    unfold setPlaybackDir
    split_ifs <;> rfl
  unfold processOutputs
  rw [if_pos hrun]
  simp only [hcnt, hdel, if_pos hfire]

/-- C20: for every marker position (effectiveMax) of at least 1, every
cursor up to it, every direction and every style value (the undefined values
3..15 included), one playback advance of `processOutputs` leaves the cursor
within the marker position, and the 8-bit cursor does not wrap: the new
cursor is the old one plus 1, the old one minus 1, 0, the marker position, or
the old one.  Hence whenever an advance leaves the cursor above the marker
position, the marker position is 0 or the cursor was above it before. -/
theorem advance_in_range_for_positive_marker (s : Device) (millis : Nat)
    (hrun : s.machineState = RUN)
    (hfire : sub16 millis s.playbackCounter > s.playbackDelay)
    (h1 : 1 ≤ s.playbackMarkerPos) (hm : s.playbackMarkerPos < 256)
    (hc : s.playbackIndex ≤ s.playbackMarkerPos) :
    (processOutputs s millis).playbackIndex ≤ s.playbackMarkerPos ∧
    (processOutputs s millis).playbackMarkerPos = s.playbackMarkerPos ∧
    ((processOutputs s millis).playbackIndex = s.playbackIndex + 1 ∨
      (processOutputs s millis).playbackIndex + 1 = s.playbackIndex ∨
      (processOutputs s millis).playbackIndex = 0 ∨
      (processOutputs s millis).playbackIndex = s.playbackMarkerPos ∨
      (processOutputs s millis).playbackIndex = s.playbackIndex) ∧
    (∀ t : Device, t.machineState = RUN → sub16 millis t.playbackCounter > t.playbackDelay →
      t.playbackMarkerPos < 256 →
      (processOutputs t millis).playbackIndex > t.playbackMarkerPos →
      t.playbackMarkerPos = 0 ∨ t.playbackIndex > t.playbackMarkerPos) := by
  obtain ⟨a1, a2, _⟩ := fired_advance_le s millis hc hm (Or.inl h1)
  obtain ⟨d1, d2, _, _⟩ := setPlaybackDir_fields s
  obtain ⟨f1, _, _, _⟩ := firePlayback_fields (setPlaybackDir s) millis
  rw [processOutputs_fired s millis hrun hfire]
  refine ⟨a1, a2, ?_, ?_⟩
  · have := advanceCursor_no_wrap (setPlaybackDir s) (by rw [d1, d2]; exact hc)
      (by rw [d2]; exact hm) (by rw [d2]; exact h1)
    rw [d1, d2] at this
    rw [f1]
    exact this
  · intro t trun tfire tm tgt
    by_contra hcon
    have hpos : 1 ≤ t.playbackMarkerPos := by omega
    have hle : t.playbackIndex ≤ t.playbackMarkerPos := by omega
    have := (fired_advance_le t millis hle tm (Or.inl hpos)).1
    rw [processOutputs_fired t millis trun tfire] at tgt
    omega

/-- Witness of C20: Bounce style on pattern 0 of the factory image (marker
position 5) with the cursor on the marker position, the delay elapsed. -/
theorem advance_in_range_for_positive_marker_witness :
    ((bounceAtMarker).machineState = RUN ∧
      sub16 200 (bounceAtMarker).playbackCounter > (bounceAtMarker).playbackDelay ∧
      1 ≤ (bounceAtMarker).playbackMarkerPos ∧ (bounceAtMarker).playbackMarkerPos < 256 ∧
      (bounceAtMarker).playbackIndex ≤ (bounceAtMarker).playbackMarkerPos) ∧
    (processOutputs bounceAtMarker 200).playbackIndex ≤ (bounceAtMarker).playbackMarkerPos ∧
    (processOutputs bounceAtMarker 200).playbackMarkerPos = (bounceAtMarker).playbackMarkerPos :=
  ⟨⟨by decide, by decide, by decide, by decide, by decide⟩,
    (advance_in_range_for_positive_marker bounceAtMarker 200 (by decide) (by decide) (by decide)
      (by decide) (by decide)).1,
    (advance_in_range_for_positive_marker bounceAtMarker 200 (by decide) (by decide) (by decide)
      (by decide) (by decide)).2.1⟩

/-! ## Order of the steps of a loop iteration -/

theorem portd_led_channels (P b : Nat) :
    ((P ^^^ (1 <<< STATUSLED)) &&& 0b11000011) ||| (b &&& 0b00111100)
      = ((P &&& 0b11000011) ||| (b &&& 0b00111100)) ^^^ (1 <<< STATUSLED) := by
  apply Nat.eq_of_testBit_eq
  intro i
  have h64 : (1 <<< STATUSLED) = 2 ^ 6 := by decide
  rw [h64]
  simp only [Nat.testBit_or, Nat.testBit_and, Nat.testBit_xor, Nat.testBit_two_pow]
  by_cases hi : 6 = i
  · subst hi
    have e1 : Nat.testBit 0b11000011 6 = true := by decide
    have e2 : Nat.testBit 0b00111100 6 = false := by decide
    simp [e1, e2]
  · simp [hi]

theorem processStatusLED_eq (s : Device) (millis : Nat) :
    processStatusLED s millis
      = if s.statusBlinkDelay ≠ 0 ∧ sub16 millis s.statusBlinkCounter > s.statusBlinkDelay then
          toggleLED s millis
        else s := by
  unfold processStatusLED toggleLED
  split_ifs with h1 h2 h3 h4 <;> first | rfl | (exfalso; tauto)

theorem setPlaybackDir_toggleLED (s : Device) (m : Nat) :
    setPlaybackDir (toggleLED s m) = toggleLED (setPlaybackDir s) m := by
  have hc : (toggleLED s m).playbackConfig = s.playbackConfig := rfl
  unfold setPlaybackDir
  simp only [hc]
  split_ifs <;> rfl

theorem advanceCursor_toggleLED (s : Device) (m : Nat) :
    advanceCursor (toggleLED s m) = toggleLED (advanceCursor s) m := by
  have hd : (toggleLED s m).playbackDir = s.playbackDir := rfl
  have hi : (toggleLED s m).playbackIndex = s.playbackIndex := rfl
  have hp : (toggleLED s m).playbackMarkerPos = s.playbackMarkerPos := rfl
  have hc : (toggleLED s m).playbackConfig = s.playbackConfig := rfl
  unfold advanceCursor
  simp only [hd, hi, hp, hc]
  split_ifs <;> rfl

theorem writeChannels_toggleLED (s : Device) (m b : Nat) :
    writeChannels (toggleLED s m) b = toggleLED (writeChannels s b) m := by
  unfold writeChannels toggleLED
  simp only [Device.mk.injEq, true_and, and_true]
  exact portd_led_channels s.PORTD _

theorem firePlayback_toggleLED (s : Device) (m millis : Nat) :
    firePlayback (toggleLED s m) millis = toggleLED (firePlayback s millis) m := by
  have h1 : { toggleLED s m with playbackCounter := millis % 65536 }
      = toggleLED { s with playbackCounter := millis % 65536 } m := rfl
  unfold firePlayback
  simp only
  rw [h1, advanceCursor_toggleLED]
  generalize advanceCursor { s with playbackCounter := millis % 65536 } = a
  show writeChannels
      (toggleLED { a with outByte := getFrame a.eeprom a.playbackPattern a.playbackIndex } m)
      (getFrame a.eeprom a.playbackPattern a.playbackIndex)
    = toggleLED
        (writeChannels { a with outByte := getFrame a.eeprom a.playbackPattern a.playbackIndex }
          (getFrame a.eeprom a.playbackPattern a.playbackIndex)) m
  exact writeChannels_toggleLED _ m _

theorem processOutputs_toggleLED (s : Device) (m millis : Nat) :
    processOutputs (toggleLED s m) millis = toggleLED (processOutputs s millis) m := by
  unfold processOutputs
  simp only [setPlaybackDir_toggleLED]
  by_cases hrun : s.machineState = RUN
  · have hrun2 : (toggleLED s m).machineState = RUN := hrun
    rw [if_pos hrun, if_pos hrun2]
    have hc : (toggleLED (setPlaybackDir s) m).playbackCounter = (setPlaybackDir s).playbackCounter :=
      rfl
    have hd : (toggleLED (setPlaybackDir s) m).playbackDelay = (setPlaybackDir s).playbackDelay :=
      rfl
    rw [hc, hd]
    split_ifs
    · exact firePlayback_toggleLED _ m millis
    · rfl
  · have hrun2 : ¬ (toggleLED s m).machineState = RUN := hrun
    rw [if_neg hrun, if_neg hrun2]

theorem setPlaybackDir_blink (s : Device) :
    (setPlaybackDir s).statusBlinkDelay = s.statusBlinkDelay ∧
    (setPlaybackDir s).statusBlinkCounter = s.statusBlinkCounter ∧
    (setPlaybackDir s).PORTD = s.PORTD := by
  unfold setPlaybackDir
  split_ifs <;> exact ⟨rfl, rfl, rfl⟩

theorem advanceCursor_blink (s : Device) :
    (advanceCursor s).statusBlinkDelay = s.statusBlinkDelay ∧
    (advanceCursor s).statusBlinkCounter = s.statusBlinkCounter ∧
    (advanceCursor s).PORTD = s.PORTD := by
  unfold advanceCursor
  split_ifs <;> exact ⟨rfl, rfl, rfl⟩

theorem firePlayback_blink (s : Device) (millis : Nat) :
    (firePlayback s millis).statusBlinkDelay = s.statusBlinkDelay ∧
    (firePlayback s millis).statusBlinkCounter = s.statusBlinkCounter := by
  obtain ⟨a1, a2, _⟩ := advanceCursor_blink { s with playbackCounter := millis % 65536 }
  exact ⟨a1, a2⟩

theorem processOutputs_blink (s : Device) (millis : Nat) :
    (processOutputs s millis).statusBlinkDelay = s.statusBlinkDelay ∧
    (processOutputs s millis).statusBlinkCounter = s.statusBlinkCounter := by
  obtain ⟨d1, d2, _⟩ := setPlaybackDir_blink s
  obtain ⟨f1, f2⟩ := firePlayback_blink (setPlaybackDir s) millis
  unfold processOutputs
  simp only
  split_ifs
  · exact ⟨f1.trans d1, f2.trans d2⟩
  · exact ⟨d1, d2⟩
  · exact ⟨rfl, rfl⟩

/-- The status-LED update and the playback advance commute. -/
theorem processStatusLED_processOutputs_comm (s : Device) (millis : Nat) :
    processOutputs (processStatusLED s millis) millis
      = processStatusLED (processOutputs s millis) millis := by
  obtain ⟨b1, b2⟩ := processOutputs_blink s millis
  rw [processStatusLED_eq s millis, processStatusLED_eq (processOutputs s millis) millis, b1, b2]
  split_ifs
  · exact processOutputs_toggleLED s millis millis
  · rfl

/-- C18: one iteration of the main loop has the resulting state and outputs
of running inputs (`processButtons`), then the playback advance
(`processOutputs`), then the status-LED update (`processStatusLED`), then the
autosave check (`processEEPROMsave`), for every device state, tick value and
port reading.  main.c calls `processStatusLED` before `processOutputs`; the two
act on disjoint parts of the state and on disjoint bits of PORTD, so both
orders give the same state, port registers, EEPROM and output trace. -/
theorem mainLoopBody_eq_specLoopBody (s : Device) (millis PINB : Nat) :
    mainLoopBody s millis PINB = specLoopBody s millis PINB := by
  unfold mainLoopBody specLoopBody
  rw [processStatusLED_processOutputs_comm]

/-! ## Stepping through the frames in Edit mode -/

theorem checkClicked_only_buttons (s : Device) (id : Nat) :
    (checkClicked s id).2 = { s with Buttons := (checkClicked s id).2.Buttons } := by
  unfold checkClicked setFlags
  split_ifs <;> rfl

theorem checkHeld_only_buttons (s : Device) (id : Nat) :
    (checkHeld s id).2 = { s with Buttons := (checkHeld s id).2.Buttons } := by
  unfold checkHeld setFlags
  split_ifs <;> rfl

theorem revPattern_fields (s : Device) (h : s.playbackIndex < 256) :
    (revPattern s).playbackIndex = s.playbackIndex - 1 ∧
    (revPattern s).playbackPattern = s.playbackPattern ∧
    (revPattern s).eeprom = s.eeprom ∧ (revPattern s).channelLog = s.channelLog ∧
    (revPattern s).Buttons = s.Buttons ∧ (revPattern s).machineState = s.machineState := by
  unfold revPattern
  split_ifs with h0
  · refine ⟨?_, rfl, rfl, rfl, rfl, rfl⟩
    show (s.playbackIndex + 255) % 256 = s.playbackIndex - 1
    omega
  · refine ⟨?_, rfl, rfl, rfl, rfl, rfl⟩
    omega

theorem fwdPattern_fields (s : Device) (h : s.playbackIndex ≤ getPatternMax s.playbackPattern) :
    (fwdPattern s).playbackIndex = min (s.playbackIndex + 1) (getPatternMax s.playbackPattern) ∧
    (fwdPattern s).playbackPattern = s.playbackPattern ∧
    (fwdPattern s).eeprom = s.eeprom ∧ (fwdPattern s).channelLog = s.channelLog ∧
    (fwdPattern s).Buttons = s.Buttons ∧ (fwdPattern s).machineState = s.machineState := by
  have hle := getPatternMax_le s.playbackPattern
  unfold fwdPattern
  split_ifs with h0
  · refine ⟨?_, rfl, rfl, rfl, rfl, rfl⟩
    show (s.playbackIndex + 1) % 256 = _
    omega
  · refine ⟨?_, rfl, rfl, rfl, rfl, rfl⟩
    omega

/-- The state after the `if (checkClicked(BTNUP))` block of the PROGRAM
branch when the click is there. -/
theorem programStepBack_clicked (s : Device) (hc : (checkClicked s BTNUP).1 = true)
    (hi : s.playbackIndex < 256) :
    (programStepBack s).eeprom
      = writeFrame s.eeprom s.playbackPattern s.playbackIndex s.outByte ∧
    (programStepBack s).playbackIndex = s.playbackIndex - 1 ∧
    (programStepBack s).playbackPattern = s.playbackPattern ∧
    (programStepBack s).outByte
      = getFrame (writeFrame s.eeprom s.playbackPattern s.playbackIndex s.outByte)
          s.playbackPattern (s.playbackIndex - 1) ∧
    (programStepBack s).channelLog
      = s.channelLog ++
          [getFrame (writeFrame s.eeprom s.playbackPattern s.playbackIndex s.outByte)
            s.playbackPattern (s.playbackIndex - 1)] ∧
    (programStepBack s).Buttons = (checkClicked s BTNUP).2.Buttons ∧
    (programStepBack s).machineState = s.machineState := by
  have hs := checkClicked_only_buttons s BTNUP
  unfold programStepBack
  simp only [hc, if_true]
  generalize hw : ({ (checkClicked s BTNUP).2 with
      eeprom := writeFrame (checkClicked s BTNUP).2.eeprom (checkClicked s BTNUP).2.playbackPattern
        (checkClicked s BTNUP).2.playbackIndex (checkClicked s BTNUP).2.outByte } : Device) = w
  have w1 : w.eeprom = writeFrame s.eeprom s.playbackPattern s.playbackIndex s.outByte := by
    rw [← hw, hs]
  have w2 : w.playbackIndex = s.playbackIndex := by rw [← hw, hs]
  have w3 : w.playbackPattern = s.playbackPattern := by rw [← hw, hs]
  have w4 : w.channelLog = s.channelLog := by rw [← hw, hs]
  have w5 : w.Buttons = (checkClicked s BTNUP).2.Buttons := by rw [← hw]
  have w6 : w.machineState = s.machineState := by rw [← hw, hs]
  obtain ⟨r1, r2, r3, r4, r5, r6⟩ := revPattern_fields w (by rw [w2]; exact hi)
  rw [nextFrame_eeprom, nextFrame_playbackIndex, nextFrame_playbackPattern, nextFrame_outByte,
    nextFrame_channelLog, nextFrame_Buttons, nextFrame_machineState, r1, r2, r3, r4, r5, r6,
    w1, w2, w3, w4, w5, w6]
  exact ⟨rfl, rfl, rfl, rfl, rfl, rfl, rfl⟩

/-- The state after the `if (checkClicked(BTNDN))` block of the PROGRAM
branch when the click is there. -/
theorem programStepForward_clicked (s : Device) (hc : (checkClicked s BTNDN).1 = true)
    (hi : s.playbackIndex ≤ getPatternMax s.playbackPattern) :
    (programStepForward s).eeprom
      = writeFrame s.eeprom s.playbackPattern s.playbackIndex s.outByte ∧
    (programStepForward s).playbackIndex
      = min (s.playbackIndex + 1) (getPatternMax s.playbackPattern) ∧
    (programStepForward s).playbackPattern = s.playbackPattern ∧
    (programStepForward s).outByte
      = getFrame (writeFrame s.eeprom s.playbackPattern s.playbackIndex s.outByte)
          s.playbackPattern (min (s.playbackIndex + 1) (getPatternMax s.playbackPattern)) ∧
    (programStepForward s).channelLog
      = s.channelLog ++
          [getFrame (writeFrame s.eeprom s.playbackPattern s.playbackIndex s.outByte)
            s.playbackPattern (min (s.playbackIndex + 1) (getPatternMax s.playbackPattern))] ∧
    (programStepForward s).Buttons = (checkClicked s BTNDN).2.Buttons ∧
    (programStepForward s).machineState = s.machineState := by
  have hs := checkClicked_only_buttons s BTNDN
  unfold programStepForward
  simp only [hc, if_true]
  generalize hw : ({ (checkClicked s BTNDN).2 with
      eeprom := writeFrame (checkClicked s BTNDN).2.eeprom (checkClicked s BTNDN).2.playbackPattern
        (checkClicked s BTNDN).2.playbackIndex (checkClicked s BTNDN).2.outByte } : Device) = w
  have w1 : w.eeprom = writeFrame s.eeprom s.playbackPattern s.playbackIndex s.outByte := by
    rw [← hw, hs]
  have w2 : w.playbackIndex = s.playbackIndex := by rw [← hw, hs]
  have w3 : w.playbackPattern = s.playbackPattern := by rw [← hw, hs]
  have w4 : w.channelLog = s.channelLog := by rw [← hw, hs]
  have w5 : w.Buttons = (checkClicked s BTNDN).2.Buttons := by rw [← hw]
  have w6 : w.machineState = s.machineState := by rw [← hw, hs]
  obtain ⟨r1, r2, r3, r4, r5, r6⟩ := fwdPattern_fields w (by rw [w2, w3]; exact hi)
  rw [nextFrame_eeprom, nextFrame_playbackIndex, nextFrame_playbackPattern, nextFrame_outByte,
    nextFrame_channelLog, nextFrame_Buttons, nextFrame_machineState, r1, r2, r3, r4, r5, r6,
    w1, w2, w3, w4, w5, w6]
  exact ⟨rfl, rfl, rfl, rfl, rfl, rfl, rfl⟩

theorem programButtonsLoop_idle (k : Nat) :
    ∀ (i : Nat) (s : Device),
      (∀ j, i ≤ j → j < i + k →
        (checkClicked s (5 - j)).1 = false ∧ (checkHeld s j).1 = false) →
      programButtonsLoop k i s = s := by
  induction k with
  | zero =>
    intro i s _
    rfl
  | succ k ih =>
    intro i s h
    obtain ⟨hc, hh⟩ := h i (le_refl i) (by omega)
    have e1 : (checkClicked s (5 - i)).2 = s := (checkClicked_spec s (5 - i)).2.2 hc
    have e2 : (checkHeld s i).2 = s := (checkHeld_spec s i).2.2 hh
    unfold programButtonsLoop
    simp only [hc, e1, hh, e2]
    exact ih (i + 1) s (fun j hj1 hj2 => h j (by omega) (by omega))

theorem programStepBack_idle (s : Device) (hc : (checkClicked s BTNUP).1 = false) :
    programStepBack s = s := by
  unfold programStepBack
  simp only [hc]
  exact (checkClicked_spec s BTNUP).2.2 hc

theorem programStepForward_idle (s : Device) (hc : (checkClicked s BTNDN).1 = false) :
    programStepForward s = s := by
  unfold programStepForward
  simp only [hc]
  exact (checkClicked_spec s BTNDN).2.2 hc

theorem programMarker_idle (s : Device) (hu : (checkHeld s BTNUP).1 = false)
    (hd : (checkHeld s BTNDN).1 = false) : programMarker s = s := by
  have e1 : (checkHeld s BTNUP).2 = s := (checkHeld_spec s BTNUP).2.2 hu
  unfold programMarker
  simp only [hu, e1, hd]
  exact (checkHeld_spec s BTNDN).2.2 hd

theorem clicked_then_not_held (s t : Device) (id : Nat) (hc : (checkClicked s id).1 = true)
    (ht : t.Buttons id = (checkClicked s id).2.Buttons id) : (checkHeld t id).1 = false := by
  cases hh : (checkHeld t id).1
  · rfl
  · have h1 := (checkHeld_spec t id).1.1 hh
    rw [ht] at h1
    exact absurd ((checkClicked_spec s id).2.1 hc).2.2 h1

/-- One pass of `processButtons` in PROGRAM mode when the debounce tick runs,
no select input reports a click or a hold, adjust-up reports a click, and
adjust-down reports neither a click nor a hold: only the adjust-up block acts. -/
theorem processButtons_step_back_only (s : Device) (millis PINB : Nat)
    (hprog : s.machineState = PROGRAM)
    (hgate : sub16 millis s.debounceEvent > BTN_UPDATE_INTERVAL - 1)
    (hidle : ∀ j, j < 6 → (checkClicked (updateButtons s PINB) (5 - j)).1 = false ∧
      (checkHeld (updateButtons s PINB) j).1 = false)
    (hup : (checkClicked (updateButtons s PINB) BTNUP).1 = true)
    (hdn : (checkClicked (updateButtons s PINB) BTNDN).1 = false)
    (hdh : (checkHeld (updateButtons s PINB) BTNDN).1 = false) :
    processButtons s millis PINB
      = programStepBack (updateButtons { s with debounceEvent := millis % 65536 } PINB) ∧
    (checkClicked (updateButtons { s with debounceEvent := millis % 65536 } PINB) BTNUP).1 = true := by
  have hB : (updateButtons { s with debounceEvent := millis % 65536 } PINB).Buttons
      = (updateButtons s PINB).Buttons := rfl
  generalize hs1 : updateButtons { s with debounceEvent := millis % 65536 } PINB = s1 at hB
  have hm1 : s1.machineState = PROGRAM := by rw [← hs1]; exact hprog
  have hloop := programButtonsLoop_idle 6 0 s1
    (fun j _ hj => by
      rw [checkClicked_fst_eq (updateButtons s PINB) s1 (5 - j) (by rw [hB]),
        checkHeld_fst_congr (updateButtons s PINB) s1 j (by rw [hB])]
      exact hidle j (by omega))
  have hup1 : (checkClicked s1 BTNUP).1 = true := by
    rw [checkClicked_fst_eq (updateButtons s PINB) s1 BTNUP (by rw [hB])]
    exact hup
  have hbtn : (programStepBack s1).Buttons = (checkClicked s1 BTNUP).2.Buttons := by
    unfold programStepBack
    simp only [hup1, if_true]
    rw [nextFrame_Buttons]
    unfold revPattern
    split_ifs <;> rfl
  have hfw : (checkClicked (programStepBack s1) BTNDN).1 = false := by
    rw [checkClicked_fst_eq (updateButtons s PINB) _ BTNDN
      (by rw [hbtn, checkClicked_other s1 BTNUP BTNDN (by decide), hB])]
    exact hdn
  have hmu : (checkHeld (programStepBack s1) BTNUP).1 = false :=
    clicked_then_not_held s1 _ BTNUP hup1 (by rw [hbtn])
  have hmd : (checkHeld (programStepBack s1) BTNDN).1 = false := by
    rw [checkHeld_fst_congr (updateButtons s PINB) _ BTNDN
      (by rw [hbtn, checkClicked_other s1 BTNUP BTNDN (by decide), hB])]
    exact hdh
  refine ⟨?_, hup1⟩
  unfold processButtons
  rw [if_pos hgate, hs1]
  simp only [hm1, if_true]
  rw [if_neg (by decide)]
  unfold programButtons
  rw [hloop, programStepForward_idle _ hfw, programMarker_idle _ hmu hmd]

/-- One pass of `processButtons` in PROGRAM mode when the debounce tick runs,
no select input reports a click or a hold, adjust-down reports a click, and
adjust-up reports neither a click nor a hold: only the adjust-down block acts. -/
theorem processButtons_step_forward_only (s : Device) (millis PINB : Nat)
    (hprog : s.machineState = PROGRAM)
    (hgate : sub16 millis s.debounceEvent > BTN_UPDATE_INTERVAL - 1)
    (hidle : ∀ j, j < 6 → (checkClicked (updateButtons s PINB) (5 - j)).1 = false ∧
      (checkHeld (updateButtons s PINB) j).1 = false)
    (hup : (checkClicked (updateButtons s PINB) BTNUP).1 = false)
    (hdn : (checkClicked (updateButtons s PINB) BTNDN).1 = true)
    (huh : (checkHeld (updateButtons s PINB) BTNUP).1 = false) :
    processButtons s millis PINB
      = programStepForward (updateButtons { s with debounceEvent := millis % 65536 } PINB) ∧
    (checkClicked (updateButtons { s with debounceEvent := millis % 65536 } PINB) BTNDN).1 = true := by
  have hB : (updateButtons { s with debounceEvent := millis % 65536 } PINB).Buttons
      = (updateButtons s PINB).Buttons := rfl
  generalize hs1 : updateButtons { s with debounceEvent := millis % 65536 } PINB = s1 at hB
  have hm1 : s1.machineState = PROGRAM := by rw [← hs1]; exact hprog
  have hloop := programButtonsLoop_idle 6 0 s1
    (fun j _ hj => by
      rw [checkClicked_fst_eq (updateButtons s PINB) s1 (5 - j) (by rw [hB]),
        checkHeld_fst_congr (updateButtons s PINB) s1 j (by rw [hB])]
      exact hidle j (by omega))
  have hup1 : (checkClicked s1 BTNUP).1 = false := by
    rw [checkClicked_fst_eq (updateButtons s PINB) s1 BTNUP (by rw [hB])]
    exact hup
  have hdn1 : (checkClicked s1 BTNDN).1 = true := by
    rw [checkClicked_fst_eq (updateButtons s PINB) s1 BTNDN (by rw [hB])]
    exact hdn
  have hbtn : (programStepForward s1).Buttons = (checkClicked s1 BTNDN).2.Buttons := by
    unfold programStepForward
    simp only [hdn1, if_true]
    rw [nextFrame_Buttons]
    unfold fwdPattern
    split_ifs <;> rfl
  have hmu : (checkHeld (programStepForward s1) BTNUP).1 = false := by
    rw [checkHeld_fst_congr (updateButtons s PINB) _ BTNUP
      (by rw [hbtn, checkClicked_other s1 BTNDN BTNUP (by decide), hB])]
    exact huh
  have hmd : (checkHeld (programStepForward s1) BTNDN).1 = false :=
    clicked_then_not_held s1 _ BTNDN hdn1 (by rw [hbtn])
  refine ⟨?_, hdn1⟩
  unfold processButtons
  rw [if_pos hgate, hs1]
  simp only [hm1, if_true]
  rw [if_neg (by decide)]
  unfold programButtons
  rw [hloop, programStepBack_idle _ hup1, programMarker_idle _ hmu hmd]

/-- C11: in Edit mode, for a pattern in 0..5, a cursor `c` up to the physical
maximum and an output byte `b`: a click on adjust-up stores `b` as the frame
at `c`, moves the cursor to `c - 1` (0 stays 0), loads the frame at the new
cursor into the output byte and emits it; a click on adjust-down stores `b`
at `c`, moves the cursor to `min (c + 1) max` and emits the frame at the new
cursor.  With or without a click both blocks leave the cursor within the
physical maximum.  The same holds for a whole pass of `processButtons` in
PROGRAM mode in which the debounce tick runs and the click on one adjust input
is the only gesture reported. -/
theorem edit_step_stores_and_moves (s : Device) (hp : s.playbackPattern < 6)
    (hc : s.playbackIndex ≤ getPatternMax s.playbackPattern) (hb : s.outByte < 256) :
    ((checkClicked s BTNUP).1 = true →
      getFrame (programStepBack s).eeprom s.playbackPattern s.playbackIndex = s.outByte ∧
      (programStepBack s).eeprom
        = writeFrame s.eeprom s.playbackPattern s.playbackIndex s.outByte ∧
      (programStepBack s).playbackIndex = s.playbackIndex - 1 ∧
      (programStepBack s).playbackPattern = s.playbackPattern ∧
      (programStepBack s).outByte
        = getFrame (programStepBack s).eeprom s.playbackPattern (s.playbackIndex - 1) ∧
      (programStepBack s).channelLog
        = s.channelLog ++
            [getFrame (programStepBack s).eeprom s.playbackPattern (s.playbackIndex - 1)]) ∧
    ((checkClicked s BTNDN).1 = true →
      getFrame (programStepForward s).eeprom s.playbackPattern s.playbackIndex = s.outByte ∧
      (programStepForward s).eeprom
        = writeFrame s.eeprom s.playbackPattern s.playbackIndex s.outByte ∧
      (programStepForward s).playbackIndex
        = min (s.playbackIndex + 1) (getPatternMax s.playbackPattern) ∧
      (programStepForward s).playbackPattern = s.playbackPattern ∧
      (programStepForward s).outByte
        = getFrame (programStepForward s).eeprom s.playbackPattern
            (min (s.playbackIndex + 1) (getPatternMax s.playbackPattern)) ∧
      (programStepForward s).channelLog
        = s.channelLog ++
            [getFrame (programStepForward s).eeprom s.playbackPattern
              (min (s.playbackIndex + 1) (getPatternMax s.playbackPattern))]) ∧
    (programStepBack s).playbackIndex ≤ getPatternMax s.playbackPattern ∧
    (programStepForward s).playbackIndex ≤ getPatternMax s.playbackPattern ∧
    (∀ millis PINB : Nat, s.machineState = PROGRAM →
      sub16 millis s.debounceEvent > BTN_UPDATE_INTERVAL - 1 →
      (∀ j, j < 6 → (checkClicked (updateButtons s PINB) (5 - j)).1 = false ∧
        (checkHeld (updateButtons s PINB) j).1 = false) →
      ((checkClicked (updateButtons s PINB) BTNUP).1 = true →
        (checkClicked (updateButtons s PINB) BTNDN).1 = false →
        (checkHeld (updateButtons s PINB) BTNDN).1 = false →
        (processButtons s millis PINB).eeprom
          = writeFrame s.eeprom s.playbackPattern s.playbackIndex s.outByte ∧
        (processButtons s millis PINB).playbackIndex = s.playbackIndex - 1 ∧
        (processButtons s millis PINB).channelLog
          = s.channelLog ++
              [getFrame (processButtons s millis PINB).eeprom s.playbackPattern
                (s.playbackIndex - 1)]) ∧
      ((checkClicked (updateButtons s PINB) BTNUP).1 = false →
        (checkClicked (updateButtons s PINB) BTNDN).1 = true →
        (checkHeld (updateButtons s PINB) BTNUP).1 = false →
        (processButtons s millis PINB).eeprom
          = writeFrame s.eeprom s.playbackPattern s.playbackIndex s.outByte ∧
        (processButtons s millis PINB).playbackIndex
          = min (s.playbackIndex + 1) (getPatternMax s.playbackPattern) ∧
        (processButtons s millis PINB).channelLog
          = s.channelLog ++
              [getFrame (processButtons s millis PINB).eeprom s.playbackPattern
                (min (s.playbackIndex + 1) (getPatternMax s.playbackPattern))])) := by
  have hmax := getPatternMax_le s.playbackPattern
  have hi : s.playbackIndex < 256 := by omega
  have hrd : getFrame (writeFrame s.eeprom s.playbackPattern s.playbackIndex s.outByte)
      s.playbackPattern s.playbackIndex = s.outByte := by
    rw [getFrame_writeFrame _ _ _ _ _ hp, if_pos rfl]
    exact Nat.mod_eq_of_lt hb
  refine ⟨?_, ?_, ?_, ?_, ?_⟩
  · intro hcl
    obtain ⟨a1, a2, a3, a4, a5, _, _⟩ := programStepBack_clicked s hcl hi
    rw [a1]
    exact ⟨hrd, rfl, a2, a3, a4, a5⟩
  · intro hcl
    obtain ⟨a1, a2, a3, a4, a5, _, _⟩ := programStepForward_clicked s hcl hc
    rw [a1]
    exact ⟨hrd, rfl, a2, a3, a4, a5⟩
  · cases hcl : (checkClicked s BTNUP).1
    · rw [programStepBack_idle s hcl]
      exact hc
    · rw [(programStepBack_clicked s hcl hi).2.1]
      omega
  · cases hcl : (checkClicked s BTNDN).1
    · rw [programStepForward_idle s hcl]
      exact hc
    · rw [(programStepForward_clicked s hcl hc).2.1]
      omega
  · intro millis PINB hprog hgate hidle
    constructor
    · intro hup hdn hdh
      obtain ⟨hpb, hup1⟩ := processButtons_step_back_only s millis PINB hprog hgate hidle hup hdn hdh
      obtain ⟨a1, a2, _, _, a5, _, _⟩ :=
        programStepBack_clicked (updateButtons { s with debounceEvent := millis % 65536 } PINB)
          hup1 hi
      rw [hpb, a1]
      exact ⟨rfl, a2, a5⟩
    · intro hup hdn huh
      obtain ⟨hpb, hdn1⟩ :=
        processButtons_step_forward_only s millis PINB hprog hgate hidle hup hdn huh
      obtain ⟨a1, a2, _, _, a5, _, _⟩ :=
        programStepForward_clicked (updateButtons { s with debounceEvent := millis % 65536 } PINB)
          hdn1 hc
      rw [hpb, a1]
      exact ⟨rfl, a2, a5⟩

/-- Witness of C11: Edit mode on pattern 0 of the factory image, cursor 2,
output byte 0b00000101; a click on adjust-up moves to frame 1, a click on
adjust-down to frame 3. -/
theorem edit_step_stores_and_moves_witness :
    ((editUpClicked).playbackPattern < 6 ∧
      (editUpClicked).playbackIndex ≤ getPatternMax (editUpClicked).playbackPattern ∧
      (editUpClicked).outByte < 256 ∧ (checkClicked editUpClicked BTNUP).1 = true ∧
      (checkClicked editDownClicked BTNDN).1 = true) ∧
    (getFrame (programStepBack editUpClicked).eeprom 0 2 = 0b00000101 ∧
      (programStepBack editUpClicked).playbackIndex = 1) ∧
    (getFrame (programStepForward editDownClicked).eeprom 0 2 = 0b00000101 ∧
      (programStepForward editDownClicked).playbackIndex = 3) :=
  ⟨⟨by decide, by decide, by decide, by decide, by decide⟩,
    ⟨((edit_step_stores_and_moves editUpClicked (by decide) (by decide) (by decide)).1
        (by decide)).1,
      ((edit_step_stores_and_moves editUpClicked (by decide) (by decide) (by decide)).1
        (by decide)).2.2.1⟩,
    ⟨((edit_step_stores_and_moves editDownClicked (by decide) (by decide) (by decide)).2.1
        (by decide)).1,
      ((edit_step_stores_and_moves editDownClicked (by decide) (by decide) (by decide)).2.1
        (by decide)).2.2.1⟩⟩

/-! ## Clicks on the select inputs in Playback mode -/

theorem cyclePlaybackMode_fields (s : Device) :
    (cyclePlaybackMode s).playbackPattern = s.playbackPattern ∧
    (cyclePlaybackMode s).playbackIndex = s.playbackIndex ∧
    (cyclePlaybackMode s).playbackConfig ≤ 2 ∧
    (s.playbackConfig = PLAY_FORWARD → (cyclePlaybackMode s).playbackConfig = PLAY_REVERSE) ∧
    (s.playbackConfig = PLAY_REVERSE → (cyclePlaybackMode s).playbackConfig = PLAY_BOUNCE) ∧
    (s.playbackConfig = PLAY_BOUNCE → (cyclePlaybackMode s).playbackConfig = PLAY_FORWARD) := by
  have hcfg : (cyclePlaybackMode s).playbackConfig
      = if (s.playbackConfig + 1) % 256 > 2 then 0 else (s.playbackConfig + 1) % 256 := rfl
  refine ⟨rfl, rfl, ?_, ?_, ?_, ?_⟩
  · rw [hcfg]
    split_ifs <;> omega
  · intro h
    rw [hcfg, h]
    decide
  · intro h
    rw [hcfg, h]
    decide
  · intro h
    rw [hcfg, h]
    decide

theorem selectOrCycle_same (s : Device) (p : Nat) (h : s.playbackPattern = p) :
    selectOrCycle s p = cyclePlaybackMode s := by
  unfold selectOrCycle
  rw [if_pos h]

theorem selectOrCycle_other (s : Device) (p : Nat) (h : s.playbackPattern ≠ p) :
    selectOrCycle s p = loadPatternConfigs { s with playbackPattern := p, playbackIndex := 0 } p := by
  unfold selectOrCycle
  rw [if_neg h]

/-- The RUN loop when no select input reports a hold and exactly one, that
of pattern `p`, reports a click. -/
theorem runButtonsLoop_click (k : Nat) :
    ∀ (i : Nat) (s : Device) (p : Nat), i ≤ p → p < i + k → p ≤ 5 → i + k ≤ 6 →
      (∀ j, i ≤ j → j < i + k → (checkHeld s (5 - j)).1 = false) →
      (∀ j, i ≤ j → j < i + k → j ≠ p → (checkClicked s (5 - j)).1 = false) →
      (checkClicked s (5 - p)).1 = true →
      runButtonsLoop k i s = selectOrCycle (checkClicked s (5 - p)).2 p := by
  induction k with
  | zero =>
    intro i s p h1 h2
    omega
  | succ k ih =>
    intro i s p h1 h2 h5 h6 hheld hidle hclick
    have hh := hheld i (le_refl i) (by omega)
    have e1 : (checkHeld s (5 - i)).2 = s := (checkHeld_spec s (5 - i)).2.2 hh
    unfold runButtonsLoop
    simp only [hh, e1]
    by_cases hip : i = p
    · subst hip
      simp only [hclick, if_true]
      have hB : ∀ b, b ≠ 5 - i →
          (selectOrCycle (checkClicked s (5 - i)).2 i).Buttons b = s.Buttons b := by
        intro b hb
        rw [(selectOrCycle_frame _ i).2.2]
        exact checkClicked_other s (5 - i) b hb
      exact runButtonsLoop_idle k (i + 1) _ (fun j hj1 hj2 => by
        rw [checkHeld_fst_congr s _ (5 - j) (hB (5 - j) (by omega)),
          checkClicked_fst_eq s _ (5 - j) (hB (5 - j) (by omega))]
        exact ⟨hheld j (by omega) (by omega), hidle j (by omega) (by omega) (by omega)⟩)
    · have hc := hidle i (le_refl i) (by omega) hip
      have e2 : (checkClicked s (5 - i)).2 = s := (checkClicked_spec s (5 - i)).2.2 hc
      simp only [hc, e2]
      exact ih (i + 1) s p (by omega) (by omega) h5 (by omega)
        (fun j hj1 hj2 => hheld j (by omega) (by omega))
        (fun j hj1 hj2 hjp => hidle j (by omega) (by omega) hjp) hclick

/-- One pass of `processButtons` in RUN mode when the debounce tick runs and
the click on the select input of pattern `p` is the only gesture reported. -/
theorem processButtons_select_only (s : Device) (millis PINB p : Nat) (hp : p < 6)
    (hrun : s.machineState = RUN)
    (hgate : sub16 millis s.debounceEvent > BTN_UPDATE_INTERVAL - 1)
    (hheld : ∀ j, j < 6 → (checkHeld (updateButtons s PINB) (5 - j)).1 = false)
    (hidle : ∀ j, j < 6 → j ≠ p → (checkClicked (updateButtons s PINB) (5 - j)).1 = false)
    (hclick : (checkClicked (updateButtons s PINB) (5 - p)).1 = true)
    (hup : (checkClicked (updateButtons s PINB) BTNUP).1 = false)
    (hdn : (checkClicked (updateButtons s PINB) BTNDN).1 = false) :
    processButtons s millis PINB
      = selectOrCycle
          (checkClicked (updateButtons { s with debounceEvent := millis % 65536 } PINB) (5 - p)).2
          p := by
  have hB : (updateButtons { s with debounceEvent := millis % 65536 } PINB).Buttons
      = (updateButtons s PINB).Buttons := rfl
  generalize hs1 : updateButtons { s with debounceEvent := millis % 65536 } PINB = s1 at hB
  have hm1 : s1.machineState = RUN := by rw [← hs1]; exact hrun
  have hloop := runButtonsLoop_click 6 0 s1 p (Nat.zero_le p) (by omega) (by omega) (by omega)
    (fun j _ hj => by
      rw [checkHeld_fst_congr (updateButtons s PINB) s1 (5 - j) (by rw [hB])]
      exact hheld j (by omega))
    (fun j _ hj hjp => by
      rw [checkClicked_fst_eq (updateButtons s PINB) s1 (5 - j) (by rw [hB])]
      exact hidle j (by omega) hjp)
    (by
      rw [checkClicked_fst_eq (updateButtons s PINB) s1 (5 - p) (by rw [hB])]
      exact hclick)
  have hBu : ∀ b, b ≠ 5 - p →
      (selectOrCycle (checkClicked s1 (5 - p)).2 p).Buttons b = (updateButtons s PINB).Buttons b := by
    intro b hb
    rw [(selectOrCycle_frame _ p).2.2, checkClicked_other s1 (5 - p) b hb, hB]
  have hup1 : (checkClicked (selectOrCycle (checkClicked s1 (5 - p)).2 p) BTNUP).1 = false := by
    rw [checkClicked_fst_eq (updateButtons s PINB) _ BTNUP (hBu BTNUP (by show (6 : Nat) ≠ 5 - p; omega))]
    exact hup
  have hdn1 : (checkClicked (selectOrCycle (checkClicked s1 (5 - p)).2 p) BTNDN).1 = false := by
    rw [checkClicked_fst_eq (updateButtons s PINB) _ BTNDN (hBu BTNDN (by show (7 : Nat) ≠ 5 - p; omega))]
    exact hdn
  unfold processButtons
  rw [if_pos hgate, hs1]
  simp only [hm1, if_true]
  unfold runButtons
  rw [hloop, runAdjustUp_idle _ hup1, runAdjustDown_idle _ hdn1]

theorem selectOrCycle_congr (s t : Device) (p : Nat)
    (h1 : t.playbackPattern = s.playbackPattern) (h2 : t.playbackConfig = s.playbackConfig)
    (h3 : t.eeprom = s.eeprom) (h4 : t.playbackIndex = s.playbackIndex)
    (h5 : t.playbackDelay = s.playbackDelay) (h6 : t.playbackMarkerPos = s.playbackMarkerPos) :
    (selectOrCycle t p).playbackPattern = (selectOrCycle s p).playbackPattern ∧
    (selectOrCycle t p).playbackIndex = (selectOrCycle s p).playbackIndex ∧
    (selectOrCycle t p).playbackConfig = (selectOrCycle s p).playbackConfig ∧
    (selectOrCycle t p).playbackDelay = (selectOrCycle s p).playbackDelay ∧
    (selectOrCycle t p).playbackMarkerPos = (selectOrCycle s p).playbackMarkerPos := by
  by_cases hp : s.playbackPattern = p
  · rw [selectOrCycle_same s p hp, selectOrCycle_same t p (h1.trans hp)]
    refine ⟨h1, h4, ?_, h5, h6⟩
    show (if (t.playbackConfig + 1) % 256 > 2 then 0 else (t.playbackConfig + 1) % 256)
      = if (s.playbackConfig + 1) % 256 > 2 then 0 else (s.playbackConfig + 1) % 256
    rw [h2]
  · rw [selectOrCycle_other s p hp, selectOrCycle_other t p (by rw [h1]; exact hp)]
    refine ⟨rfl, rfl, ?_, ?_, ?_⟩
    · show (eeprom_read_word t.eeprom p >>> 12) % 256 = (eeprom_read_word s.eeprom p >>> 12) % 256
      rw [h3]
    · show eeprom_read_word t.eeprom p &&& 0x0FFF = eeprom_read_word s.eeprom p &&& 0x0FFF
      rw [h3]
    · show markerScan t.eeprom p (getPatternMax p) (getPatternMax p) 0
        = markerScan s.eeprom p (getPatternMax p) (getPatternMax p) 0
      rw [h3]

/-- C12: in Playback mode, a click on the select input of the current
pattern advances the style one step in the cycle Forward, Reverse, Bounce,
Forward (the result is always one of the three, and three clicks return to a
style of the cycle) and changes neither the pattern nor the cursor; a click
on the select input of another pattern `p` selects `p`, resets the cursor to
0 and loads the delay, the style and the marker position of `p` from the
EEPROM.  The same holds for a whole pass of `processButtons` in RUN mode in
which the debounce tick runs and that click is the only gesture reported. -/
theorem select_click_cycles_or_switches (s : Device) (p : Nat) (hp : p < 6) :
    (s.playbackPattern = p →
      (selectOrCycle s p).playbackPattern = s.playbackPattern ∧
      (selectOrCycle s p).playbackIndex = s.playbackIndex ∧
      (selectOrCycle s p).playbackConfig ≤ 2 ∧
      (s.playbackConfig = PLAY_FORWARD → (selectOrCycle s p).playbackConfig = PLAY_REVERSE) ∧
      (s.playbackConfig = PLAY_REVERSE → (selectOrCycle s p).playbackConfig = PLAY_BOUNCE) ∧
      (s.playbackConfig = PLAY_BOUNCE → (selectOrCycle s p).playbackConfig = PLAY_FORWARD) ∧
      (s.playbackConfig ≤ 2 →
        (selectOrCycle (selectOrCycle (selectOrCycle s p) p) p).playbackConfig
          = s.playbackConfig)) ∧
    (s.playbackPattern ≠ p →
      (selectOrCycle s p).playbackPattern = p ∧
      (selectOrCycle s p).playbackIndex = 0 ∧
      (selectOrCycle s p).playbackDelay = eeprom_read_word s.eeprom p &&& 0x0FFF ∧
      (selectOrCycle s p).playbackConfig = (eeprom_read_word s.eeprom p >>> 12) % 256 ∧
      (selectOrCycle s p).playbackMarkerPos
        = (loadPatternConfigs { s with playbackPattern := p } p).playbackMarkerPos ∧
      (selectOrCycle s p).eeprom = s.eeprom) ∧
    (∀ millis PINB : Nat, s.machineState = RUN →
      sub16 millis s.debounceEvent > BTN_UPDATE_INTERVAL - 1 →
      (∀ j, j < 6 → (checkHeld (updateButtons s PINB) (5 - j)).1 = false) →
      (∀ j, j < 6 → j ≠ p → (checkClicked (updateButtons s PINB) (5 - j)).1 = false) →
      (checkClicked (updateButtons s PINB) (5 - p)).1 = true →
      (checkClicked (updateButtons s PINB) BTNUP).1 = false →
      (checkClicked (updateButtons s PINB) BTNDN).1 = false →
      (processButtons s millis PINB).playbackPattern = (selectOrCycle s p).playbackPattern ∧
      (processButtons s millis PINB).playbackIndex = (selectOrCycle s p).playbackIndex ∧
      (processButtons s millis PINB).playbackConfig = (selectOrCycle s p).playbackConfig ∧
      (processButtons s millis PINB).playbackDelay = (selectOrCycle s p).playbackDelay ∧
      (processButtons s millis PINB).playbackMarkerPos
        = (selectOrCycle s p).playbackMarkerPos) := by
  refine ⟨?_, ?_, ?_⟩
  · intro hsame
    obtain ⟨c1, c2, c3, c4, c5, c6⟩ := cyclePlaybackMode_fields s
    rw [selectOrCycle_same s p hsame]
    refine ⟨c1, c2, c3, c4, c5, c6, ?_⟩
    intro hle
    have hp1 : (cyclePlaybackMode s).playbackPattern = p := c1.trans hsame
    obtain ⟨d1, _, _, d4, d5, d6⟩ := cyclePlaybackMode_fields (cyclePlaybackMode s)
    have hp2 : (cyclePlaybackMode (cyclePlaybackMode s)).playbackPattern = p := d1.trans hp1
    obtain ⟨_, _, _, e4, e5, e6⟩ := cyclePlaybackMode_fields (cyclePlaybackMode (cyclePlaybackMode s))
    rw [selectOrCycle_same _ p hp1, selectOrCycle_same _ p hp2]
    have h3 : s.playbackConfig = PLAY_FORWARD ∨ s.playbackConfig = PLAY_REVERSE ∨
        s.playbackConfig = PLAY_BOUNCE := by
      show s.playbackConfig = 0 ∨ s.playbackConfig = 1 ∨ s.playbackConfig = 2
      omega
    rcases h3 with h | h | h
    · rw [e6 (d5 (c4 h)), h]
    · rw [e4 (d6 (c5 h)), h]
    · rw [e5 (d4 (c6 h)), h]
  · intro hne
    rw [selectOrCycle_other s p hne]
    exact ⟨rfl, rfl, rfl, rfl, rfl, rfl⟩
  · intro millis PINB hrun hgate hheld hidle hclick hup hdn
    rw [processButtons_select_only s millis PINB p hp hrun hgate hheld hidle hclick hup hdn]
    have hs := checkClicked_only_buttons
      (updateButtons { s with debounceEvent := millis % 65536 } PINB) (5 - p)
    exact selectOrCycle_congr s _ p (by rw [hs]; rfl) (by rw [hs]; rfl) (by rw [hs]; rfl)
      (by rw [hs]; rfl) (by rw [hs]; rfl) (by rw [hs]; rfl)

/-- Witness of C12: pattern 0 selected in Forward style with a click pending
on its select input (input 5); the click gives Reverse and keeps pattern and
cursor, and a click for pattern 2 selects pattern 2 with cursor 0. -/
theorem select_click_cycles_or_switches_witness :
    (0 < 6 ∧ 2 < 6 ∧ (sameSelectClicked).playbackPattern = 0 ∧
      (sameSelectClicked).playbackConfig = PLAY_FORWARD ∧
      (sameSelectClicked).playbackPattern ≠ 2) ∧
    ((selectOrCycle sameSelectClicked 0).playbackConfig = PLAY_REVERSE ∧
      (selectOrCycle sameSelectClicked 0).playbackPattern = (sameSelectClicked).playbackPattern ∧
      (selectOrCycle sameSelectClicked 0).playbackIndex = (sameSelectClicked).playbackIndex) ∧
    ((selectOrCycle sameSelectClicked 2).playbackPattern = 2 ∧
      (selectOrCycle sameSelectClicked 2).playbackIndex = 0) :=
  ⟨⟨by decide, by decide, by decide, by decide, by decide⟩,
    ⟨((select_click_cycles_or_switches sameSelectClicked 0 (by decide)).1 (by decide)).2.2.2.1
        (by decide),
      ((select_click_cycles_or_switches sameSelectClicked 0 (by decide)).1 (by decide)).1,
      ((select_click_cycles_or_switches sameSelectClicked 0 (by decide)).1 (by decide)).2.1⟩,
    ⟨((select_click_cycles_or_switches sameSelectClicked 2 (by decide)).2.1 (by decide)).1,
      ((select_click_cycles_or_switches sameSelectClicked 2 (by decide)).2.1 (by decide)).2.1⟩⟩

/-! ## What `updateButtons` does to the status flags -/

/-- The new history and the new status flags of a channel after one sample,
branch by branch of the `switch` of `updateButtons`. -/
theorem updateButton_flags_cases (b : button) (a : Bool) :
    ((updateButton b a).edgeDetect = EDGE_RISE ∧
      (updateButton b a).statusFlags
        = (b.statusFlags ||| STATUS_PRESSED) &&& (255 ^^^ (STATUS_RELEASED ||| STATUS_HELD))) ∨
    ((updateButton b a).edgeDetect ≠ EDGE_RISE ∧
      ((updateButton b a).statusFlags = b.statusFlags ||| STATUS_RELEASED ∨
        (updateButton b a).statusFlags
          = (b.statusFlags ||| STATUS_ACTIVE) &&& (255 ^^^ STATUS_INACTIVE) ∨
        (updateButton b a).statusFlags
          = ((b.statusFlags ||| STATUS_ACTIVE) &&& (255 ^^^ STATUS_INACTIVE)) ||| STATUS_HELD ∨
        (updateButton b a).statusFlags
          = (b.statusFlags ||| STATUS_INACTIVE) &&& (255 ^^^ STATUS_ACTIVE) ∨
        (updateButton b a).statusFlags = b.statusFlags)) := by
  unfold updateButton
  simp only
  generalize (if a = true then b.edgeDetect <<< 1 % 256 ||| 1 else b.edgeDetect <<< 1 % 256) = e
  by_cases h1 : e = EDGE_RISE
  · rw [if_pos h1]
    exact Or.inl ⟨h1, rfl⟩
  · rw [if_neg h1]
    right
    by_cases h2 : e = EDGE_FALL
    · rw [if_pos h2]
      exact ⟨h1, Or.inl rfl⟩
    · rw [if_neg h2]
      by_cases h3 : e = STABLE_POS
      · rw [if_pos h3]
        by_cases h4 : b.statusFlags &&& STATUS_PRESSED ≠ 0
        · rw [if_pos h4]
          by_cases h5 : (b.pressTimer + BTN_UPDATE_INTERVAL) % 65536 > BTN_HOLD_DELAY
          · refine ⟨h1, Or.inr (Or.inr (Or.inl ?_))⟩
            show (if (b.pressTimer + BTN_UPDATE_INTERVAL) % 65536 > BTN_HOLD_DELAY then _ else _) = _
            rw [if_pos h5]
          · refine ⟨h1, Or.inr (Or.inl ?_)⟩
            show (if (b.pressTimer + BTN_UPDATE_INTERVAL) % 65536 > BTN_HOLD_DELAY then _ else _) = _
            rw [if_neg h5]
        · rw [if_neg h4]
          exact ⟨h1, Or.inr (Or.inr (Or.inr (Or.inr rfl)))⟩
      · rw [if_neg h3]
        by_cases h6 : e = STABLE_NEG
        · rw [if_pos h6]
          exact ⟨h1, Or.inr (Or.inr (Or.inr (Or.inl rfl)))⟩
        · rw [if_neg h6]
          exact ⟨h1, Or.inr (Or.inr (Or.inr (Or.inr rfl)))⟩

theorem flag_ne_zero_iff (f k : Nat) : f &&& 2 ^ k ≠ 0 ↔ f.testBit k = true :=
  and_two_pow_ne_zero f k

theorem pressed_kept (f : Nat) (h : f &&& STATUS_PRESSED ≠ 0) :
    ((f ||| STATUS_PRESSED) &&& (255 ^^^ (STATUS_RELEASED ||| STATUS_HELD))) &&& STATUS_PRESSED ≠ 0 ∧
    (f ||| STATUS_RELEASED) &&& STATUS_PRESSED ≠ 0 ∧
    ((f ||| STATUS_ACTIVE) &&& (255 ^^^ STATUS_INACTIVE)) &&& STATUS_PRESSED ≠ 0 ∧
    (((f ||| STATUS_ACTIVE) &&& (255 ^^^ STATUS_INACTIVE)) ||| STATUS_HELD) &&& STATUS_PRESSED ≠ 0 ∧
    ((f ||| STATUS_INACTIVE) &&& (255 ^^^ STATUS_ACTIVE)) &&& STATUS_PRESSED ≠ 0 := by
  have h0 : f.testBit 0 = true := (flag_ne_zero_iff f 0).1 h
  have m1 : Nat.testBit (255 ^^^ (STATUS_RELEASED ||| STATUS_HELD)) 0 = true := by decide
  have m2 : Nat.testBit (255 ^^^ STATUS_INACTIVE) 0 = true := by decide
  have m3 : Nat.testBit (255 ^^^ STATUS_ACTIVE) 0 = true := by decide
  refine ⟨?_, ?_, ?_, ?_, ?_⟩
  · exact (flag_ne_zero_iff _ 0).2 (by simp only [Nat.testBit_and, Nat.testBit_or, h0, m1]; rfl)
  · exact (flag_ne_zero_iff _ 0).2 (by simp only [Nat.testBit_or, h0]; rfl)
  · exact (flag_ne_zero_iff _ 0).2 (by simp only [Nat.testBit_and, Nat.testBit_or, h0, m2]; rfl)
  · exact (flag_ne_zero_iff _ 0).2 (by simp only [Nat.testBit_and, Nat.testBit_or, h0, m2]; rfl)
  · exact (flag_ne_zero_iff _ 0).2 (by simp only [Nat.testBit_and, Nat.testBit_or, h0, m3]; rfl)

theorem released_kept (f : Nat) (h : f &&& STATUS_RELEASED ≠ 0) :
    (f ||| STATUS_RELEASED) &&& STATUS_RELEASED ≠ 0 ∧
    ((f ||| STATUS_ACTIVE) &&& (255 ^^^ STATUS_INACTIVE)) &&& STATUS_RELEASED ≠ 0 ∧
    (((f ||| STATUS_ACTIVE) &&& (255 ^^^ STATUS_INACTIVE)) ||| STATUS_HELD) &&& STATUS_RELEASED ≠ 0 ∧
    ((f ||| STATUS_INACTIVE) &&& (255 ^^^ STATUS_ACTIVE)) &&& STATUS_RELEASED ≠ 0 := by
  have h0 : f.testBit 1 = true := (flag_ne_zero_iff f 1).1 h
  have m2 : Nat.testBit (255 ^^^ STATUS_INACTIVE) 1 = true := by decide
  have m3 : Nat.testBit (255 ^^^ STATUS_ACTIVE) 1 = true := by decide
  refine ⟨?_, ?_, ?_, ?_⟩
  · exact (flag_ne_zero_iff _ 1).2 (by simp only [Nat.testBit_or, h0]; rfl)
  · exact (flag_ne_zero_iff _ 1).2 (by simp only [Nat.testBit_and, Nat.testBit_or, h0, m2]; rfl)
  · exact (flag_ne_zero_iff _ 1).2 (by simp only [Nat.testBit_and, Nat.testBit_or, h0, m2]; rfl)
  · exact (flag_ne_zero_iff _ 1).2 (by simp only [Nat.testBit_and, Nat.testBit_or, h0, m3]; rfl)

theorem rise_flags (f : Nat) :
    ((f ||| STATUS_PRESSED) &&& (255 ^^^ (STATUS_RELEASED ||| STATUS_HELD))) &&& STATUS_PRESSED ≠ 0 ∧
    ((f ||| STATUS_PRESSED) &&& (255 ^^^ (STATUS_RELEASED ||| STATUS_HELD))) &&& STATUS_RELEASED = 0 ∧
    ((f ||| STATUS_PRESSED) &&& (255 ^^^ (STATUS_RELEASED ||| STATUS_HELD))) &&& STATUS_HELD = 0 := by
  have m1 : Nat.testBit (255 ^^^ (STATUS_RELEASED ||| STATUS_HELD)) 0 = true := by decide
  have p1 : Nat.testBit STATUS_PRESSED 0 = true := by decide
  refine ⟨?_, and_and_lit _ _ _ (by decide), and_and_lit _ _ _ (by decide)⟩
  exact (flag_ne_zero_iff _ 0).2 (by
    simp only [Nat.testBit_and, Nat.testBit_or, m1, p1, Bool.or_true, Bool.and_true])

/-- C17, as the code has it: for every channel and every raw input sample,
`updateButtons` never clears the Pressed flag, and it keeps the Released flag
on every sample except the one at which the history becomes the rising-edge
pattern; on that sample it sets Pressed and clears Released and Held. -/
theorem updateButtons_pressed_released (s : Device) (PINB i : Nat) (hi : i < 8) :
    ((s.Buttons i).statusFlags &&& STATUS_PRESSED ≠ 0 →
      ((updateButtons s PINB).Buttons i).statusFlags &&& STATUS_PRESSED ≠ 0) ∧
    ((s.Buttons i).statusFlags &&& STATUS_RELEASED ≠ 0 →
      ((updateButtons s PINB).Buttons i).edgeDetect ≠ EDGE_RISE →
      ((updateButtons s PINB).Buttons i).statusFlags &&& STATUS_RELEASED ≠ 0) ∧
    (((updateButtons s PINB).Buttons i).edgeDetect = EDGE_RISE →
      ((updateButtons s PINB).Buttons i).statusFlags &&& STATUS_PRESSED ≠ 0 ∧
      ((updateButtons s PINB).Buttons i).statusFlags &&& STATUS_RELEASED = 0 ∧
      ((updateButtons s PINB).Buttons i).statusFlags &&& STATUS_HELD = 0) := by
  rw [updateButtons_channel s PINB i hi]
  have hcases := updateButton_flags_cases (s.Buttons i) (isPressed PINB i)
  obtain ⟨r1, r2, r3⟩ := rise_flags (s.Buttons i).statusFlags
  refine ⟨?_, ?_, ?_⟩
  · intro hp
    obtain ⟨p1, p2, p3, p4, p5⟩ := pressed_kept (s.Buttons i).statusFlags hp
    rcases hcases with ⟨_, hf⟩ | ⟨_, hf | hf | hf | hf | hf⟩ <;> rw [hf]
    · exact p1
    · exact p2
    · exact p3
    · exact p4
    · exact p5
    · exact hp
  · intro hr hne
    obtain ⟨q1, q2, q3, q4⟩ := released_kept (s.Buttons i).statusFlags hr
    rcases hcases with ⟨he, _⟩ | ⟨_, hf | hf | hf | hf | hf⟩
    · exact absurd he hne
    · rw [hf]; exact q1
    · rw [hf]; exact q2
    · rw [hf]; exact q3
    · rw [hf]; exact q4
    · rw [hf]; exact hr
  · intro he
    rcases hcases with ⟨_, hf⟩ | ⟨hne, _⟩
    · rw [hf]
      exact ⟨r1, r2, r3⟩
    · exact absurd he hne

/-- Witness of C17 as amended, on channel 0 at three states where the flags
are set.  A press of 8 ticks (Pressed set) followed by a released sample, the
falling edge: Pressed is still set.  A channel with Released set and 6
pressed samples in its history followed by a released sample, which is not the
rising edge: Released is still set.  The same channel followed by a 7th
pressed sample, the rising edge: Pressed is set, Released and Held are
clear. -/
theorem updateButtons_pressed_released_witness :
    (0 < 8 ∧
      ((steadyPress).Buttons 0).statusFlags &&& STATUS_PRESSED ≠ 0 ∧
      ((newPressAfterHold).Buttons 0).statusFlags &&& STATUS_RELEASED ≠ 0 ∧
      ((updateButtons newPressAfterHold 255).Buttons 0).edgeDetect ≠ EDGE_RISE ∧
      ((updateButtons newPressAfterHold 0).Buttons 0).edgeDetect = EDGE_RISE) ∧
    ((updateButtons steadyPress 255).Buttons 0).statusFlags &&& STATUS_PRESSED ≠ 0 ∧
    ((updateButtons newPressAfterHold 255).Buttons 0).statusFlags &&& STATUS_RELEASED ≠ 0 ∧
    (((updateButtons newPressAfterHold 0).Buttons 0).statusFlags &&& STATUS_PRESSED ≠ 0 ∧
      ((updateButtons newPressAfterHold 0).Buttons 0).statusFlags &&& STATUS_RELEASED = 0 ∧
      ((updateButtons newPressAfterHold 0).Buttons 0).statusFlags &&& STATUS_HELD = 0) :=
  ⟨⟨by decide, by decide, by decide, by decide, by decide⟩,
    (updateButtons_pressed_released steadyPress 255 0 (by decide)).1 (by decide),
    (updateButtons_pressed_released newPressAfterHold 255 0 (by decide)).2.1 (by decide)
      (by decide),
    (updateButtons_pressed_released newPressAfterHold 0 0 (by decide)).2.2 (by decide)⟩

/-- Counterexample to C17 as stated: channel 0 has Released set (left by the
release of an earlier press) and 6 pressed samples in its history; the 7th
pressed sample is the rising edge, and `updateButtons` itself clears
Released there. -/
theorem updateButtons_clears_released_at_rise :
    ((newPressAfterHold).Buttons 0).statusFlags &&& STATUS_RELEASED ≠ 0 ∧
    ((updateButtons newPressAfterHold 0).Buttons 0).edgeDetect = EDGE_RISE ∧
    ((updateButtons newPressAfterHold 0).Buttons 0).statusFlags &&& STATUS_RELEASED = 0 ∧
    ¬ (∀ (s : Device) (PINB i : Nat), i < 8 →
        (s.Buttons i).statusFlags &&& STATUS_RELEASED ≠ 0 →
        ((updateButtons s PINB).Buttons i).statusFlags &&& STATUS_RELEASED ≠ 0) := by
  have h1 : ((newPressAfterHold).Buttons 0).statusFlags &&& STATUS_RELEASED ≠ 0 := by decide
  have h3 : ((updateButtons newPressAfterHold 0).Buttons 0).statusFlags &&& STATUS_RELEASED = 0 := by
    decide
  refine ⟨h1, by decide, h3, ?_⟩
  intro hall
  exact hall newPressAfterHold 0 0 (by decide) h1 h3

/-! ## Active and Inactive -/

theorem and_mask_zero (f m k : Nat) (h : f &&& k = 0) : (f &&& m) &&& k = 0 := by
  rw [Nat.and_assoc, Nat.and_comm m k, ← Nat.and_assoc, h, Nat.zero_and]

theorem or_lit_zero (f a k : Nat) (ha : a &&& k = 0) (h : f &&& k = 0) : (f ||| a) &&& k = 0 := by
  rw [Nat.and_distrib_right, h, ha]
  rfl

theorem exclusive_and_mask (f m : Nat)
    (h : f &&& STATUS_ACTIVE = 0 ∨ f &&& STATUS_INACTIVE = 0) :
    (f &&& m) &&& STATUS_ACTIVE = 0 ∨ (f &&& m) &&& STATUS_INACTIVE = 0 := by
  rcases h with h | h
  · exact Or.inl (and_mask_zero f m _ h)
  · exact Or.inr (and_mask_zero f m _ h)

theorem exclusive_or_lit (f a : Nat) (h4 : a &&& STATUS_ACTIVE = 0) (h8 : a &&& STATUS_INACTIVE = 0)
    (h : f &&& STATUS_ACTIVE = 0 ∨ f &&& STATUS_INACTIVE = 0) :
    (f ||| a) &&& STATUS_ACTIVE = 0 ∨ (f ||| a) &&& STATUS_INACTIVE = 0 := by
  rcases h with h | h
  · exact Or.inl (or_lit_zero f a _ h4 h)
  · exact Or.inr (or_lit_zero f a _ h8 h)

theorem updateButton_exclusive (b : button) (a : Bool)
    (h : b.statusFlags &&& STATUS_ACTIVE = 0 ∨ b.statusFlags &&& STATUS_INACTIVE = 0) :
    (updateButton b a).statusFlags &&& STATUS_ACTIVE = 0 ∨
    (updateButton b a).statusFlags &&& STATUS_INACTIVE = 0 := by
  rcases updateButton_flags_cases b a with ⟨_, hf⟩ | ⟨_, hf | hf | hf | hf | hf⟩ <;> rw [hf]
  · exact exclusive_and_mask _ _ (exclusive_or_lit _ _ (by decide) (by decide) h)
  · exact exclusive_or_lit _ _ (by decide) (by decide) h
  · exact Or.inr (and_and_lit _ _ _ (by decide))
  · exact Or.inr (or_lit_zero _ _ _ (by decide) (and_and_lit _ _ _ (by decide)))
  · exact Or.inl (and_and_lit _ _ _ (by decide))
  · exact h

theorem applyOp_exclusive (s : Device) (op : ButtonOp)
    (h : ∀ i, (s.Buttons i).statusFlags &&& STATUS_ACTIVE = 0 ∨
      (s.Buttons i).statusFlags &&& STATUS_INACTIVE = 0) :
    ∀ i, ((applyOp s op).Buttons i).statusFlags &&& STATUS_ACTIVE = 0 ∨
      ((applyOp s op).Buttons i).statusFlags &&& STATUS_INACTIVE = 0 := by
  intro i
  cases op with
  | sample PINB =>
    have hb : (applyOp s (ButtonOp.sample PINB)).Buttons i
        = if 0 ≤ i ∧ i < 0 + 8 then
            updateButton (s.Buttons i) (decide ((255 - PINB % 256) &&& (1 <<< i) ≠ 0))
          else s.Buttons i := updateButtonsLoop_get _ 8 0 s.Buttons i
    rw [hb]
    split_ifs
    · exact updateButton_exclusive _ _ (h i)
    · exact h i
  | held id =>
    have hb : (applyOp s (ButtonOp.held id)).Buttons i = (checkHeld s id).2.Buttons i := rfl
    rw [hb]
    unfold checkHeld
    split_ifs
    · by_cases hid : i = id
      · subst hid
        simp only [setFlags, setAt, if_true]
        exact exclusive_and_mask _ _ (h i)
      · simp only [setFlags, setAt, if_neg hid]
        exact h i
    · exact h i
  | clicked id =>
    have hb : (applyOp s (ButtonOp.clicked id)).Buttons i = (checkClicked s id).2.Buttons i := rfl
    rw [hb]
    unfold checkClicked
    split_ifs
    · by_cases hid : i = id
      · subst hid
        simp only [setFlags, setAt, if_true]
        exact exclusive_and_mask _ _ (h i)
      · simp only [setFlags, setAt, if_neg hid]
        exact h i
    · exact h i
  | clear flags =>
    have hb : (applyOp s (ButtonOp.clear flags)).Buttons i
        = if 0 ≤ i ∧ i < 0 + 8 then
            { s.Buttons i with statusFlags := (s.Buttons i).statusFlags &&& (255 ^^^ flags) }
          else s.Buttons i := clearButtonFlagsLoop_get flags 8 0 s.Buttons i
    rw [hb]
    split_ifs
    · exact exclusive_and_mask _ _ (h i)
    · exact h i

theorem runOps_exclusive (ops : List ButtonOp) :
    ∀ s : Device,
      (∀ i, (s.Buttons i).statusFlags &&& STATUS_ACTIVE = 0 ∨
        (s.Buttons i).statusFlags &&& STATUS_INACTIVE = 0) →
      ∀ i, ((runOps s ops).Buttons i).statusFlags &&& STATUS_ACTIVE = 0 ∨
        ((runOps s ops).Buttons i).statusFlags &&& STATUS_INACTIVE = 0 := by
  induction ops with
  | nil =>
    intro s h
    exact h
  | cons op ops ih =>
    intro s h
    exact ih (applyOp s op) (applyOp_exclusive s op h)

/-- C16: for every channel, in every state reached from the zeroed startup
state by any sequence of `updateButtons` samples and `checkHeld`,
`checkClicked` and `clearButtonFlags` calls, the Active and the Inactive flag
are not both set. -/
theorem active_inactive_exclusive (s : Device) (ops : List ButtonOp) (i : Nat)
    (hz : ∀ j, s.Buttons j = zeroButton) :
    ¬ (((runOps s ops).Buttons i).statusFlags &&& STATUS_ACTIVE ≠ 0 ∧
      ((runOps s ops).Buttons i).statusFlags &&& STATUS_INACTIVE ≠ 0) := by
  have h0 : ∀ j, (s.Buttons j).statusFlags &&& STATUS_ACTIVE = 0 ∨
      (s.Buttons j).statusFlags &&& STATUS_INACTIVE = 0 := by
    intro j
    rw [hz j]
    exact Or.inl (by decide)
  rcases runOps_exclusive ops s h0 i with h | h
  · exact fun hc => hc.1 h
  · exact fun hc => hc.2 h

/-- Witness of C16: after reset, a sample with every input low, the two polls
of channel 0 and a `clearButtonFlags` call. -/
theorem active_inactive_exclusive_witness :
    (∀ j, (resetState factoryEEPROM).Buttons j = zeroButton) ∧
    ¬ (((runOps (resetState factoryEEPROM)
          [ButtonOp.sample 0, ButtonOp.held 0, ButtonOp.clicked 0,
            ButtonOp.clear GESTURE_FLAGS]).Buttons 0).statusFlags &&& STATUS_ACTIVE ≠ 0 ∧
      ((runOps (resetState factoryEEPROM)
          [ButtonOp.sample 0, ButtonOp.held 0, ButtonOp.clicked 0,
            ButtonOp.clear GESTURE_FLAGS]).Buttons 0).statusFlags &&& STATUS_INACTIVE ≠ 0) :=
  ⟨fun _ => rfl,
    active_inactive_exclusive (resetState factoryEEPROM)
      [ButtonOp.sample 0, ButtonOp.held 0, ButtonOp.clicked 0, ButtonOp.clear GESTURE_FLAGS] 0
      (fun _ => rfl)⟩

/-! ## The cursor after leaving Edit mode -/

/-- C14 fails on the code at the Edit to Playback transition.  After startup
on the factory image: a hold on the select input of pattern 3 enters Edit
mode (cursor 0, marker position 1); two clicks on adjust-down step the cursor
to frame 2; a hold on a select input leaves Edit mode.  The device is then in
RUN mode with the cursor at 2 while the marker position is 1: nothing on that
path resets or clamps the cursor, unlike the entry to Edit mode and the
pattern switch, which set it to 0. -/
theorem edit_exit_leaves_cursor_past_marker :
    (tour0).machineState = RUN ∧
    ((tour1).machineState = PROGRAM ∧ (tour1).playbackPattern = 3 ∧
      (tour1).playbackIndex = 0 ∧ (tour1).playbackMarkerPos = 1) ∧
    (tour2).playbackIndex = 1 ∧
    ((tour3).machineState = PROGRAM ∧ (tour3).playbackIndex = 2) ∧
    ((tour4).machineState = RUN ∧ (tour4).playbackPattern = 3 ∧
      (tour4).playbackIndex = 2 ∧ (tour4).playbackMarkerPos = 1 ∧
      (loadPatternConfigs tour4 3).playbackMarkerPos = 1) ∧
    ¬ ((tour4).playbackIndex ≤ (tour4).playbackMarkerPos) := by
  refine ⟨?_, ⟨?_, ?_, ?_, ?_⟩, ?_, ⟨?_, ?_⟩, ⟨?_, ?_, ?_, ?_, ?_⟩, ?_⟩ <;> decide

/-! ## The status indicator -/

theorem setStatusLED_blink (s : Device) (st : Nat) (h1 : st ≠ ON) (h0 : st ≠ OFF) :
    (setStatusLED s st).statusBlinkDelay = st ∧ (setStatusLED s st).PORTD = s.PORTD := by
  unfold setStatusLED
  rw [if_neg h1, if_neg h0]
  exact ⟨rfl, rfl⟩

theorem led_bit_set (P : Nat) : (P ||| (1 <<< STATUSLED)) &&& (1 <<< STATUSLED) ≠ 0 := by
  have h64 : (1 <<< STATUSLED) = 2 ^ 6 := by decide
  rw [h64]
  exact (and_two_pow_ne_zero _ 6).2 (by
    rw [Nat.testBit_or, Nat.testBit_two_pow_self]
    exact Bool.or_true _)

theorem led_bit_channels (P b : Nat) :
    ((P &&& 0b11000011) ||| (b &&& 0b00111100)) &&& (1 <<< STATUSLED) = P &&& (1 <<< STATUSLED) := by
  have e1 : (0b11000011 : Nat) &&& (1 <<< STATUSLED) = (1 <<< STATUSLED) := by decide
  have e2 : (0b00111100 : Nat) &&& (1 <<< STATUSLED) = 0 := by decide
  rw [Nat.and_distrib_right, Nat.and_assoc, Nat.and_assoc, e1, e2, Nat.and_zero, Nat.or_zero]

theorem nextFrame_eq (s : Device) :
    nextFrame s
      = if getFrame s.eeprom s.playbackPattern s.playbackIndex &&& 0b10000000 ≠ 0 then
          setStatusLED
            (writeChannels { s with outByte := getFrame s.eeprom s.playbackPattern s.playbackIndex }
              (getFrame s.eeprom s.playbackPattern s.playbackIndex)) FASTBLINK
        else if s.playbackIndex = getPatternMax s.playbackPattern ∨ s.playbackIndex = 0 then
          setStatusLED (setStatusLED
            (writeChannels { s with outByte := getFrame s.eeprom s.playbackPattern s.playbackIndex }
              (getFrame s.eeprom s.playbackPattern s.playbackIndex)) ON) STUTTERBLINK
        else
          setStatusLED
            (writeChannels { s with outByte := getFrame s.eeprom s.playbackPattern s.playbackIndex }
              (getFrame s.eeprom s.playbackPattern s.playbackIndex)) SLOWBLINK := rfl

/-- The indicator mode that `nextFrame` selects. -/
theorem nextFrame_indicator (s : Device) :
    (getFrame s.eeprom s.playbackPattern s.playbackIndex &&& 0b10000000 ≠ 0 →
      (nextFrame s).statusBlinkDelay = FASTBLINK) ∧
    (getFrame s.eeprom s.playbackPattern s.playbackIndex &&& 0b10000000 = 0 →
      (s.playbackIndex = getPatternMax s.playbackPattern ∨ s.playbackIndex = 0) →
      (nextFrame s).statusBlinkDelay = STUTTERBLINK ∧
      (nextFrame s).PORTD &&& (1 <<< STATUSLED) ≠ 0) ∧
    (getFrame s.eeprom s.playbackPattern s.playbackIndex &&& 0b10000000 = 0 →
      s.playbackIndex ≠ getPatternMax s.playbackPattern → s.playbackIndex ≠ 0 →
      (nextFrame s).statusBlinkDelay = SLOWBLINK) := by
  rw [nextFrame_eq]
  refine ⟨?_, ?_, ?_⟩
  · intro hm
    rw [if_pos hm]
    exact (setStatusLED_blink _ FASTBLINK (by decide) (by decide)).1
  · intro hm hb
    rw [if_neg (fun h => h hm), if_pos hb]
    obtain ⟨a1, a2⟩ := setStatusLED_blink
      (setStatusLED (writeChannels
        { s with outByte := getFrame s.eeprom s.playbackPattern s.playbackIndex }
        (getFrame s.eeprom s.playbackPattern s.playbackIndex)) ON)
      STUTTERBLINK (by decide) (by decide)
    rw [a1, a2]
    refine ⟨rfl, ?_⟩
    unfold setStatusLED
    rw [if_pos rfl]
    exact led_bit_set _
  · intro hm h1 h0
    have hb2 : ¬ (s.playbackIndex = getPatternMax s.playbackPattern ∨ s.playbackIndex = 0) := by
      intro h
      rcases h with h | h
      · exact h1 h
      · exact h0 h
    rw [if_neg (fun h => h hm), if_neg hb2]
    exact (setStatusLED_blink _ SLOWBLINK (by decide) (by decide)).1

theorem firePlayback_led_bit (s : Device) (millis : Nat) :
    (firePlayback s millis).PORTD &&& (1 <<< STATUSLED) = s.PORTD &&& (1 <<< STATUSLED) := by
  obtain ⟨_, _, a3⟩ := advanceCursor_blink { s with playbackCounter := millis % 65536 }
  have hP : (firePlayback s millis).PORTD
      = ((advanceCursor { s with playbackCounter := millis % 65536 }).PORTD &&& 0b11000011) |||
        ((((firePlayback s millis).outByte % 256) ||| 0b11000000) &&& 0b00111100) := rfl
  rw [hP, led_bit_channels, a3]

theorem processOutputs_led_bit (s : Device) (millis : Nat) :
    (processOutputs s millis).PORTD &&& (1 <<< STATUSLED) = s.PORTD &&& (1 <<< STATUSLED) := by
  obtain ⟨_, _, d3⟩ := setPlaybackDir_blink s
  have hf := firePlayback_led_bit (setPlaybackDir s) millis
  unfold processOutputs
  simp only
  split_ifs
  · rw [hf, d3]
  · rw [d3]
  · rfl

theorem processStatusLED_stutter (s : Device) (millis : Nat)
    (hdue : sub16 millis s.statusBlinkCounter > s.statusBlinkDelay) :
    (s.statusBlinkDelay = 300 → (processStatusLED s millis).statusBlinkDelay = 100) ∧
    (s.statusBlinkDelay = 100 → (processStatusLED s millis).statusBlinkDelay = 300) ∧
    (s.statusBlinkDelay = SLOWBLINK → (processStatusLED s millis).statusBlinkDelay = SLOWBLINK) ∧
    (s.statusBlinkDelay = FASTBLINK → (processStatusLED s millis).statusBlinkDelay = FASTBLINK) := by
  have hd : ∀ d, d ≠ 0 → s.statusBlinkDelay = d →
      (processStatusLED s millis).statusBlinkDelay
        = if d = 100 then 300 else if d = 300 then 100 else d := by
    intro d hd0 hsd
    have hc : s.statusBlinkDelay ≠ 0 ∧ sub16 millis s.statusBlinkCounter > s.statusBlinkDelay :=
      ⟨by rw [hsd]; exact hd0, hdue⟩
    rw [processStatusLED_eq, if_pos hc]
    show (if s.statusBlinkDelay = 100 then 300
      else if s.statusBlinkDelay = 300 then 100 else s.statusBlinkDelay) = _
    rw [hsd]
  refine ⟨fun h => ?_, fun h => ?_, fun h => ?_, fun h => ?_⟩
  · rw [hd 300 (by decide) h]
    rfl
  · rw [hd 100 (by decide) h]
    rfl
  · rw [hd SLOWBLINK (by decide) h]
    rfl
  · rw [hd FASTBLINK (by decide) h]
    rfl

/-- C15, as the code has it: each time `nextFrame` emits a frame (on entering
Edit mode, after an adjust click and after a marker placement) the indicator
mode is recomputed: a frame with the marker bit gives fast blink (50 ms);
otherwise a cursor equal to 0 or to the physical maximum of the pattern
(`getPatternMax`, not the marker position) turns the indicator on and gives
stutter blink, whose period `processStatusLED` alternates between 300 ms and
100 ms; otherwise slow blink (400 ms).  A playback advance emits its frame
without recomputing the indicator: `processOutputs` leaves the blink period,
the blink counter and the LED bit of PORTD as they were. -/
theorem indicator_recomputed_by_nextFrame (s : Device) (millis : Nat) :
    (nextFrame s).channelLog
      = s.channelLog ++ [getFrame s.eeprom s.playbackPattern s.playbackIndex] ∧
    (getFrame s.eeprom s.playbackPattern s.playbackIndex &&& 0b10000000 ≠ 0 →
      (nextFrame s).statusBlinkDelay = FASTBLINK) ∧
    (getFrame s.eeprom s.playbackPattern s.playbackIndex &&& 0b10000000 = 0 →
      (s.playbackIndex = getPatternMax s.playbackPattern ∨ s.playbackIndex = 0) →
      (nextFrame s).statusBlinkDelay = STUTTERBLINK ∧
      (nextFrame s).PORTD &&& (1 <<< STATUSLED) ≠ 0) ∧
    (getFrame s.eeprom s.playbackPattern s.playbackIndex &&& 0b10000000 = 0 →
      s.playbackIndex ≠ getPatternMax s.playbackPattern → s.playbackIndex ≠ 0 →
      (nextFrame s).statusBlinkDelay = SLOWBLINK) ∧
    (sub16 millis s.statusBlinkCounter > s.statusBlinkDelay →
      (s.statusBlinkDelay = 300 → (processStatusLED s millis).statusBlinkDelay = 100) ∧
      (s.statusBlinkDelay = 100 → (processStatusLED s millis).statusBlinkDelay = 300) ∧
      (s.statusBlinkDelay = SLOWBLINK → (processStatusLED s millis).statusBlinkDelay = SLOWBLINK) ∧
      (s.statusBlinkDelay = FASTBLINK →
        (processStatusLED s millis).statusBlinkDelay = FASTBLINK)) ∧
    ((processOutputs s millis).statusBlinkDelay = s.statusBlinkDelay ∧
      (processOutputs s millis).statusBlinkCounter = s.statusBlinkCounter ∧
      (processOutputs s millis).PORTD &&& (1 <<< STATUSLED) = s.PORTD &&& (1 <<< STATUSLED)) := by
  obtain ⟨n1, n2, n3⟩ := nextFrame_indicator s
  obtain ⟨b1, b2⟩ := processOutputs_blink s millis
  exact ⟨nextFrame_channelLog s, n1, n2, n3, processStatusLED_stutter s millis,
    b1, b2, processOutputs_led_bit s millis⟩

/-- Counterexample to C15 as stated.  In Edit mode on pattern 0 of the
factory image (marker position 5) with the cursor on frame 7, which has no
marker bit, the cursor is neither 0 nor the marker position, yet `nextFrame`
selects stutter blink, not slow blink, because 7 is the physical maximum.
In Playback mode after startup the advance at 200 ms emits frame 1 (no marker
bit, cursor neither 0 nor 5) and the blink period stays 0 (steady on), not
slow blink. -/
theorem indicator_not_by_marker_position_nor_in_playback :
    ((editAtLast).playbackMarkerPos = 5 ∧ (editAtLast).playbackIndex = 7 ∧
      getFrame (editAtLast).eeprom (editAtLast).playbackPattern (editAtLast).playbackIndex
        &&& 0b10000000 = 0 ∧
      (nextFrame editAtLast).statusBlinkDelay = STUTTERBLINK ∧
      (nextFrame editAtLast).statusBlinkDelay ≠ SLOWBLINK) ∧
    ((startup factoryEEPROM).machineState = RUN ∧
      (processOutputs (startup factoryEEPROM) 200).channelLog
        = (startup factoryEEPROM).channelLog ++ [getFrame factoryEEPROM 0 1] ∧
      (processOutputs (startup factoryEEPROM) 200).playbackIndex = 1 ∧
      (processOutputs (startup factoryEEPROM) 200).playbackMarkerPos = 5 ∧
      getFrame factoryEEPROM 0 1 &&& 0b10000000 = 0 ∧
      (processOutputs (startup factoryEEPROM) 200).statusBlinkDelay = 0 ∧
      (processOutputs (startup factoryEEPROM) 200).statusBlinkDelay ≠ SLOWBLINK) := by
  refine ⟨⟨?_, ?_, ?_, ?_, ?_⟩, ⟨?_, ?_, ?_, ?_, ?_, ?_, ?_⟩⟩ <;> decide

end ELbow
